import Mathlib

/-!
# BookStore backend: cart, order placement, stock and ratings

A shallow embedding of the order/cart core of the BookStore backend
(`bookstore-backend/src/controllers/orderController.js`,
`controllers/cartController.js`, `models/Cart.js`, `models/Order.js`,
`models/Book.js`), of its review handlers (`controllers/reviewController.js`,
`models/Review.js`) and of the book handlers that write
(`controllers/bookController.js`).

Modelling conventions

* A MongoDB collection is a list of documents; `findById` / `findOne` return the
  first matching document, `updateOne` changes the first matching document.
* `ObjectId`s are natural numbers; the generator of fresh ids is the counter
  `State.nextId`.
* JavaScript `Number` fields (stock, quantity, amounts) are exact integers;
  amounts are counted in the minor currency unit, rounding is not modelled.
* A handler maps a state and a request to a response and a new state.  A
  rejected promise (an exception inside the `asyncHandler` wrapper) is the
  response `Response.thrown`.
* Only the document fields that the cart/order core reads or writes are kept.
* The answer of the Google Books API to `importGoogleBook` is a field of the request.
* An id in a URL parameter is already cast: the request names a document by its `ObjectId`,
  spelled as `toString()` prints it. The `bookId` and the `quantity` in the body of
  `addToCart` are kept as sent (`RawId`, `Quantity`): the handler compares the id as a
  string and applies `+=` to the quantity without a cast.
* A hook that a handler starts without awaiting it (the rating recomputation after a review
  is saved or removed) runs to completion before the next request.
-/

set_option autoImplicit false

namespace BookStore

abbrev ObjectId := Nat

/-! ## Documents -/

/-- Sub-document `price{amount, currencyCode}` of books, cart items and order items. -/
structure Price where
  amount : Int
  currencyCode : String
deriving DecidableEq, Repr

/-- Sub-document `rating{average, count}` of `models/Book.js`. -/
structure Rating where
  average : Rat := 0
  count : Int := 0
deriving DecidableEq, Repr

/-- Book document of `models/Book.js` (fields used by the core). -/
structure Book where
  _id : ObjectId
  title : String
  price : Price
  rating : Rating := {}
  stock : Int
  googleBooksId : Option String := none
deriving DecidableEq, Repr

/-- Cart line of `CartItemSchema` in `models/Cart.js`. -/
structure CartItem where
  _id : ObjectId
  book : ObjectId
  quantity : Int
  price : Price
deriving DecidableEq, Repr

/-- Cart document of `CartSchema` in `models/Cart.js`. -/
structure Cart where
  _id : ObjectId
  user : ObjectId
  items : List CartItem
  totalAmount : Int
  currencyCode : String
deriving DecidableEq, Repr

/-- Order line of `OrderItemSchema` in `models/Order.js`. -/
structure OrderItem where
  book : ObjectId
  title : String
  quantity : Int
  price : Price
deriving DecidableEq, Repr

/-- Sub-document `shippingAddress` of `OrderSchema`; an absent field is the empty string. -/
structure ShippingAddress where
  fullName : String
  street : String
  city : String
  state : String
  zipCode : String
  country : String
  phoneNumber : String
deriving DecidableEq, Repr

/-- Sub-document `paymentResult` of `OrderSchema`. -/
structure PaymentResult where
  id : Option String
  status : Option String
  updateTime : Option String
  emailAddress : Option String
deriving DecidableEq, Repr

/-- Order document of `OrderSchema` in `models/Order.js`. -/
structure Order where
  _id : ObjectId
  user : ObjectId
  items : List OrderItem
  totalAmount : Int
  currencyCode : String
  shippingAddress : ShippingAddress
  paymentMethod : String
  paymentResult : Option PaymentResult
  taxAmount : Int
  shippingAmount : Int
  status : String
  isPaid : Bool
  paidAt : Option Nat
  isDelivered : Bool
  deliveredAt : Option Nat
deriving DecidableEq, Repr

/-- Review document of `ReviewSchema` in `models/Review.js`. -/
structure Review where
  _id : ObjectId
  user : ObjectId
  book : ObjectId
  rating : Int
  title : String
  comment : String
  isVerifiedPurchase : Bool
deriving DecidableEq, Repr

/-- Authenticated principal `req.user` set by the `protect` middleware. -/
structure User where
  id : ObjectId
  role : String
deriving DecidableEq, Repr

/-- Contents of the document store. -/
structure State where
  books : List Book
  carts : List Cart
  orders : List Order
  nextId : ObjectId
  reviews : List Review := []
deriving DecidableEq, Repr

/-! ## Responses -/

/-- Payload of a successful response (`data`). -/
inductive Data where
  | order (o : Order)
  | cart (c : Cart)
  | review (r : Review)
  | book (b : Book)
  | empty
deriving DecidableEq, Repr

/-- Exceptions that reach the `asyncHandler` wrapper. -/
inductive Thrown where
  | typeError
  | validationError
  | duplicateKey
  | fetchError
  | castError
deriving DecidableEq, Repr

/-- Outcome of a handler: `res.status(..).json(..)` or a rejected promise. -/
inductive Response where
  | success (status : Nat) (data : Data)
  | failure (status : Nat) (message : String)
  | validationErrors
  | thrown (err : Thrown)
deriving DecidableEq, Repr

/-! ## Store primitives -/

/-- Query `Book.findById(id)`. -/
def Book.findById (books : List Book) (id : ObjectId) : Option Book :=
  books.find? (fun b => b._id == id)

/-- One `updateOne: { filter: { _id }, update: { $inc: { stock: d } } }` operation. -/
def Book.incStock : List Book → ObjectId → Int → List Book
  | [], _, _ => []
  | b :: bs, id, d =>
    if b._id = id then { b with stock := b.stock + d } :: bs
    else b :: Book.incStock bs id d

/-- Call `Book.bulkWrite(ops)`: the operations are applied in order. -/
def Book.bulkWrite (books : List Book) (ops : List (ObjectId × Int)) : List Book :=
  ops.foldl (fun bs op => Book.incStock bs op.1 op.2) books

/-- Query `Cart.findOne({ user })`. -/
def Cart.findOne (carts : List Cart) (user : ObjectId) : Option Cart :=
  carts.find? (fun c => c.user == user)

/-- Query `Order.findById(id)`. -/
def Order.findById (orders : List Order) (id : ObjectId) : Option Order :=
  orders.find? (fun o => o._id == id)

/-- Write a cart document back under its `_id`. -/
def Cart.replace : List Cart → Cart → List Cart
  | [], _ => []
  | c :: cs, n => if c._id = n._id then n :: cs else c :: Cart.replace cs n

/-- Write an order document back under its `_id`. -/
def Order.replace : List Order → Order → List Order
  | [], _ => []
  | o :: os, n => if o._id = n._id then n :: os else o :: Order.replace os n

/-! ## `models/Cart.js` -/

/-- The reducer of `CartSchema.pre('save')`:
`items.reduce((total, item) => total + item.price.amount * item.quantity, 0)`. -/
def Cart.computeTotal (items : List CartItem) : Int :=
  items.foldl (fun total item => total + item.price.amount * item.quantity) 0

/-- Schema validation of a cart: `quantity` has `min: 1`, `price.currencyCode` is required. -/
def Cart.validate (c : Cart) : Bool :=
  c.items.all (fun item => decide (1 ≤ item.quantity) && item.price.currencyCode != "")

/-- Method `cart.save()`: validation, then the `pre('save')` hook, then the write. -/
def Cart.save (carts : List Cart) (c : Cart) : Option (Cart × List Cart) :=
  if Cart.validate c then
    let saved := { c with totalAmount := Cart.computeTotal c.items }
    some (saved, Cart.replace carts saved)
  else none

/-! ## `models/Order.js` -/

/-- The `enum` of `OrderSchema.status`. -/
def Order.statusEnum : List String :=
  ["pending", "processing", "shipped", "delivered", "cancelled"]

/-- The `enum` of `OrderSchema.paymentMethod`. -/
def Order.paymentMethodEnum : List String :=
  ["credit_card", "paypal", "stripe", "cash_on_delivery"]

/-- Required fields of `shippingAddress`. -/
def ShippingAddress.validate (a : ShippingAddress) : Bool :=
  a.fullName != "" && a.street != "" && a.city != "" && a.state != "" &&
  a.zipCode != "" && a.country != "" && a.phoneNumber != ""

/-- Schema validation of an order line. -/
def OrderItem.validate (i : OrderItem) : Bool :=
  i.title != "" && decide (1 ≤ i.quantity) && i.price.currencyCode != ""

/-- Schema validation of an order document. -/
def Order.validate (o : Order) : Bool :=
  o.items.all OrderItem.validate && o.shippingAddress.validate &&
  Order.paymentMethodEnum.contains o.paymentMethod &&
  Order.statusEnum.contains o.status

/-- Method `order.save()`: validation, then the write. -/
def Order.save (orders : List Order) (o : Order) : Option (List Order) :=
  if Order.validate o then some (Order.replace orders o) else none

/-- Virtual `grandTotal` of `OrderSchema`. -/
def Order.grandTotal (o : Order) : Int :=
  o.totalAmount + o.taxAmount + o.shippingAmount

/-- Sum of `price.amount * quantity` over cart lines. -/
def Cart.linesTotal (items : List CartItem) : Int :=
  (items.map (fun item => item.price.amount * item.quantity)).sum

/-- Sum of `price.amount * quantity` over order lines. -/
def Order.linesTotal (items : List OrderItem) : Int :=
  (items.map (fun i => i.price.amount * i.quantity)).sum

/-- Fields passed to `Order.create` by `createOrder`. -/
structure OrderFields where
  user : ObjectId
  items : List OrderItem
  shippingAddress : ShippingAddress
  paymentMethod : String
  totalAmount : Int
  currencyCode : String
  taxAmount : Int
  shippingAmount : Int
deriving DecidableEq, Repr

/-- The document built by `Order.create(fields)` with the schema defaults
(`status: 'pending'`, `isPaid: false`, `isDelivered: false`). -/
def Order.build (id : ObjectId) (f : OrderFields) : Order :=
  { _id := id, user := f.user, items := f.items, totalAmount := f.totalAmount,
    currencyCode := f.currencyCode, shippingAddress := f.shippingAddress,
    paymentMethod := f.paymentMethod, paymentResult := none,
    taxAmount := f.taxAmount, shippingAmount := f.shippingAmount,
    status := "pending", isPaid := false, paidAt := none,
    isDelivered := false, deliveredAt := none }

/-- Call `Order.create(fields)`: a fresh id, validation, then the insert. -/
def Order.create (s : State) (f : OrderFields) : Option (Order × State) :=
  let order := Order.build s.nextId f
  if Order.validate order then
    some (order, { s with orders := s.orders ++ [order], nextId := s.nextId + 1 })
  else none

/-- Call `Cart.create({ user, items: [] })`. -/
def Cart.create (s : State) (user : ObjectId) : Cart × State :=
  let cart : Cart :=
    { _id := s.nextId, user := user, items := [], totalAmount := 0, currencyCode := "USD" }
  (cart, { s with carts := s.carts ++ [cart], nextId := s.nextId + 1 })

/-! ## `controllers/orderController.js` -/

/-- Body and principal of `POST /api/orders`. -/
structure CreateOrderRequest where
  user : User
  shippingAddress : Option ShippingAddress
  paymentMethod : String
  taxAmount : Option Int
  shippingAmount : Option Int
deriving DecidableEq, Repr

/-- Route checks of `POST /api/orders` (`routes/orderRoutes.js`):
`shippingAddress` and `paymentMethod` are not empty. -/
def CreateOrderRequest.valid (req : CreateOrderRequest) : Bool :=
  req.shippingAddress.isSome && req.paymentMethod != ""

/-- Result of `.populate('items.book')`: each line with its book document, or `null`. -/
def Cart.populate (books : List Book) (items : List CartItem) : List (CartItem × Option Book) :=
  items.map (fun item => (item, Book.findById books item.book))

/-- Message of the insufficient-stock response of `createOrder`. -/
def insufficientStockMessage (title : String) (stock : Int) : String :=
  title ++ " is not available in the requested quantity. Available stock: " ++ toString stock

/-- Message of the insufficient-stock response of the cart handlers. -/
def cartStockMessage (stock : Int) : String :=
  "Book is not available in the requested quantity. Available stock: " ++ toString stock

/-- The loop `for (const item of cart.items)` of `createOrder`: the response of its first
`return` (or the `TypeError` of reading `stock` of `null`), `none` when the loop completes. -/
def createOrder.checkStock : List (CartItem × Option Book) → Option Response
  | [] => none
  | (_, none) :: _ => some (Response.thrown Thrown.typeError)
  | (item, some book) :: rest =>
    if book.stock < item.quantity then
      some (Response.failure 400 (insufficientStockMessage book.title book.stock))
    else createOrder.checkStock rest

/-- The `cart.items.map` that builds `orderItems`; `none` is the `TypeError` of a `null` book. -/
def createOrder.orderItems : List (CartItem × Option Book) → Option (List OrderItem)
  | [] => some []
  | (_, none) :: _ => none
  | (item, some book) :: rest =>
    (createOrder.orderItems rest).map (fun tail =>
      { book := book._id, title := book.title, quantity := item.quantity,
        price := item.price } :: tail)

/-- The `cart.items.map` that builds `bulkOps`: `$inc: { stock: -item.quantity }`. -/
def createOrder.bulkOps : List (CartItem × Option Book) → Option (List (ObjectId × Int))
  | [] => some []
  | (_, none) :: _ => none
  | (item, some book) :: rest =>
    (createOrder.bulkOps rest).map (fun tail => (book._id, -item.quantity) :: tail)

/-- Response of `createOrder` on a missing or empty cart. -/
def emptyCartResponse : Response :=
  Response.failure 400 "Cart is empty, cannot create order"

/-- Handler `exports.createOrder`.  The case `true, none` of the first match cannot occur:
the route check requires `shippingAddress`. -/
def createOrder (s : State) (req : CreateOrderRequest) : Response × State :=
  match req.valid, req.shippingAddress with
  | false, _ => (Response.validationErrors, s)
  | true, none => (Response.validationErrors, s)
  | true, some shippingAddress =>
    match Cart.findOne s.carts req.user.id with
    | none => (emptyCartResponse, s)
    | some cart =>
      if cart.items.length = 0 then (emptyCartResponse, s)
      else
        let populated := Cart.populate s.books cart.items
        match createOrder.checkStock populated with
        | some response => (response, s)
        | none =>
          match createOrder.orderItems populated, createOrder.bulkOps populated with
          | some orderItems, some bulkOps =>
            match Order.create s
                { user := req.user.id, items := orderItems,
                  shippingAddress := shippingAddress,
                  paymentMethod := req.paymentMethod,
                  totalAmount := cart.totalAmount,
                  currencyCode := if cart.currencyCode = "" then "USD" else cart.currencyCode,
                  taxAmount := req.taxAmount.getD 0,
                  shippingAmount := req.shippingAmount.getD 0 } with
            | none => (Response.thrown Thrown.validationError, s)
            | some (order, s1) =>
              let s2 := { s1 with books := Book.bulkWrite s1.books bulkOps }
              match Cart.save s2.carts { cart with items := [] } with
              | none => (Response.thrown Thrown.validationError, s2)
              | some (_, carts) => (Response.success 201 (Data.order order), { s2 with carts := carts })
          | _, _ => (Response.thrown Thrown.typeError, s)

/-- Params, body and principal of `PUT /api/orders/:id/pay`; `now` is `Date.now()`. -/
structure PayRequest where
  user : User
  id : ObjectId
  paymentResult : PaymentResult
  now : Nat
deriving DecidableEq, Repr

/-- The assignments of `updateOrderToPaid` to the loaded order document. -/
def updateOrderToPaid.assign (order : Order) (req : PayRequest) : Order :=
  { order with
    isPaid := true, paidAt := some req.now, status := "processing",
    paymentResult := some req.paymentResult }

/-- Handler `exports.updateOrderToPaid`. -/
def updateOrderToPaid (s : State) (req : PayRequest) : Response × State :=
  match Order.findById s.orders req.id with
  | none => (Response.failure 404 "Order not found", s)
  | some order =>
    if order.user ≠ req.user.id ∧ req.user.role ≠ "admin" then
      (Response.failure 403 "Not authorized to update this order", s)
    else
      let updated := updateOrderToPaid.assign order req
      match Order.save s.orders updated with
      | none => (Response.thrown Thrown.validationError, s)
      | some orders => (Response.success 200 (Data.order updated), { s with orders := orders })

/-- Params and body of `PUT /api/orders/:id/status`; `now` is `Date.now()`. -/
structure StatusRequest where
  id : ObjectId
  status : String
  now : Nat
deriving DecidableEq, Repr

/-- The `bulkOps` of `updateOrderStatus`: `$inc: { stock: item.quantity }` per order line. -/
def updateOrderStatus.bulkOps (items : List OrderItem) : List (ObjectId × Int) :=
  items.map (fun item => (item.book, item.quantity))

/-- The assignments of `updateOrderStatus` to the loaded order document: `status`, and
`isDelivered`, `deliveredAt` when the new status is 'delivered'. -/
def updateOrderStatus.assign (order : Order) (req : StatusRequest) : Order :=
  let order1 := { order with status := req.status }
  if req.status = "delivered" then
    { order1 with isDelivered := true, deliveredAt := some req.now }
  else order1

/-- Handler `exports.updateOrderStatus`. -/
def updateOrderStatus (s : State) (req : StatusRequest) : Response × State :=
  match Order.findById s.orders req.id with
  | none => (Response.failure 404 "Order not found", s)
  | some order =>
    let order2 := updateOrderStatus.assign order req
    let s1 :=
      if req.status = "cancelled" ∧ order2.isDelivered = false then
        { s with books := Book.bulkWrite s.books (updateOrderStatus.bulkOps order2.items) }
      else s
    match Order.save s1.orders order2 with
    | none => (Response.thrown Thrown.validationError, s1)
    | some orders => (Response.success 200 (Data.order order2), { s1 with orders := orders })

/-! ## `controllers/cartController.js` -/

/-- The string `bookId` of a request body, by what the handler can observe of it. A string
that Mongoose casts to an `ObjectId` (`castable`): `id` is that id, whatever the case of the
hex digits, and `canonical` says that the string is spelled as `ObjectId.toString()` prints
it (24 hex digits in lower case). Or a string that does not cast (`uncastable`), empty or
not. So `'507f1f77bcf86cd799439011'` and `'507F1F77BCF86CD799439011'` are `castable id true`
and `castable id false` for one and the same `id`. -/
inductive RawId where
  | castable (id : ObjectId) (canonical : Bool)
  | uncastable (isEmpty : Bool)
deriving DecidableEq, Repr

/-- The cast of the string in a query such as `Book.findById(bookId)`; `none` is a
`CastError`. -/
def RawId.cast : RawId → Option ObjectId
  | RawId.castable id _ => some id
  | RawId.uncastable _ => none

/-- The comparison `id.toString() === raw` of a stored id with the string. -/
def RawId.isStringOf (raw : RawId) (id : ObjectId) : Bool :=
  match raw with
  | RawId.castable k canonical => canonical && k == id
  | RawId.uncastable _ => false

/-- The route check `.not().isEmpty()`. -/
def RawId.notEmpty : RawId → Bool
  | RawId.uncastable true => false
  | _ => true

/-- The value `quantity` of a request body: a JSON number or a JSON string. -/
inductive Quantity where
  | number (n : Int)
  | text (s : String)
deriving DecidableEq, Repr

/-- The value of a run of decimal digits; `none` when it is empty or holds another
character. -/
def decimalValue (cs : List Char) : Option Nat :=
  if cs.isEmpty || !cs.all Char.isDigit then none
  else some (cs.foldl (fun n c => 10 * n + (c.toNat - 48)) 0)

/-- JavaScript `Number(s)` on the strings the cart handler applies it to, an optional sign
followed by decimal digits; every other string these applications meet is not a number
(`NaN`, here `none`). -/
def stringToNumber (s : String) : Option Int :=
  match s.data with
  | '+' :: cs => (decimalValue cs).map (fun n => (n : Int))
  | '-' :: cs => (decimalValue cs).map (fun n => -(n : Int))
  | cs => (decimalValue cs).map (fun n => (n : Int))

/-- The number a body value stands for in a comparison or after a cast. -/
def Quantity.toNumber : Quantity → Option Int
  | Quantity.number n => some n
  | Quantity.text s => stringToNumber s

/-- The route check `.isInt({ min })` of express-validator: the value, printed as a string,
is an optional sign followed by decimal digits, and is at least `min`. The body keeps the
value as it was sent. -/
def Quantity.isInt (q : Quantity) (min : Int) : Bool :=
  match q.toNumber with
  | some n => decide (min ≤ n)
  | none => false

/-- The comparison `stock < quantity`; it is false when `quantity` is not a number. -/
def Quantity.exceeds (q : Quantity) (stock : Int) : Bool :=
  match q.toNumber with
  | some n => decide (stock < n)
  | none => false

/-- The statement `line.quantity += quantity` on a stored number `x`: `+` adds two numbers
and appends a string to the printed number; the assignment casts the result to a number,
and `none` is a failed cast. -/
def Quantity.addTo (x : Int) : Quantity → Option Int
  | Quantity.number n => some (x + n)
  | Quantity.text s => stringToNumber (toString x ++ s)

/-- Body and principal of `POST /api/cart`; `bookId` and `quantity` are as sent. -/
structure AddToCartRequest where
  user : User
  bookId : RawId
  quantity : Quantity
deriving DecidableEq, Repr

/-- Route checks of `POST /api/cart`: `bookId` is not empty, `quantity` is an integer
`>= 1`. -/
def AddToCartRequest.valid (req : AddToCartRequest) : Bool :=
  req.bookId.notEmpty && req.quantity.isInt 1

/-- The tail of the cart handlers: `await cart.save()` and the 200 response. -/
def saveCartAndRespond (s : State) (cart : Cart) : Response × State :=
  match Cart.save s.carts cart with
  | none => (Response.thrown Thrown.validationError, s)
  | some (saved, carts) => (Response.success 200 (Data.cart saved), { s with carts := carts })

/-- The "find or create cart" step of `addToCart`. -/
def addToCart.findOrCreate (s : State) (user : ObjectId) : Cart × State :=
  match Cart.findOne s.carts user with
  | some cart => (cart, s)
  | none => Cart.create s user

/-- Handler `exports.addToCart`. `Book.findById(bookId)` casts the string; the search for
the line compares `item.book.toString()` with the string as sent; `+=` works on the value
as sent; a value that does not cast to a number makes `cart.save()` reject. -/
def addToCart (s : State) (req : AddToCartRequest) : Response × State :=
  if req.valid = false then (Response.validationErrors, s)
  else
    match req.bookId.cast with
    | none => (Response.thrown Thrown.castError, s)
    | some bookId =>
      match Book.findById s.books bookId with
      | none => (Response.failure 404 "Book not found", s)
      | some book =>
        if req.quantity.exceeds book.stock then
          (Response.failure 400 (cartStockMessage book.stock), s)
        else
          let found := addToCart.findOrCreate s req.user.id
          let cart := found.1
          let s1 := found.2
          match cart.items.findIdx? (fun item => req.bookId.isStringOf item.book) with
          | some itemIndex =>
            match (cart.items.get? itemIndex).bind
                (fun item => req.quantity.addTo item.quantity) with
            | none => (Response.thrown Thrown.validationError, s1)
            | some quantity =>
              let items := cart.items.modify
                (fun item => { item with quantity := quantity }) itemIndex
              saveCartAndRespond s1 { cart with items := items }
          | none =>
            match req.quantity.toNumber with
            | none => (Response.thrown Thrown.validationError, s1)
            | some quantity =>
              let item : CartItem :=
                { _id := s1.nextId, book := bookId, quantity := quantity,
                  price := book.price }
              saveCartAndRespond { s1 with nextId := s1.nextId + 1 }
                { cart with items := cart.items ++ [item] }

/-- Params, body and principal of `PUT /api/cart/:itemId`. `quantity` is the number that the
body value stands for: the handler compares it with the stock and assigns it to the line,
and both take a numeric string as its number. -/
structure UpdateCartItemRequest where
  user : User
  itemId : ObjectId
  quantity : Int
deriving DecidableEq, Repr

/-- Handler `exports.updateCartItem`; the route check is `quantity` is an integer `>= 1`. -/
def updateCartItem (s : State) (req : UpdateCartItemRequest) : Response × State :=
  if req.quantity < 1 then (Response.validationErrors, s)
  else
    match Cart.findOne s.carts req.user.id with
    | none => (Response.failure 404 "Cart not found", s)
    | some cart =>
      match cart.items.findIdx? (fun item => item._id == req.itemId) with
      | none => (Response.failure 404 "Cart item not found", s)
      | some itemIndex =>
        match (cart.items.get? itemIndex).bind (fun item => Book.findById s.books item.book) with
        | none => (Response.failure 404 "Book not found", s)
        | some book =>
          if book.stock < req.quantity then
            (Response.failure 400 (cartStockMessage book.stock), s)
          else
            let items := cart.items.modify
              (fun item => { item with quantity := req.quantity }) itemIndex
            saveCartAndRespond s { cart with items := items }

/-- Params and principal of `DELETE /api/cart/:itemId`. -/
structure RemoveCartItemRequest where
  user : User
  itemId : ObjectId
deriving DecidableEq, Repr

/-- Handler `exports.removeCartItem`. -/
def removeCartItem (s : State) (req : RemoveCartItemRequest) : Response × State :=
  match Cart.findOne s.carts req.user.id with
  | none => (Response.failure 404 "Cart not found", s)
  | some cart =>
    match cart.items.findIdx? (fun item => item._id == req.itemId) with
    | none => (Response.failure 404 "Cart item not found", s)
    | some itemIndex => saveCartAndRespond s { cart with items := cart.items.eraseIdx itemIndex }

/-- Handler `exports.clearCart`. -/
def clearCart (s : State) (user : User) : Response × State :=
  match Cart.findOne s.carts user.id with
  | none => (Response.failure 404 "Cart not found", s)
  | some cart => saveCartAndRespond s { cart with items := [] }

/-- A request that saves the cart of `user`. -/
inductive CartMutation where
  | addToCart (bookId : RawId) (quantity : Quantity)
  | updateCartItem (itemId : ObjectId) (quantity : Int)
  | removeCartItem (itemId : ObjectId)
  | clearCart
  | createOrder (shippingAddress : Option ShippingAddress) (paymentMethod : String)
      (taxAmount shippingAmount : Option Int)
deriving DecidableEq, Repr

/-- Dispatch of a cart-saving request of `user` to its handler. -/
def CartMutation.run (s : State) (user : User) : CartMutation → Response × State
  | CartMutation.addToCart bookId quantity =>
    BookStore.addToCart s { user := user, bookId := bookId, quantity := quantity }
  | CartMutation.updateCartItem itemId quantity =>
    BookStore.updateCartItem s { user := user, itemId := itemId, quantity := quantity }
  | CartMutation.removeCartItem itemId =>
    BookStore.removeCartItem s { user := user, itemId := itemId }
  | CartMutation.clearCart => BookStore.clearCart s user
  | CartMutation.createOrder shippingAddress paymentMethod taxAmount shippingAmount =>
    BookStore.createOrder s
      { user := user, shippingAddress := shippingAddress, paymentMethod := paymentMethod,
        taxAmount := taxAmount, shippingAmount := shippingAmount }

/-- Whether a response is a `success: true` response. -/
def Response.isSuccess : Response → Bool
  | Response.success _ _ => true
  | _ => false

/-- A request to one of the cart, order-placement and order-status handlers. -/
inductive Operation where
  | cart (user : User) (m : CartMutation)
  | pay (req : PayRequest)
  | status (req : StatusRequest)
deriving DecidableEq, Repr

/-- Dispatch of a request to its handler. -/
def Operation.run (s : State) : Operation → Response × State
  | Operation.cart user m => m.run s user
  | Operation.pay req => updateOrderToPaid s req
  | Operation.status req => updateOrderStatus s req

/-- Sequential execution of requests: each handler runs on the store left by the previous one. -/
def runAll (s : State) (ops : List Operation) : State :=
  ops.foldl (fun st op => (op.run st).2) s

/-! ## `controllers/bookController.js`: `updateBook` -/

/-- The `trim: true` setter of a schema string: leading and trailing whitespace removed. -/
def trimmed (s : String) : String :=
  String.mk ((s.data.dropWhile Char.isWhitespace).reverse.dropWhile Char.isWhitespace).reverse

/-- The `enum` of `BookSchema.price.currencyCode`. -/
def Book.currencyEnum : List String := ["USD", "EUR", "GBP", "CAD", "AUD", "INR"]

/-- Body of `PUT /api/books/:id`: the paths of the update document that the model tracks;
`none` is a path the body does not mention. -/
structure BookUpdate where
  title : Option String := none
  priceAmount : Option Int := none
  priceCurrencyCode : Option String := none
  stock : Option Int := none
  ratingAverage : Option Rat := none
  ratingCount : Option Int := none
deriving DecidableEq, Repr

/-- Update validators (`runValidators: true`) on the paths present in the body. -/
def BookUpdate.validate (u : BookUpdate) : Bool :=
  (u.title.all (fun x => trimmed x != "" && decide ((trimmed x).length ≤ 200))) &&
  (u.priceAmount.all (fun x => decide (0 ≤ x))) &&
  (u.priceCurrencyCode.all (fun x => Book.currencyEnum.contains x)) &&
  (u.stock.all (fun x => decide (0 ≤ x))) &&
  (u.ratingAverage.all (fun x => decide (0 ≤ x) && decide (x ≤ 5)))

/-- The document after `$set` of the paths present in the body. -/
def BookUpdate.apply (u : BookUpdate) (b : Book) : Book :=
  { b with
    title := (u.title.map trimmed).getD b.title,
    price := { amount := u.priceAmount.getD b.price.amount,
               currencyCode := u.priceCurrencyCode.getD b.price.currencyCode },
    stock := u.stock.getD b.stock,
    rating := { average := u.ratingAverage.getD b.rating.average,
                count := u.ratingCount.getD b.rating.count } }

/-- Write a book document back under its `_id`. -/
def Book.replace : List Book → Book → List Book
  | [], _ => []
  | b :: bs, n => if b._id = n._id then n :: bs else b :: Book.replace bs n

/-- Params and body of `PUT /api/books/:id` (the route admits role `admin` only). -/
structure UpdateBookRequest where
  id : ObjectId
  body : BookUpdate
deriving DecidableEq, Repr

/-- Handler `exports.updateBook`: `Book.findByIdAndUpdate(id, req.body, { runValidators })`. -/
def updateBook (s : State) (req : UpdateBookRequest) : Response × State :=
  match Book.findById s.books req.id with
  | none => (Response.failure 404 ("Book not found with id of " ++ toString req.id), s)
  | some book =>
    if req.body.validate then
      let updated := req.body.apply book
      (Response.success 200 (Data.book updated),
        { s with books := Book.replace s.books updated })
    else (Response.thrown Thrown.validationError, s)

/-! ## `models/Review.js` -/

/-- Schema validation of a review: `rating` in 1..5, `title` and `comment` required with a
maximal length. -/
def Review.validate (r : Review) : Bool :=
  decide (1 ≤ r.rating) && decide (r.rating ≤ 5) &&
  r.title != "" && decide (r.title.length ≤ 100) &&
  r.comment != "" && decide (r.comment.length ≤ 1000)

/-- Query `Review.findOne({ user, book })`. -/
def Review.findOne (reviews : List Review) (user book : ObjectId) : Option Review :=
  reviews.find? (fun r => r.user == user && r.book == book)

/-- Query `Review.findById(id)`. -/
def Review.findById (reviews : List Review) (id : ObjectId) : Option Review :=
  reviews.find? (fun r => r._id == id)

/-- The reviews matched by `$match: { book: bookId }`. -/
def Review.ofBook (reviews : List Review) (bookId : ObjectId) : List Review :=
  reviews.filter (fun r => r.book == bookId)

/-- The `$group` stage of `calculateAverageRating` and the choice between its result and
`0, 0`: `$avg` of `rating` and `$sum: 1` over the matched reviews. -/
def Review.stats (matched : List Review) : Rating :=
  if matched.length > 0 then
    { average := (((matched.map (fun r => r.rating)).sum : Int) : Rat) / (matched.length : Rat),
      count := (matched.length : Int) }
  else { average := 0, count := 0 }

/-- Call `Book.findByIdAndUpdate(bookId, { 'rating.average', 'rating.count' })`. -/
def Book.setRating : List Book → ObjectId → Rating → List Book
  | [], _, _ => []
  | b :: bs, id, r =>
    if b._id = id then { b with rating := r } :: bs else b :: Book.setRating bs id r

/-- Static `ReviewSchema.statics.calculateAverageRating(bookId)`. -/
def Review.calculateAverageRating (reviews : List Review) (books : List Book)
    (bookId : ObjectId) : List Book :=
  Book.setRating books bookId (Review.stats (Review.ofBook reviews bookId))

/-- Write a review document back under its `_id`. -/
def Review.replace : List Review → Review → List Review
  | [], _ => []
  | r :: rs, n => if r._id = n._id then n :: rs else r :: Review.replace rs n

/-- Delete the review document with the given `_id`. -/
def Review.delete : List Review → ObjectId → List Review
  | [], _ => []
  | r :: rs, id => if r._id = id then rs else r :: Review.delete rs id

/-- Fields passed to `Review.create` by `createReview`. -/
structure ReviewFields where
  user : ObjectId
  book : ObjectId
  rating : Int
  title : String
  comment : String
  isVerifiedPurchase : Bool
deriving DecidableEq, Repr

/-- Call `Review.create(fields)`: a fresh id, the `trim` setter of `title`, validation, the
unique index on `(user, book)`, the insert, then the `post('save')` hook that recomputes
the rating of the book. -/
def Review.create (s : State) (f : ReviewFields) : Except Thrown (Review × State) :=
  let review : Review :=
    { _id := s.nextId, user := f.user, book := f.book, rating := f.rating,
      title := trimmed f.title, comment := f.comment,
      isVerifiedPurchase := f.isVerifiedPurchase }
  if Review.validate review = false then Except.error Thrown.validationError
  else if (Review.findOne s.reviews f.user f.book).isSome then
    Except.error Thrown.duplicateKey
  else
    let reviews := s.reviews ++ [review]
    Except.ok (review,
      { s with
        reviews := reviews, nextId := s.nextId + 1,
        books := Review.calculateAverageRating reviews s.books f.book })

/-! ## `controllers/reviewController.js` -/

/-- Params, body and principal of `POST /api/books/:bookId/reviews`. -/
structure CreateReviewRequest where
  user : User
  bookId : ObjectId
  rating : Int
  title : String
  comment : String
deriving DecidableEq, Repr

/-- Route checks of `POST /api/books/:bookId/reviews`: `rating` is an integer in 1..5,
`title` and `comment` are not empty. -/
def CreateReviewRequest.valid (req : CreateReviewRequest) : Bool :=
  decide (1 ≤ req.rating) && decide (req.rating ≤ 5) && req.title != "" && req.comment != ""

/-- The query `Order.find({ user, isPaid: true, 'items.book': bookId })` of `createReview`. -/
def createReview.userOrders (orders : List Order) (user bookId : ObjectId) : List Order :=
  orders.filter (fun o => o.user == user && o.isPaid && o.items.any (fun i => i.book == bookId))

/-- Handler `exports.createReview`. -/
def createReview (s : State) (req : CreateReviewRequest) : Response × State :=
  if req.valid = false then (Response.validationErrors, s)
  else
    match Book.findById s.books req.bookId with
    | none => (Response.failure 404 "Book not found", s)
    | some _ =>
      match Review.findOne s.reviews req.user.id req.bookId with
      | some _ => (Response.failure 400 "You have already reviewed this book", s)
      | none =>
        let userOrders := createReview.userOrders s.orders req.user.id req.bookId
        let isVerifiedPurchase := decide (userOrders.length > 0)
        match Review.create s
            { user := req.user.id, book := req.bookId, rating := req.rating,
              title := req.title, comment := req.comment,
              isVerifiedPurchase := isVerifiedPurchase } with
        | Except.error err => (Response.thrown err, s)
        | Except.ok (review, s1) => (Response.success 201 (Data.review review), s1)

/-- Params, body and principal of `PUT /api/reviews/:id`; `none` is an absent body field. -/
structure UpdateReviewRequest where
  user : User
  id : ObjectId
  rating : Option Int
  title : Option String
  comment : Option String
deriving DecidableEq, Repr

/-- Route checks of `PUT /api/reviews/:id`: each field is optional; when present `rating` is
an integer in 1..5 and `title`, `comment` are not empty. -/
def UpdateReviewRequest.valid (req : UpdateReviewRequest) : Bool :=
  (req.rating.all (fun x => decide (1 ≤ x) && decide (x ≤ 5))) &&
  (req.title.all (fun x => x != "")) && (req.comment.all (fun x => x != ""))

/-- The assignments `review.x = req.body.x || review.x` of `updateReview`. -/
def updateReview.assign (review : Review) (req : UpdateReviewRequest) : Review :=
  { review with
    rating := match req.rating with
      | some x => if x = 0 then review.rating else x
      | none => review.rating,
    title := match req.title with
      | some x => if x = "" then review.title else trimmed x
      | none => review.title,
    comment := match req.comment with
      | some x => if x = "" then review.comment else x
      | none => review.comment }

/-- Handler `exports.updateReview`; `review.save()` validates, writes, and its `post('save')`
hook recomputes the rating of the book. -/
def updateReview (s : State) (req : UpdateReviewRequest) : Response × State :=
  if req.valid = false then (Response.validationErrors, s)
  else
    match Review.findById s.reviews req.id with
    | none => (Response.failure 404 "Review not found", s)
    | some review =>
      if review.user ≠ req.user.id ∧ req.user.role ≠ "admin" then
        (Response.failure 403 "Not authorized to update this review", s)
      else
        let updated := updateReview.assign review req
        if Review.validate updated = false then (Response.thrown Thrown.validationError, s)
        else
          let reviews := Review.replace s.reviews updated
          (Response.success 200 (Data.review updated),
            { s with
              reviews := reviews,
              books := Review.calculateAverageRating reviews s.books updated.book })

/-- Params and principal of `DELETE /api/reviews/:id`. -/
structure DeleteReviewRequest where
  user : User
  id : ObjectId
deriving DecidableEq, Repr

/-- Handler `exports.deleteReview`; `review.remove()` deletes the document and its
`post('remove')` hook recomputes the rating of the book. -/
def deleteReview (s : State) (req : DeleteReviewRequest) : Response × State :=
  match Review.findById s.reviews req.id with
  | none => (Response.failure 404 "Review not found", s)
  | some review =>
    if review.user ≠ req.user.id ∧ req.user.role ≠ "admin" then
      (Response.failure 403 "Not authorized to delete this review", s)
    else
      let reviews := Review.delete s.reviews review._id
      (Response.success 200 Data.empty,
        { s with
          reviews := reviews,
          books := Review.calculateAverageRating reviews s.books review.book })

/-- A request to one of the review handlers. -/
inductive ReviewOperation where
  | create (req : CreateReviewRequest)
  | update (req : UpdateReviewRequest)
  | delete (req : DeleteReviewRequest)
deriving DecidableEq, Repr

/-- Dispatch of a review request to its handler. -/
def ReviewOperation.run (s : State) : ReviewOperation → Response × State
  | ReviewOperation.create req => createReview s req
  | ReviewOperation.update req => updateReview s req
  | ReviewOperation.delete req => deleteReview s req

/-! ## Quantities used to state the stock properties -/

/-- Total quantity of the cart lines that refer to book `id`. -/
def Cart.quantityOf (items : List CartItem) (id : ObjectId) : Int :=
  ((items.filter (fun item => item.book == id)).map (fun item => item.quantity)).sum

/-- Total quantity of the order lines that refer to book `id`. -/
def Order.quantityOf (items : List OrderItem) (id : ObjectId) : Int :=
  ((items.filter (fun item => item.book == id)).map (fun item => item.quantity)).sum

/-- The status transitions named by the specification: `pending → processing → shipped →
delivered`, and `cancelled` from any state other than `delivered`. -/
def specTransition (old new : String) : Bool :=
  (old == "pending" && new == "processing") ||
  (old == "processing" && new == "shipped") ||
  (old == "shipped" && new == "delivered") ||
  (new == "cancelled" && old != "delivered")

/-- Net stock change that a list of `$inc` operations applies to book `id`. -/
def opsTotal (ops : List (ObjectId × Int)) (id : ObjectId) : Int :=
  ((ops.filter (fun op => op.1 == id)).map (fun op => op.2)).sum

/-! ## Sample data -/

/-- A price in US dollars. -/
def Sample.usd (n : Int) : Price := { amount := n, currencyCode := "USD" }

/-- A complete shipping address. -/
def Sample.address : ShippingAddress :=
  { fullName := "Ann Lee", street := "1 Main St", city := "Galle", state := "SP",
    zipCode := "80000", country := "LK", phoneNumber := "0911" }

/-- The id `id` spelled as `toString()` prints it, in lower case. -/
def Sample.lower (id : ObjectId) : RawId := RawId.castable id true

/-- The id `id` spelled with upper-case hex digits. -/
def Sample.upper (id : ObjectId) : RawId := RawId.castable id false

/-- A customer (id 100). -/
def Sample.ann : User := { id := 100, role := "user" }

/-- Another customer (id 101). -/
def Sample.bob : User := { id := 101, role := "user" }

/-- The first customer asks for one more copy of book 1, naming it with upper-case hex
digits. -/
def Sample.annAddsUpperCase : AddToCartRequest :=
  { user := Sample.ann, bookId := Sample.upper 1, quantity := Quantity.number 1 }

/-- The first customer asks for one more copy of book 1 and sends the quantity as the
JSON string "1". -/
def Sample.annAddsText : AddToCartRequest :=
  { user := Sample.ann, bookId := Sample.lower 1, quantity := Quantity.text "1" }

/-- The second customer asks for a copy of book 2 and sends the quantity as the JSON
string "1". -/
def Sample.bobAddsEmma : AddToCartRequest :=
  { user := Sample.bob, bookId := Sample.lower 2, quantity := Quantity.text "1" }

/-- Two books; the stock of the second is a parameter. -/
def Sample.books (emmaStock : Int) : List Book :=
  [{ _id := 1, title := "Dune", price := Sample.usd 12, stock := 5 },
   { _id := 2, title := "Emma", price := Sample.usd 7, stock := emmaStock }]

/-- The cart of `Sample.ann`: two copies of book 1 at the snapshot price 10 (the catalog price
is 12 by now) and three copies of book 2. -/
def Sample.annCart : Cart :=
  { _id := 10, user := 100,
    items := [{ _id := 11, book := 1, quantity := 2, price := Sample.usd 10 },
              { _id := 12, book := 2, quantity := 3, price := Sample.usd 7 }],
    totalAmount := 41, currencyCode := "USD" }

/-- The cart of `Sample.bob`. -/
def Sample.bobCart : Cart :=
  { _id := 13, user := 101,
    items := [{ _id := 14, book := 1, quantity := 1, price := Sample.usd 12 }],
    totalAmount := 12, currencyCode := "USD" }

/-- A store with two books, two carts and no order. -/
def Sample.shop (emmaStock : Int) : State :=
  { books := Sample.books emmaStock, carts := [Sample.annCart, Sample.bobCart],
    orders := [], nextId := 20 }

/-- The order request of `Sample.ann`. -/
def Sample.annOrders : CreateOrderRequest :=
  { user := Sample.ann, shippingAddress := some Sample.address, paymentMethod := "paypal",
    taxAmount := none, shippingAmount := none }

/-- The order that `Sample.annOrders` creates in `Sample.shop 4`. -/
def Sample.annOrder : Order :=
  { _id := 20, user := 100,
    items := [{ book := 1, title := "Dune", quantity := 2, price := Sample.usd 10 },
              { book := 2, title := "Emma", quantity := 3, price := Sample.usd 7 }],
    totalAmount := 41, currencyCode := "USD", shippingAddress := Sample.address,
    paymentMethod := "paypal", paymentResult := none, taxAmount := 0, shippingAmount := 0,
    status := "pending", isPaid := false, paidAt := none, isDelivered := false,
    deliveredAt := none }

/-- The store after `Sample.annOrders` succeeded in `Sample.shop 4`. -/
def Sample.shopAfterOrder : State :=
  { books := [{ _id := 1, title := "Dune", price := Sample.usd 12, stock := 3 },
              { _id := 2, title := "Emma", price := Sample.usd 7, stock := 1 }],
    carts := [{ Sample.annCart with items := [], totalAmount := 0 }, Sample.bobCart],
    orders := [Sample.annOrder], nextId := 21 }

/-- The order of `Sample.ann` once delivered. -/
def Sample.annOrderDelivered : Order :=
  { Sample.annOrder with status := "delivered", isDelivered := true, deliveredAt := some 7 }

/-- The store after the order of `Sample.ann` was delivered. -/
def Sample.shopDelivered : State :=
  { Sample.shopAfterOrder with orders := [Sample.annOrderDelivered] }

/-- The request to cancel the order of `Sample.ann`. -/
def Sample.cancelAnnOrder : StatusRequest := { id := 20, status := "cancelled", now := 9 }

/-- The request of `Sample.ann` to mark her order paid. -/
def Sample.payAnnOrder : PayRequest :=
  { user := Sample.ann, id := 20,
    paymentResult := { id := some "PAY-1", status := some "COMPLETED",
                       updateTime := none, emailAddress := none },
    now := 9 }

/-- The fields of an order that are fixed at creation agree in `a` and `b`. -/
def Order.sameCreationFields (a b : Order) : Prop :=
  a.items = b.items ∧ a.totalAmount = b.totalAmount ∧ a.taxAmount = b.taxAmount ∧
  a.shippingAmount = b.shippingAmount ∧ a.shippingAddress = b.shippingAddress

/-- The order request of `Sample.ann` with tax 5 and shipping 3. -/
def Sample.annOrdersTaxed : CreateOrderRequest :=
  { Sample.annOrders with taxAmount := some 5, shippingAmount := some 3 }

/-- A request that raises the catalog price of book 1 to 15. -/
def Sample.raisePrice : UpdateBookRequest := { id := 1, body := { priceAmount := some 15 } }

/-- Every stored book has a stock of at least 0. -/
def State.stockNonneg (s : State) : Prop := ∀ b ∈ s.books, 0 ≤ b.stock

/-- No stored cart holds two lines for the same book. -/
def State.cartsDistinct (s : State) : Prop :=
  ∀ c ∈ s.carts, (c.items.map (fun item => item.book)).Nodup

/-- No stored order line has a negative quantity (the schema asks for `min: 1`). -/
def State.orderQuantitiesNonneg (s : State) : Prop :=
  ∀ o ∈ s.orders, ∀ item ∈ o.items, 0 ≤ item.quantity

/-- A session: the first customer adds two copies of book 1, adds two copies of the same
book named with upper-case hex digits, and places an order. -/
def Sample.duplicateSession : List Operation :=
  [Operation.cart Sample.ann (CartMutation.addToCart (Sample.lower 1) (Quantity.number 2)),
   Operation.cart Sample.ann (CartMutation.addToCart (Sample.upper 1) (Quantity.number 2)),
   Operation.cart Sample.ann (CartMutation.createOrder (some Sample.address) "paypal" none none)]

/-- A store with two books and an empty cart for the first customer. -/
def Sample.emptyCartShop : State :=
  { books := Sample.books 4,
    carts := [{ _id := 10, user := 100, items := [], totalAmount := 0, currencyCode := "USD" }],
    orders := [], nextId := 20 }

/-- At most one stored review per `(user, book)` pair. -/
def State.reviewsUnique (s : State) : Prop :=
  (s.reviews.map (fun r => (r.user, r.book))).Nodup

/-- Sequential execution of review requests. -/
def runReviews (s : State) (ops : List ReviewOperation) : State :=
  ops.foldl (fun st op => (op.run st).2) s

/-- A store holding one book imported with a rating of 4 from 1200 external ratings and no
review yet. -/
def Sample.importedShop : State :=
  { books := [{ _id := 1, title := "Dune", price := Sample.usd 12,
                rating := { average := 4, count := 1200 }, stock := 10 }],
    carts := [], orders := [], nextId := 30 }

/-- The first customer reviews book 1 with 5 stars. -/
def Sample.annReviews : CreateReviewRequest :=
  { user := Sample.ann, bookId := 1, rating := 5, title := "Great", comment := "Loved it" }

/-- The first customer tries to review book 1 again, with 2 stars. -/
def Sample.annReviewsAgain : CreateReviewRequest :=
  { user := Sample.ann, bookId := 1, rating := 2, title := "Hmm", comment := "On second thought" }

/-- The book whose rating a review request recomputes: the book of the request for
`createReview`, the book of the stored review for `updateReview` and `deleteReview`. -/
def ReviewOperation.book (s : State) : ReviewOperation → Option ObjectId
  | ReviewOperation.create req => some req.bookId
  | ReviewOperation.update req => (Review.findById s.reviews req.id).map (fun r => r.book)
  | ReviewOperation.delete req => (Review.findById s.reviews req.id).map (fun r => r.book)

/-- A store with one book, two reviews of it and a paid order of the first customer. -/
def Sample.reviewedShop : State :=
  { books := [{ _id := 1, title := "Dune", price := Sample.usd 12,
                rating := { average := 4, count := 2 }, stock := 5 },
              { _id := 2, title := "Emma", price := Sample.usd 7,
                rating := { average := 3, count := 1 }, stock := 4 }],
    carts := [],
    orders := [{ Sample.annOrder with isPaid := true, paidAt := some 8, status := "processing" }],
    nextId := 40,
    reviews := [{ _id := 31, user := 100, book := 1, rating := 5, title := "Great",
                  comment := "Loved it", isVerifiedPurchase := true },
                { _id := 32, user := 101, book := 1, rating := 3, title := "Fine",
                  comment := "Long", isVerifiedPurchase := false },
                { _id := 33, user := 101, book := 2, rating := 3, title := "Nice",
                  comment := "Short", isVerifiedPurchase := false }] }

/-- The second customer changes his rating of book 1 (review 32) from 3 to 2 stars. -/
def Sample.bobRerates : UpdateReviewRequest :=
  { user := Sample.bob, id := 32, rating := some 2, title := none, comment := none }

/-- The second customer deletes his review 33, the only review of book 2. -/
def Sample.bobDeletes : DeleteReviewRequest := { user := Sample.bob, id := 33 }

/-- The stored review 33: the second customer on book 2. -/
def Sample.bobEmmaReview : Review :=
  { _id := 33, user := 101, book := 2, rating := 3, title := "Nice", comment := "Short",
    isVerifiedPurchase := false }

/-- The shop of `Sample.reviewedShop` before anybody wrote a review. -/
def Sample.unreviewedShop : State := { Sample.reviewedShop with reviews := [] }

/-- The first customer, who has a paid order with book 2, reviews book 2. -/
def Sample.annReviewsEmma : CreateReviewRequest := { Sample.annReviews with bookId := 2 }

/-- The second customer, who has no order, reviews book 2. -/
def Sample.bobReviewsEmma : CreateReviewRequest :=
  { Sample.annReviews with bookId := 2, user := Sample.bob }

/-- The review that `Sample.annReviewsEmma` stores in `Sample.unreviewedShop`. -/
def Sample.annEmmaReview : Review :=
  { _id := 40, user := 100, book := 2, rating := 5, title := "Great", comment := "Loved it",
    isVerifiedPurchase := true }

/-- The first customer, who is no admin, tries to change review 32 of the second customer. -/
def Sample.annEditsBob : UpdateReviewRequest :=
  { user := Sample.ann, id := 32, rating := some 1, title := none, comment := none }

/-- The first customer tries to delete review 33 of the second customer. -/
def Sample.annDeletesBob : DeleteReviewRequest := { user := Sample.ann, id := 33 }

/-- The stored review 32: the second customer on book 1. -/
def Sample.bobDuneReview : Review :=
  { _id := 32, user := 101, book := 1, rating := 3, title := "Fine", comment := "Long",
    isVerifiedPurchase := false }

/-! ## `controllers/bookController.js`: `createBook`, `deleteBook`, `importGoogleBook` -/

/-- Schema validation of a book document: `title` required with at most 200 characters,
`price.amount` and `stock` not negative, `price.currencyCode` in its enum,
`rating.average` between 0 and 5. -/
def Book.validate (b : Book) : Bool :=
  b.title != "" && decide (b.title.length ≤ 200) &&
  decide (0 ≤ b.price.amount) && Book.currencyEnum.contains b.price.currencyCode &&
  decide (0 ≤ b.rating.average) && decide (b.rating.average ≤ 5) &&
  decide (0 ≤ b.stock)

/-- Query `Book.findOne({ googleBooksId })`. -/
def Book.findOneByGoogleBooksId (books : List Book) (googleBooksId : String) : Option Book :=
  books.find? (fun b => b.googleBooksId == some googleBooksId)

/-- The paths of a document passed to `Book.create` that the model tracks; `none` is a path
the document does not mention. -/
structure BookFields where
  title : Option String := none
  priceAmount : Option Int := none
  priceCurrencyCode : Option String := none
  stock : Option Int := none
  ratingAverage : Option Rat := none
  ratingCount : Option Int := none
  googleBooksId : Option String := none
deriving DecidableEq, Repr

/-- Call `Book.create(doc)`: a fresh id, the `trim` setter of `title`, the schema defaults
(`currencyCode` USD, `rating` 0 and 0, `stock` 0), validation (`title` and `price.amount`
are required), the unique sparse index on `googleBooksId`, then the insert. -/
def Book.create (s : State) (f : BookFields) : Except Thrown (Book × State) :=
  match f.title, f.priceAmount with
  | some title, some amount =>
    let book : Book :=
      { _id := s.nextId, title := trimmed title,
        price := { amount := amount, currencyCode := f.priceCurrencyCode.getD "USD" },
        rating := { average := f.ratingAverage.getD 0, count := f.ratingCount.getD 0 },
        stock := f.stock.getD 0, googleBooksId := f.googleBooksId }
    if Book.validate book = false then Except.error Thrown.validationError
    else if (f.googleBooksId.bind (Book.findOneByGoogleBooksId s.books)).isSome then
      Except.error Thrown.duplicateKey
    else Except.ok (book, { s with books := s.books ++ [book], nextId := s.nextId + 1 })
  | _, _ => Except.error Thrown.validationError

/-- Body of `POST /api/books` (the route admits role `admin` only). -/
structure CreateBookRequest where
  body : BookFields
deriving DecidableEq, Repr

/-- Route checks of `POST /api/books` on the tracked paths: `title` is not empty,
`price.amount` and `stock` are numbers. -/
def CreateBookRequest.valid (req : CreateBookRequest) : Bool :=
  req.body.title.any (fun x => x != "") && req.body.priceAmount.isSome &&
  req.body.stock.isSome

/-- Handler `exports.createBook`: `Book.create(req.body)`. -/
def createBook (s : State) (req : CreateBookRequest) : Response × State :=
  if req.valid = false then (Response.validationErrors, s)
  else
    match Book.create s req.body with
    | Except.error e => (Response.thrown e, s)
    | Except.ok (book, s1) => (Response.success 201 (Data.book book), s1)

/-- Call `book.remove()`: the document with this `_id` is deleted. -/
def Book.delete : List Book → ObjectId → List Book
  | [], _ => []
  | b :: bs, id => if b._id = id then bs else b :: Book.delete bs id

/-- Params of `DELETE /api/books/:id` (the route admits role `admin` only). -/
structure DeleteBookRequest where
  id : ObjectId
deriving DecidableEq, Repr

/-- Handler `exports.deleteBook`. -/
def deleteBook (s : State) (req : DeleteBookRequest) : Response × State :=
  match Book.findById s.books req.id with
  | none => (Response.failure 404 ("Book not found with id of " ++ toString req.id), s)
  | some book =>
    (Response.success 200 Data.empty, { s with books := Book.delete s.books book._id })

/-- The fields of the object returned by `googleBooksApi.getBookById` that
`importGoogleBook` copies into tracked paths of the book. -/
structure GoogleBook where
  title : String
  listPrice : Price
  averageRating : Rat
  ratingsCount : Int
deriving DecidableEq, Repr

/-- Params of `POST /api/books/google/import/:id` (the route admits role `admin` only),
together with the answer of the Google Books API to `getBookById(id)` at the time of the
request; `none` is a failed fetch. -/
structure ImportGoogleBookRequest where
  id : String
  fetched : Option GoogleBook
deriving DecidableEq, Repr

/-- The `bookData` of `importGoogleBook`: `x || d` replaces a zero amount by 9.99 and an
empty currency code by USD; the stock is 10. -/
def importGoogleBook.bookData (googleBookId : String) (bookDetails : GoogleBook) : BookFields :=
  { title := some bookDetails.title,
    googleBooksId := some googleBookId,
    priceAmount := some (if bookDetails.listPrice.amount = 0 then 999
      else bookDetails.listPrice.amount),
    priceCurrencyCode := some (if bookDetails.listPrice.currencyCode = "" then "USD"
      else bookDetails.listPrice.currencyCode),
    ratingAverage := some bookDetails.averageRating,
    ratingCount := some bookDetails.ratingsCount,
    stock := some 10 }

/-- Handler `exports.importGoogleBook`. -/
def importGoogleBook (s : State) (req : ImportGoogleBookRequest) : Response × State :=
  match Book.findOneByGoogleBooksId s.books req.id with
  | some _ => (Response.failure 400 "This book already exists in the database", s)
  | none =>
    match req.fetched with
    | none => (Response.thrown Thrown.fetchError, s)
    | some bookDetails =>
      match Book.create s (importGoogleBook.bookData req.id bookDetails) with
      | Except.error e => (Response.thrown e, s)
      | Except.ok (book, s1) => (Response.success 201 (Data.book book), s1)

/-- A request to one of the book handlers that write. -/
inductive BookOperation where
  | create (req : CreateBookRequest)
  | update (req : UpdateBookRequest)
  | delete (req : DeleteBookRequest)
  | importGoogle (req : ImportGoogleBookRequest)
deriving DecidableEq, Repr

/-- Dispatch of a book request to its handler. -/
def BookOperation.run (s : State) : BookOperation → Response × State
  | BookOperation.create req => createBook s req
  | BookOperation.update req => updateBook s req
  | BookOperation.delete req => deleteBook s req
  | BookOperation.importGoogle req => importGoogleBook s req

/-- A request to any handler that writes to the books, carts, orders or reviews. -/
inductive Request where
  | shop (op : Operation)
  | review (op : ReviewOperation)
  | book (op : BookOperation)
deriving DecidableEq, Repr

/-- Dispatch of a request to its handler. -/
def Request.run (s : State) : Request → Response × State
  | Request.shop op => op.run s
  | Request.review op => op.run s
  | Request.book op => op.run s

/-- An admin sets rating and stock of book 1 in the body of `PUT /api/books/1`. -/
def Sample.setRatingAndStock : UpdateBookRequest :=
  { id := 1, body := { ratingAverage := some 5, ratingCount := some 1000, stock := some 99 } }

/-- An answer of the Google Books API: a volume with 1200 ratings of average 4 and no list
price. -/
def Sample.googleDune : GoogleBook :=
  { title := "Dune Messiah", listPrice := { amount := 0, currencyCode := "USD" },
    averageRating := 4, ratingsCount := 1200 }

/-- An admin imports the volume `Sample.googleDune`. -/
def Sample.importDune : ImportGoogleBookRequest :=
  { id := "B1hSG45JCX4C", fetched := some Sample.googleDune }

/-- Book 1 as stored in `Sample.reviewedShop`. -/
def Sample.duneReviewed : Book :=
  { _id := 1, title := "Dune", price := Sample.usd 12, rating := { average := 4, count := 2 },
    stock := 5 }

/-- A store with one book at 10.00 US dollars, no cart and no order; the stock of the book is
a parameter. -/
def Sample.freshShop (stock : Int) : State :=
  { books := [{ _id := 1, title := "Dune", price := Sample.usd 1000, stock := stock }],
    carts := [], orders := [], nextId := 10 }

/-- The book of `Sample.freshShop`. -/
def Sample.freshDune (stock : Int) : Book :=
  { _id := 1, title := "Dune", price := Sample.usd 1000, stock := stock }

/-- The order request of `Sample.bob`. -/
def Sample.bobOrders : CreateOrderRequest :=
  { user := Sample.bob, shippingAddress := some Sample.address, paymentMethod := "stripe",
    taxAmount := none, shippingAmount := none }

/-- The first customer puts two copies of book 1, the whole stock of `Sample.freshShop 2`,
into the cart. -/
def Sample.annAddsTwo : AddToCartRequest :=
  { user := Sample.ann, bookId := Sample.lower 1, quantity := Quantity.number 2 }

/-- The first customer asks for two copies of book 1 again, naming it with upper-case hex
digits. -/
def Sample.annAddsTwoUpper : AddToCartRequest :=
  { user := Sample.ann, bookId := Sample.upper 1, quantity := Quantity.number 2 }

/-- The first customer asks for two copies of book 1 and sends the quantity as the JSON
string "2". -/
def Sample.annAddsTwoText : AddToCartRequest :=
  { user := Sample.ann, bookId := Sample.lower 1, quantity := Quantity.text "2" }

/-- The first customer asks for one copy of book 1 and sends the quantity as the JSON
string "+1". -/
def Sample.annAddsSigned : AddToCartRequest :=
  { user := Sample.ann, bookId := Sample.lower 1, quantity := Quantity.text "+1" }

/-- The second customer asks for one copy of book 1. -/
def Sample.bobAddsOne : AddToCartRequest :=
  { user := Sample.bob, bookId := Sample.lower 1, quantity := Quantity.number 1 }

/-- The store `Sample.freshShop 2` after `Sample.annAddsTwo`. -/
def Sample.afterAnnAdds : State := (addToCart (Sample.freshShop 2) Sample.annAddsTwo).2

/-- The store after the first customer has also placed the order `Sample.annOrders`. -/
def Sample.soldOut : State := (createOrder Sample.afterAnnAdds Sample.annOrders).2

/-- The first customer puts three copies of book 1, at 10.00 each, into the cart. -/
def Sample.annAddsThree : AddToCartRequest :=
  { user := Sample.ann, bookId := Sample.lower 1, quantity := Quantity.number 3 }

/-- The order request of the first customer with tax 3.90 and shipping 0. -/
def Sample.annOrdersWithTax : CreateOrderRequest :=
  { Sample.annOrders with taxAmount := some 390, shippingAmount := some 0 }

/-- The store `Sample.freshShop 5` after `Sample.annAddsThree`. -/
def Sample.cartOfThree : State := (addToCart (Sample.freshShop 5) Sample.annAddsThree).2

/-- The order that `Sample.annOrdersWithTax` creates in `Sample.cartOfThree`. -/
def Sample.taxedOrder : Order :=
  { _id := 12, user := 100,
    items := [{ book := 1, title := "Dune", quantity := 3, price := Sample.usd 1000 }],
    totalAmount := 3000, currencyCode := "USD", shippingAddress := Sample.address,
    paymentMethod := "paypal", paymentResult := none, taxAmount := 390, shippingAmount := 0,
    status := "pending", isPaid := false, paidAt := none, isDelivered := false,
    deliveredAt := none }

/-- The store after `n` consecutive calls of `updateOrderStatus` with the same request. -/
def updateOrderStatus.repeated (req : StatusRequest) : Nat → State → State
  | 0, s => s
  | n + 1, s => updateOrderStatus.repeated req n (updateOrderStatus s req).2

/-- The line of the first customer for book 9. -/
def Sample.pulpLine : CartItem := { _id := 15, book := 9, quantity := 1, price := Sample.usd 3 }

/-- The cart of `Sample.ann` with a line for book 9 in front. -/
def Sample.annDanglingCart : Cart :=
  { Sample.annCart with items := Sample.pulpLine :: Sample.annCart.items, totalAmount := 44 }

/-- The cart of `Sample.ann` with a line for book 9 at the end. -/
def Sample.annTrailingCart : Cart :=
  { Sample.annCart with items := Sample.annCart.items ++ [Sample.pulpLine], totalAmount := 44 }

/-- A store with three books, book 2 with stock 1; the first line of the cart of the first
customer is for book 9. -/
def Sample.shopWithPulp : State :=
  { books := Sample.books 1 ++
      [{ _id := 9, title := "Pulp", price := Sample.usd 3, stock := 6 }],
    carts := [Sample.annDanglingCart, Sample.bobCart], orders := [], nextId := 20 }

/-- The store after an admin deleted book 9: the cart line for it stays. -/
def Sample.danglingShop : State := (deleteBook Sample.shopWithPulp { id := 9 }).2

/-- The store `Sample.shop 1` with a line for the deleted book 9 at the end of the cart of
the first customer. -/
def Sample.trailingShop : State :=
  { Sample.shop 1 with carts := [Sample.annTrailingCart, Sample.bobCart] }

/-! # Lemmas -/

/-! ## Stock after `updateOne` and `bulkWrite` -/

theorem Book.findById_book_id {books : List Book} {id : ObjectId} {b : Book}
    (h : Book.findById books id = some b) : b._id = id := by
  have := List.find?_some h
  simpa using this

theorem Book.findById_incStock (books : List Book) (id k : ObjectId) (d : Int) :
    Book.findById (Book.incStock books id d) k =
      (Book.findById books k).map
        (fun b => { b with stock := b.stock + (if k = id then d else 0) }) := by
  induction books with
  | nil => simp [Book.incStock, Book.findById]
  | cons b bs ih =>
    simp only [Book.findById] at ih
    by_cases hb : b._id = id
    · by_cases hk : b._id = k
      · have : k = id := hk ▸ hb
        simp [Book.incStock, Book.findById, List.find?_cons, hb, hk, this]
      · have hne : ¬ (k = id) := fun e => hk (hb.trans e.symm)
        have hne2 : ¬ (id = k) := fun e => hne e.symm
        simp [Book.incStock, Book.findById, List.find?_cons, hb, hk, hne, hne2]
    · by_cases hk : b._id = k
      · have hne : ¬ (k = id) := fun e => hb (hk.trans e)
        subst hk
        simp [Book.incStock, Book.findById, List.find?_cons, hb, hne]
      · simp [Book.incStock, Book.findById, List.find?_cons, hb, hk, ih]

theorem Book.findById_bulkWrite (ops : List (ObjectId × Int)) (books : List Book)
    (k : ObjectId) :
    Book.findById (Book.bulkWrite books ops) k =
      (Book.findById books k).map
        (fun b => { b with stock := b.stock + opsTotal ops k }) := by
  induction ops generalizing books with
  | nil =>
    simp only [Book.bulkWrite, List.foldl_nil, opsTotal, List.filter_nil, List.map_nil,
      List.sum_nil, add_zero]
    cases Book.findById books k <;> rfl
  | cons op ops ih =>
    have step : Book.bulkWrite books (op :: ops) =
        Book.bulkWrite (Book.incStock books op.1 op.2) ops := rfl
    rw [step, ih, Book.findById_incStock]
    cases Book.findById books k with
    | none => rfl
    | some b =>
      by_cases hk : op.1 = k
      · have hk2 : k = op.1 := hk.symm
        simp [opsTotal, List.filter_cons, hk, add_assoc]
      · have hk2 : ¬ (k = op.1) := fun e => hk e.symm
        simp [opsTotal, List.filter_cons, hk, hk2]

/-! ## The loops of `createOrder` -/

theorem createOrder.checkStock_none (books : List Book) (items : List CartItem)
    (h : createOrder.checkStock (Cart.populate books items) = none) :
    ∀ item ∈ items, ∃ b, Book.findById books item.book = some b ∧ item.quantity ≤ b.stock := by
  induction items with
  | nil => intro item hi; cases hi
  | cons x xs ih =>
    simp only [Cart.populate, List.map_cons] at h ih
    cases hb : Book.findById books x.book with
    | none => simp [hb, createOrder.checkStock] at h
    | some b =>
      rw [hb] at h
      simp only [createOrder.checkStock] at h
      by_cases hlt : b.stock < x.quantity
      · simp [hlt] at h
      · rw [if_neg hlt] at h
        intro item hi
        rcases List.mem_cons.mp hi with rfl | hi
        · exact ⟨b, hb, not_lt.mp hlt⟩
        · exact ih h item hi

theorem createOrder.orderItems_spec (books : List Book) (items : List CartItem)
    (ois : List OrderItem)
    (h : createOrder.orderItems (Cart.populate books items) = some ois) :
    ois.length = items.length ∧
    ∀ (i : Nat) (item : CartItem), items[i]? = some item →
      ∃ b, Book.findById books item.book = some b ∧
        ois[i]? = some { book := item.book, title := b.title, quantity := item.quantity,
                         price := item.price } := by
  induction items generalizing ois with
  | nil =>
    simp only [Cart.populate, List.map_nil, createOrder.orderItems, Option.some.injEq] at h
    subst h
    simp
  | cons x xs ih =>
    simp only [Cart.populate, List.map_cons] at h ih
    cases hb : Book.findById books x.book with
    | none => simp [hb, createOrder.orderItems] at h
    | some b =>
      rw [hb] at h
      simp only [createOrder.orderItems] at h
      cases ht : createOrder.orderItems (List.map (fun item => (item, Book.findById books item.book)) xs) with
      | none => simp [ht] at h
      | some tail =>
        rw [ht] at h
        simp only [Option.map_some', Option.some.injEq] at h
        subst h
        obtain ⟨hlen, hidx⟩ := ih tail ht
        refine ⟨by simp [hlen], ?_⟩
        intro i item hi
        cases i with
        | zero =>
          simp only [List.getElem?_cons_zero, Option.some.injEq] at hi
          subst hi
          exact ⟨b, hb, by simp [Book.findById_book_id hb]⟩
        | succ j =>
          simp only [List.getElem?_cons_succ] at hi
          simpa using hidx j item hi

theorem createOrder.orderItems_total (books : List Book) (items : List CartItem)
    (ois : List OrderItem)
    (h : createOrder.orderItems (Cart.populate books items) = some ois) :
    Order.linesTotal ois = (items.map (fun item => item.price.amount * item.quantity)).sum := by
  induction items generalizing ois with
  | nil =>
    simp only [Cart.populate, List.map_nil, createOrder.orderItems, Option.some.injEq] at h
    subst h
    simp [Order.linesTotal]
  | cons x xs ih =>
    simp only [Cart.populate, List.map_cons] at h ih
    cases hb : Book.findById books x.book with
    | none => simp [hb, createOrder.orderItems] at h
    | some b =>
      rw [hb] at h
      simp only [createOrder.orderItems] at h
      cases ht : createOrder.orderItems (List.map (fun item => (item, Book.findById books item.book)) xs) with
      | none => simp [ht] at h
      | some tail =>
        rw [ht] at h
        simp only [Option.map_some', Option.some.injEq] at h
        subst h
        have := ih tail ht
        simp only [Order.linesTotal] at this
        simp [Order.linesTotal, this]

theorem createOrder.bulkOps_decrement (books : List Book) (items : List CartItem)
    (ops : List (ObjectId × Int))
    (h : createOrder.bulkOps (Cart.populate books items) = some ops) (k : ObjectId) :
    opsTotal ops k = - Cart.quantityOf items k := by
  induction items generalizing ops with
  | nil =>
    simp only [Cart.populate, List.map_nil, createOrder.bulkOps, Option.some.injEq] at h
    subst h
    simp [opsTotal, Cart.quantityOf]
  | cons x xs ih =>
    simp only [Cart.populate, List.map_cons] at h ih
    cases hb : Book.findById books x.book with
    | none => simp [hb, createOrder.bulkOps] at h
    | some b =>
      rw [hb] at h
      simp only [createOrder.bulkOps] at h
      cases ht : createOrder.bulkOps (List.map (fun item => (item, Book.findById books item.book)) xs) with
      | none => simp [ht] at h
      | some tail =>
        rw [ht] at h
        simp only [Option.map_some', Option.some.injEq] at h
        subst h
        have := ih tail ht
        simp only [opsTotal, Cart.quantityOf] at this
        have hid := Book.findById_book_id hb
        by_cases hk : x.book = k
        · simp [opsTotal, Cart.quantityOf, List.filter_cons, hid, hk, this]; ring
        · simp [opsTotal, Cart.quantityOf, List.filter_cons, hid, hk, this]

theorem Cart.computeTotal_eq_sum (items : List CartItem) :
    Cart.computeTotal items = (items.map (fun item => item.price.amount * item.quantity)).sum := by
  have key : ∀ (l : List CartItem) (a : Int),
      l.foldl (fun total item => total + item.price.amount * item.quantity) a =
        a + (l.map (fun item => item.price.amount * item.quantity)).sum := by
    intro l
    induction l with
    | nil => intro a; simp
    | cons x xs ih => intro a; simp [ih, add_assoc]
  simpa [Cart.computeTotal] using key items 0

/-! ## Writes to the cart collection -/

theorem Cart.findOne_replace (carts : List Cart) (c n : Cart)
    (hfind : Cart.findOne carts n.user = some c) (hid : c._id = n._id) :
    Cart.findOne (Cart.replace carts n) n.user = some n := by
  induction carts with
  | nil => simp [Cart.findOne] at hfind
  | cons x xs ih =>
    by_cases hx : x._id = n._id
    · simp [Cart.replace, hx, Cart.findOne, List.find?_cons]
    · by_cases hu : x.user = n.user
      · simp only [Cart.findOne, List.find?_cons, hu, beq_self_eq_true, Option.some.injEq] at hfind
        exact absurd (hfind ▸ hid) hx
      · have hu2 : (x.user == n.user) = false := by simpa using hu
        simp only [Cart.findOne, List.find?_cons, hu2] at hfind ih ⊢
        simp only [Cart.replace, hx, if_false, List.find?_cons, hu2]
        exact ih hfind

/-- Carts of other users after a write, when no two stored carts share an `_id`. -/
theorem Cart.replace_other (carts : List Cart) (c n : Cart)
    (hnodup : (carts.map (fun x => x._id)).Nodup)
    (hmem : c ∈ carts) (hid : c._id = n._id) (u : ObjectId) (hc : c.user ≠ u)
    (hn : n.user ≠ u) :
    (Cart.replace carts n).filter (fun x => x.user == u) = carts.filter (fun x => x.user == u) := by
  induction carts with
  | nil => cases hmem
  | cons x xs ih =>
    simp only [List.map_cons, List.nodup_cons] at hnodup
    by_cases hx : x._id = n._id
    · have hxc : x = c := by
        rcases List.mem_cons.mp hmem with h | h
        · exact h.symm
        · exact absurd (List.mem_map.mpr ⟨c, h, hid.trans hx.symm⟩) hnodup.1
      subst hxc
      simp [Cart.replace, hx, List.filter_cons, hc, hn]
    · have hmem2 : c ∈ xs := by
        rcases List.mem_cons.mp hmem with h | h
        · exact absurd (h ▸ hid) hx
        · exact h
      simp [Cart.replace, hx, List.filter_cons, ih hnodup.2 hmem2]

theorem Cart.findOne_mem {carts : List Cart} {u : ObjectId} {c : Cart}
    (h : Cart.findOne carts u = some c) : c ∈ carts ∧ c.user = u := by
  refine ⟨List.mem_of_find?_eq_some h, ?_⟩
  simpa using List.find?_some h

/-! ## Successful `createOrder` -/

theorem createOrder.checkStock_ne_success (l : List (CartItem × Option Book)) (status : Nat)
    (data : Data) : createOrder.checkStock l ≠ some (Response.success status data) := by
  induction l with
  | nil => simp [createOrder.checkStock]
  | cons x xs ih =>
    obtain ⟨item, book⟩ := x
    cases book with
    | none => simp [createOrder.checkStock]
    | some b =>
      simp only [createOrder.checkStock]
      split
      · simp
      · exact ih

theorem Order.create_some {s s1 : State} {f : OrderFields} {o : Order}
    (h : Order.create s f = some (o, s1)) :
    o = Order.build s.nextId f ∧ Order.validate o = true ∧
    s1 = { s with orders := s.orders ++ [o], nextId := s.nextId + 1 } := by
  unfold Order.create at h
  by_cases hv : Order.validate (Order.build s.nextId f) = true
  · simp only [hv, if_true, Option.some.injEq, Prod.mk.injEq] at h
    obtain ⟨ho, hs⟩ := h
    subst ho
    exact ⟨rfl, hv, hs.symm⟩
  · simp [hv] at h

/-- Everything a `success` response of `createOrder` determines. -/
theorem createOrder_success {s s' : State} {req : CreateOrderRequest} {status : Nat}
    {data : Data} (h : createOrder s req = (Response.success status data, s')) :
    ∃ (address : ShippingAddress) (cart : Cart) (orderItems : List OrderItem)
      (bulkOps : List (ObjectId × Int)),
      req.shippingAddress = some address ∧
      Cart.findOne s.carts req.user.id = some cart ∧
      cart.items ≠ [] ∧
      createOrder.checkStock (Cart.populate s.books cart.items) = none ∧
      createOrder.orderItems (Cart.populate s.books cart.items) = some orderItems ∧
      createOrder.bulkOps (Cart.populate s.books cart.items) = some bulkOps ∧
      status = 201 ∧
      data = Data.order (Order.build s.nextId
        { user := req.user.id, items := orderItems, shippingAddress := address,
          paymentMethod := req.paymentMethod, totalAmount := cart.totalAmount,
          currencyCode := if cart.currencyCode = "" then "USD" else cart.currencyCode,
          taxAmount := req.taxAmount.getD 0, shippingAmount := req.shippingAmount.getD 0 }) ∧
      s' = { s with
             books := Book.bulkWrite s.books bulkOps,
             carts := Cart.replace s.carts { cart with items := [], totalAmount := 0 },
             orders := s.orders ++ [Order.build s.nextId
               { user := req.user.id, items := orderItems, shippingAddress := address,
                 paymentMethod := req.paymentMethod, totalAmount := cart.totalAmount,
                 currencyCode := if cart.currencyCode = "" then "USD" else cart.currencyCode,
                 taxAmount := req.taxAmount.getD 0,
                 shippingAmount := req.shippingAmount.getD 0 }],
             nextId := s.nextId + 1 } := by
  unfold createOrder at h
  split at h
  · simp at h
  · simp at h
  · next address hv ha =>
    split at h
    · simp [emptyCartResponse] at h
    · next cart hc =>
      split at h
      · simp [emptyCartResponse] at h
      · next hlen =>
        simp only at h
        split at h
        · next r hr =>
          simp only [Prod.mk.injEq] at h
          exact absurd (h.1 ▸ hr) (createOrder.checkStock_ne_success _ _ _)
        · next hcheck =>
          split at h
          · next orderItems bulkOps hitems hops =>
            split at h
            · simp at h
            · next order s1 hcreate =>
              obtain ⟨ho, -, hs1⟩ := Order.create_some hcreate
              subst hs1
              simp only [Cart.save, Cart.validate, List.all_nil, if_true,
                Cart.computeTotal, List.foldl_nil, Prod.mk.injEq, Response.success.injEq] at h
              obtain ⟨⟨hst, hd⟩, hs⟩ := h
              subst ho
              refine ⟨address, cart, orderItems, bulkOps, ha, hc, ?_, hcheck, hitems, hops,
                hst.symm, hd.symm, hs.symm⟩
              intro hnil
              exact hlen (by simp [hnil])
          · simp at h

/-- The stock loop stops at the first short line when the lines before it have stored
books with enough stock, whatever comes after it. -/
theorem createOrder.checkStock_split (books : List Book) (before : List CartItem)
    (item : CartItem) (after : List CartItem) (b : Book)
    (hbefore : ∀ x ∈ before, ∃ bx, Book.findById books x.book = some bx ∧
      x.quantity ≤ bx.stock)
    (hb : Book.findById books item.book = some b) (hq : b.stock < item.quantity) :
    createOrder.checkStock (Cart.populate books (before ++ item :: after)) =
      some (Response.failure 400 (insufficientStockMessage b.title b.stock)) := by
  induction before with
  | nil => simp [Cart.populate, hb, createOrder.checkStock, hq]
  | cons x xs ih =>
    obtain ⟨bx, hbx, hle⟩ := hbefore x (List.mem_cons_self x xs)
    have hlt : ¬ (bx.stock < x.quantity) := not_lt.mpr hle
    have hrest := ih (fun y hy => hbefore y (List.mem_cons_of_mem x hy))
    simp only [Cart.populate, List.map_cons, List.cons_append, hbx, createOrder.checkStock,
      if_neg hlt] at hrest ⊢
    exact hrest

/-! # Order placement -/

/-- C1, as stated, fails. `Sample.danglingShop` is the store left by `deleteBook` of book 9
while the cart of the first customer holds a line for it. Her cart is not empty and its
third line asks for 3 copies of book 2, whose stock is 1; yet `createOrder` does not answer
with the insufficient-stock error: reading the stock of the deleted book of the first line
throws a `TypeError`. -/
theorem createOrder_dangling_line_throws :
    (deleteBook Sample.shopWithPulp { id := 9 }).1.isSuccess = true ∧
    (Cart.findOne Sample.danglingShop.carts Sample.annOrders.user.id).map
      (fun c => c.items.map (fun x => (x.book, x.quantity))) =
      some [(9, 1), (1, 2), (2, 3)] ∧
    (Book.findById Sample.danglingShop.books 2).map (fun b => b.stock) = some 1 ∧
    Book.findById Sample.danglingShop.books 9 = none ∧
    Sample.annOrders.valid = true ∧
    createOrder Sample.danglingShop Sample.annOrders =
      (Response.thrown Thrown.typeError, Sample.danglingShop) := by
  decide

/-- C1 (amended): when the request passes the route checks and, in the user's cart, a line
asks for more than the current stock of its book while every line before it refers to a
stored book with enough stock, `createOrder` answers 400 with the message "<title> is not
available in the requested quantity. Available stock: <stock>" for the title and current
stock of that line's book, the first short line in cart order, and the whole store (books,
carts, orders) is unchanged. Nothing is asked of the lines after it. -/
theorem createOrder_insufficient_stock (s : State) (req : CreateOrderRequest) (cart : Cart)
    (before : List CartItem) (item : CartItem) (after : List CartItem) (b : Book)
    (hvalid : req.valid = true)
    (hcart : Cart.findOne s.carts req.user.id = some cart)
    (hsplit : cart.items = before ++ item :: after)
    (hbefore : ∀ x ∈ before, ∃ bx, Book.findById s.books x.book = some bx ∧
      x.quantity ≤ bx.stock)
    (hb : Book.findById s.books item.book = some b) (hq : b.stock < item.quantity) :
    createOrder s req =
      (Response.failure 400
        (b.title ++ " is not available in the requested quantity. Available stock: " ++
          toString b.stock), s) := by
  have hcheck := createOrder.checkStock_split s.books before item after b hbefore hb hq
  rw [← hsplit] at hcheck
  have hlen : cart.items.length ≠ 0 := by simp [hsplit]
  obtain ⟨address, haddr⟩ : ∃ a, req.shippingAddress = some a := by
    simp only [CreateOrderRequest.valid, Bool.and_eq_true] at hvalid
    exact Option.isSome_iff_exists.mp hvalid.1
  unfold createOrder
  simp only [hvalid, haddr, hcart, hlen, if_false, hcheck, insufficientStockMessage]

/-- C1 (amended) at `Sample.shop 1` and at `Sample.trailingShop`: the line after 2 copies of
book 1 asks for 3 copies of book 2, which has stock 1; a line for a deleted book after it
does not change the answer. -/
theorem createOrder_insufficient_stock_witness :
    createOrder (Sample.shop 1) Sample.annOrders =
      (Response.failure 400 "Emma is not available in the requested quantity. Available stock: 1",
        Sample.shop 1) ∧
    createOrder Sample.trailingShop Sample.annOrders =
      (Response.failure 400 "Emma is not available in the requested quantity. Available stock: 1",
        Sample.trailingShop) :=
  ⟨createOrder_insufficient_stock (Sample.shop 1) Sample.annOrders Sample.annCart
      [{ _id := 11, book := 1, quantity := 2, price := Sample.usd 10 }]
      { _id := 12, book := 2, quantity := 3, price := Sample.usd 7 } []
      { _id := 2, title := "Emma", price := Sample.usd 7, stock := 1 }
      (by decide) (by decide) (by decide) (by decide) (by decide) (by decide),
    createOrder_insufficient_stock Sample.trailingShop Sample.annOrders Sample.annTrailingCart
      [{ _id := 11, book := 1, quantity := 2, price := Sample.usd 10 }]
      { _id := 12, book := 2, quantity := 3, price := Sample.usd 7 }
      [{ _id := 15, book := 9, quantity := 1, price := Sample.usd 3 }]
      { _id := 2, title := "Emma", price := Sample.usd 7, stock := 1 }
      (by decide) (by decide) (by decide) (by decide) (by decide) (by decide)⟩

/-- C2: when the request passes the route checks and the user has no cart or a cart with
zero lines, `createOrder` answers 400 "Cart is empty, cannot create order" and the whole
store is unchanged: no order is created and no stock changes. -/
theorem createOrder_empty_cart (s : State) (req : CreateOrderRequest)
    (hvalid : req.valid = true)
    (hempty : Cart.findOne s.carts req.user.id = none ∨
      ∃ cart, Cart.findOne s.carts req.user.id = some cart ∧ cart.items = []) :
    createOrder s req = (Response.failure 400 "Cart is empty, cannot create order", s) := by
  obtain ⟨address, haddr⟩ : ∃ a, req.shippingAddress = some a := by
    simp only [CreateOrderRequest.valid, Bool.and_eq_true] at hvalid
    exact Option.isSome_iff_exists.mp hvalid.1
  unfold createOrder
  rcases hempty with hnone | ⟨cart, hcart, hitems⟩
  · simp only [hvalid, haddr, hnone, emptyCartResponse]
  · simp [hvalid, haddr, hcart, hitems, emptyCartResponse]

/-- C2 at a store without carts. -/
theorem createOrder_empty_cart_witness :
    createOrder { Sample.shop 4 with carts := [] } Sample.annOrders =
      (Response.failure 400 "Cart is empty, cannot create order",
        { Sample.shop 4 with carts := [] }) :=
  createOrder_empty_cart { Sample.shop 4 with carts := [] } Sample.annOrders (by decide)
    (Or.inl (by decide))

/-- C3: after a successful `createOrder` the new order is appended to the order collection,
its `totalAmount` is the `totalAmount` stored on the cart before placement, and when that
stored total is up to date with the cart lines (the sum of `price.amount * quantity` over
them) it equals the sum of `price.amount * quantity` over the lines of the new order. -/
theorem createOrder_total (s s' : State) (req : CreateOrderRequest) (status : Nat)
    (order : Order)
    (h : createOrder s req = (Response.success status (Data.order order), s')) :
    ∃ cart, Cart.findOne s.carts req.user.id = some cart ∧
      s'.orders = s.orders ++ [order] ∧
      order.totalAmount = cart.totalAmount ∧
      (cart.totalAmount = Cart.linesTotal cart.items →
        order.totalAmount = Order.linesTotal order.items) := by
  obtain ⟨address, cart, orderItems, bulkOps, -, hcart, -, -, hitems, -, -, hdata, hs⟩ :=
    createOrder_success h
  simp only [Data.order.injEq] at hdata
  subst hdata hs
  refine ⟨cart, hcart, rfl, rfl, ?_⟩
  intro hfresh
  simp only [Order.build]
  rw [hfresh, createOrder.orderItems_total _ _ _ hitems, Cart.linesTotal]

/-- C3 at `Sample.shop 4`: the order total is the cart total 41 = 2 * 10 + 3 * 7. -/
theorem createOrder_total_witness :
    Sample.annOrder.totalAmount = Sample.annCart.totalAmount ∧
    Sample.annOrder.totalAmount = Order.linesTotal Sample.annOrder.items ∧
    Order.linesTotal Sample.annOrder.items = 41 := by
  obtain ⟨cart, hcart, -, htotal, hsum⟩ :=
    createOrder_total (Sample.shop 4) Sample.shopAfterOrder Sample.annOrders 201
      Sample.annOrder (by decide)
  have hfound : Cart.findOne (Sample.shop 4).carts Sample.annOrders.user.id =
      some Sample.annCart := by decide
  rw [hfound] at hcart
  cases hcart
  exact ⟨htotal, hsum (by decide), by decide⟩

/-- C4: after a successful `createOrder`, looking up any book id gives the book stored before
with its stock lowered by the total quantity of the cart lines for that id and nothing else
changed; so a book with one cart line loses exactly that line's quantity, every cart line's
book is a stored book, and a book without a cart line is unchanged. -/
theorem createOrder_stock (s s' : State) (req : CreateOrderRequest) (status : Nat)
    (data : Data) (h : createOrder s req = (Response.success status data, s')) :
    ∃ cart, Cart.findOne s.carts req.user.id = some cart ∧
      (∀ id, Book.findById s'.books id =
        (Book.findById s.books id).map
          (fun b => { b with stock := b.stock - Cart.quantityOf cart.items id })) ∧
      (∀ item ∈ cart.items, ∃ b, Book.findById s.books item.book = some b ∧
        (cart.items.filter (fun other => other.book == item.book) = [item] →
          Book.findById s'.books item.book =
            some { b with stock := b.stock - item.quantity })) ∧
      (∀ id, (∀ item ∈ cart.items, item.book ≠ id) →
        Book.findById s'.books id = Book.findById s.books id) := by
  obtain ⟨address, cart, orderItems, bulkOps, -, hcart, -, hcheck, -, hops, -, -, hs⟩ :=
    createOrder_success h
  subst hs
  have hall : ∀ id, Book.findById (Book.bulkWrite s.books bulkOps) id =
      (Book.findById s.books id).map
        (fun b => { b with stock := b.stock - Cart.quantityOf cart.items id }) := by
    intro id
    rw [Book.findById_bulkWrite, createOrder.bulkOps_decrement _ _ _ hops]
    rfl
  refine ⟨cart, hcart, hall, ?_, ?_⟩
  · intro item hi
    obtain ⟨b, hb, -⟩ := createOrder.checkStock_none _ _ hcheck item hi
    refine ⟨b, hb, ?_⟩
    intro hone
    simp only at hall ⊢
    rw [hall, hb]
    simp [Cart.quantityOf, hone]
  · intro id hid
    simp only at hall ⊢
    rw [hall]
    have hzero : Cart.quantityOf cart.items id = 0 := by
      have : cart.items.filter (fun item => item.book == id) = [] := by
        simpa [List.filter_eq_nil_iff] using hid
      simp [Cart.quantityOf, this]
    rw [hzero]
    cases Book.findById s.books id <;> simp

/-- C4 at `Sample.shop 4`: stock 5 and 4 become 3 and 1. -/
theorem createOrder_stock_witness :
    ∃ cart, Cart.findOne (Sample.shop 4).carts Sample.annOrders.user.id = some cart ∧
      (∀ id, Book.findById Sample.shopAfterOrder.books id =
        (Book.findById (Sample.shop 4).books id).map
          (fun b => { b with stock := b.stock - Cart.quantityOf cart.items id })) ∧
      (∀ item ∈ cart.items, ∃ b, Book.findById (Sample.shop 4).books item.book = some b ∧
        (cart.items.filter (fun other => other.book == item.book) = [item] →
          Book.findById Sample.shopAfterOrder.books item.book =
            some { b with stock := b.stock - item.quantity })) ∧
      (∀ id, (∀ item ∈ cart.items, item.book ≠ id) →
        Book.findById Sample.shopAfterOrder.books id =
          Book.findById (Sample.shop 4).books id) :=
  createOrder_stock (Sample.shop 4) Sample.shopAfterOrder Sample.annOrders 201
    (Data.order Sample.annOrder) (by decide)

/-- C5: after a successful `createOrder` the cart found for the placing user is the cart found
before with zero lines and stored total 0, and, `_id` being unique among the stored carts,
the carts of every other user are the same as before. -/
theorem createOrder_clears_cart (s s' : State) (req : CreateOrderRequest) (status : Nat)
    (data : Data) (h : createOrder s req = (Response.success status data, s'))
    (hids : (s.carts.map (fun c => c._id)).Nodup) :
    (∃ cart, Cart.findOne s.carts req.user.id = some cart ∧
      Cart.findOne s'.carts req.user.id = some { cart with items := [], totalAmount := 0 }) ∧
    (∀ u, u ≠ req.user.id →
      s'.carts.filter (fun c => c.user == u) = s.carts.filter (fun c => c.user == u)) := by
  obtain ⟨address, cart, orderItems, bulkOps, -, hcart, -, -, -, -, -, -, hs⟩ :=
    createOrder_success h
  subst hs
  obtain ⟨hmem, huser⟩ := Cart.findOne_mem hcart
  refine ⟨⟨cart, hcart, ?_⟩, ?_⟩
  · have := Cart.findOne_replace s.carts cart { cart with items := [], totalAmount := 0 }
      (by simpa [huser] using hcart) rfl
    simpa [huser] using this
  · intro u hu
    have hne : cart.user ≠ u := by rw [huser]; exact fun e => hu e.symm
    exact Cart.replace_other s.carts cart { cart with items := [], totalAmount := 0 } hids
      hmem rfl u hne hne

/-- C5 at `Sample.shop 4`: the first cart is emptied, the second is untouched. -/
theorem createOrder_clears_cart_witness :
    (∃ cart, Cart.findOne (Sample.shop 4).carts Sample.annOrders.user.id = some cart ∧
      Cart.findOne Sample.shopAfterOrder.carts Sample.annOrders.user.id =
        some { cart with items := [], totalAmount := 0 }) ∧
    (∀ u, u ≠ Sample.annOrders.user.id →
      Sample.shopAfterOrder.carts.filter (fun c => c.user == u) =
        (Sample.shop 4).carts.filter (fun c => c.user == u)) :=
  createOrder_clears_cart (Sample.shop 4) Sample.shopAfterOrder Sample.annOrders 201
    (Data.order Sample.annOrder) (by decide) (by decide)

/-- C7: after a successful `createOrder` the new order has as many lines as the cart, and
line `i` of the order carries the book id, the stored title of that book, the quantity and
the price stored on cart line `i`, whatever the current catalog price of the book is. -/
theorem createOrder_lines (s s' : State) (req : CreateOrderRequest) (status : Nat)
    (order : Order)
    (h : createOrder s req = (Response.success status (Data.order order), s')) :
    ∃ cart, Cart.findOne s.carts req.user.id = some cart ∧
      order.items.length = cart.items.length ∧
      ∀ (i : Nat) (item : CartItem), cart.items[i]? = some item →
        ∃ b, Book.findById s.books item.book = some b ∧
          order.items[i]? = some { book := item.book, title := b.title,
                                   quantity := item.quantity, price := item.price } := by
  obtain ⟨address, cart, orderItems, bulkOps, -, hcart, -, -, hitems, -, -, hdata, -⟩ :=
    createOrder_success h
  simp only [Data.order.injEq] at hdata
  subst hdata
  exact ⟨cart, hcart, createOrder.orderItems_spec _ _ _ hitems⟩

/-- C7 at `Sample.shop 4`: the first line keeps the snapshot price 10 although the catalog
price of the book is 12. -/
theorem createOrder_lines_witness :
    ∃ cart, Cart.findOne (Sample.shop 4).carts Sample.annOrders.user.id = some cart ∧
      Sample.annOrder.items.length = cart.items.length ∧
      ∀ (i : Nat) (item : CartItem), cart.items[i]? = some item →
        ∃ b, Book.findById (Sample.shop 4).books item.book = some b ∧
          Sample.annOrder.items[i]? = some { book := item.book, title := b.title,
                                             quantity := item.quantity, price := item.price } :=
  createOrder_lines (Sample.shop 4) Sample.shopAfterOrder Sample.annOrders 201 Sample.annOrder
    (by decide)

/-! # Cart total -/

theorem Cart.findOne_append_new (carts : List Cart) (c : Cart)
    (h : Cart.findOne carts c.user = none) :
    Cart.findOne (carts ++ [c]) c.user = some c := by
  simp only [Cart.findOne] at h ⊢
  rw [List.find?_append, h]
  simp [List.find?_cons]

theorem saveCartAndRespond_total (s s' : State) (c c0 : Cart) (r : Response)
    (h : saveCartAndRespond s c = (r, s')) (hok : r.isSuccess = true)
    (hfind : Cart.findOne s.carts c.user = some c0) (hid : c0._id = c._id) :
    ∃ cart, Cart.findOne s'.carts c.user = some cart ∧
      cart.totalAmount = Cart.linesTotal cart.items := by
  unfold saveCartAndRespond Cart.save at h
  cases hv : Cart.validate c with
  | true =>
    simp only [hv, if_true, Prod.mk.injEq] at h
    obtain ⟨-, hs⟩ := h
    subst hs
    refine ⟨{ c with totalAmount := Cart.computeTotal c.items }, ?_, ?_⟩
    · exact Cart.findOne_replace s.carts c0
        { c with totalAmount := Cart.computeTotal c.items } hfind hid
    · simp [Cart.computeTotal_eq_sum, Cart.linesTotal]
  | false =>
    simp only [hv, Bool.false_eq_true, if_false, Prod.mk.injEq] at h
    obtain ⟨hr, -⟩ := h
    subst hr
    simp [Response.isSuccess] at hok

theorem addToCart.findOrCreate_spec (s : State) (user : ObjectId) :
    Cart.findOne (addToCart.findOrCreate s user).2.carts user =
      some (addToCart.findOrCreate s user).1 := by
  unfold addToCart.findOrCreate
  cases hc : Cart.findOne s.carts user with
  | some cart => simpa using hc
  | none =>
    simp only [Cart.create]
    exact Cart.findOne_append_new s.carts
      { _id := s.nextId, user := user, items := [], totalAmount := 0, currencyCode := "USD" } hc

theorem addToCart.findOrCreate_user (s : State) (user : ObjectId) :
    (addToCart.findOrCreate s user).1.user = user := by
  unfold addToCart.findOrCreate
  cases hc : Cart.findOne s.carts user with
  | some cart => exact (Cart.findOne_mem hc).2
  | none => rfl

theorem addToCart_total (s s' : State) (req : AddToCartRequest) (r : Response)
    (h : addToCart s req = (r, s')) (hok : r.isSuccess = true) :
    ∃ cart, Cart.findOne s'.carts req.user.id = some cart ∧
      cart.totalAmount = Cart.linesTotal cart.items := by
  have hfind := addToCart.findOrCreate_spec s req.user.id
  have huser := addToCart.findOrCreate_user s req.user.id
  unfold addToCart at h
  split at h
  · simp only [Prod.mk.injEq] at h; rw [← h.1] at hok; simp [Response.isSuccess] at hok
  · split at h
    · simp only [Prod.mk.injEq] at h; rw [← h.1] at hok; simp [Response.isSuccess] at hok
    · split at h
      · simp only [Prod.mk.injEq] at h; rw [← h.1] at hok; simp [Response.isSuccess] at hok
      · split at h
        · simp only [Prod.mk.injEq] at h; rw [← h.1] at hok; simp [Response.isSuccess] at hok
        · simp only at h
          split at h
          · split at h
            · simp only [Prod.mk.injEq] at h; rw [← h.1] at hok
              simp [Response.isSuccess] at hok
            · have := saveCartAndRespond_total _ _ _
                (addToCart.findOrCreate s req.user.id).1 _ h hok
                (by simpa [huser] using hfind) rfl
              simpa [huser] using this
          · split at h
            · simp only [Prod.mk.injEq] at h; rw [← h.1] at hok
              simp [Response.isSuccess] at hok
            · have := saveCartAndRespond_total _ _ _
                (addToCart.findOrCreate s req.user.id).1 _ h hok
                (by simpa [huser] using hfind) rfl
              simpa [huser] using this

theorem updateCartItem_total (s s' : State) (req : UpdateCartItemRequest) (r : Response)
    (h : updateCartItem s req = (r, s')) (hok : r.isSuccess = true) :
    ∃ cart, Cart.findOne s'.carts req.user.id = some cart ∧
      cart.totalAmount = Cart.linesTotal cart.items := by
  unfold updateCartItem at h
  split at h
  · simp only [Prod.mk.injEq] at h; rw [← h.1] at hok; simp [Response.isSuccess] at hok
  · split at h
    · simp only [Prod.mk.injEq] at h; rw [← h.1] at hok; simp [Response.isSuccess] at hok
    · next cart hcart =>
      have huser := (Cart.findOne_mem hcart).2
      split at h
      · simp only [Prod.mk.injEq] at h; rw [← h.1] at hok; simp [Response.isSuccess] at hok
      · split at h
        · simp only [Prod.mk.injEq] at h; rw [← h.1] at hok; simp [Response.isSuccess] at hok
        · split at h
          · simp only [Prod.mk.injEq] at h; rw [← h.1] at hok
            simp [Response.isSuccess] at hok
          · have := saveCartAndRespond_total _ _ _ cart _ h hok
              (by simpa [huser] using hcart) rfl
            simpa [huser] using this

theorem removeCartItem_total (s s' : State) (req : RemoveCartItemRequest) (r : Response)
    (h : removeCartItem s req = (r, s')) (hok : r.isSuccess = true) :
    ∃ cart, Cart.findOne s'.carts req.user.id = some cart ∧
      cart.totalAmount = Cart.linesTotal cart.items := by
  unfold removeCartItem at h
  split at h
  · simp only [Prod.mk.injEq] at h; rw [← h.1] at hok; simp [Response.isSuccess] at hok
  · next cart hcart =>
    have huser := (Cart.findOne_mem hcart).2
    split at h
    · simp only [Prod.mk.injEq] at h; rw [← h.1] at hok; simp [Response.isSuccess] at hok
    · have := saveCartAndRespond_total _ _ _ cart _ h hok (by simpa [huser] using hcart) rfl
      simpa [huser] using this

theorem clearCart_total (s s' : State) (user : User) (r : Response)
    (h : clearCart s user = (r, s')) (hok : r.isSuccess = true) :
    ∃ cart, Cart.findOne s'.carts user.id = some cart ∧
      cart.totalAmount = Cart.linesTotal cart.items := by
  unfold clearCart at h
  split at h
  · simp only [Prod.mk.injEq] at h; rw [← h.1] at hok; simp [Response.isSuccess] at hok
  · next cart hcart =>
    have huser := (Cart.findOne_mem hcart).2
    have := saveCartAndRespond_total _ _ _ cart _ h hok (by simpa [huser] using hcart) rfl
    simpa [huser] using this

theorem createOrder_cart_total (s s' : State) (req : CreateOrderRequest) (r : Response)
    (h : createOrder s req = (r, s')) (hok : r.isSuccess = true) :
    ∃ cart, Cart.findOne s'.carts req.user.id = some cart ∧
      cart.totalAmount = Cart.linesTotal cart.items := by
  cases r with
  | success status data =>
    obtain ⟨address, cart, orderItems, bulkOps, -, hcart, -, -, -, -, -, -, hs⟩ :=
      createOrder_success h
    subst hs
    have huser := (Cart.findOne_mem hcart).2
    have hnew := Cart.findOne_replace s.carts cart { cart with items := [], totalAmount := 0 }
      (by simpa [huser] using hcart) rfl
    refine ⟨{ cart with items := [], totalAmount := 0 }, ?_, by simp [Cart.linesTotal]⟩
    rw [← huser]
    exact hnew
  | failure _ _ => simp [Response.isSuccess] at hok
  | validationErrors => simp [Response.isSuccess] at hok
  | thrown _ => simp [Response.isSuccess] at hok

/-- C6: after any successful cart-saving request of a user (`addToCart`, `updateCartItem`,
`removeCartItem`, `clearCart`, or the clear inside `createOrder`) the cart stored for that user
has `totalAmount` equal to the sum of `price.amount * quantity` over its lines. -/
theorem cart_total_after_mutation (s s' : State) (user : User) (m : CartMutation)
    (r : Response) (h : m.run s user = (r, s')) (hok : r.isSuccess = true) :
    ∃ cart, Cart.findOne s'.carts user.id = some cart ∧
      cart.totalAmount = Cart.linesTotal cart.items := by
  cases m with
  | addToCart bookId quantity => exact addToCart_total s s' _ r h hok
  | updateCartItem itemId quantity => exact updateCartItem_total s s' _ r h hok
  | removeCartItem itemId => exact removeCartItem_total s s' _ r h hok
  | clearCart => exact clearCart_total s s' user r h hok
  | createOrder a p t sh => exact createOrder_cart_total s s' _ r h hok

/-- C6 at `Sample.shop 4`: adding one more copy of book 1 makes the cart total
51 = 3 * 10 + 3 * 7. -/
theorem cart_total_after_mutation_witness :
    ∃ cart, Cart.findOne
        ((CartMutation.addToCart (Sample.lower 1) (Quantity.number 1)).run (Sample.shop 4)
          Sample.ann).2.carts
        Sample.ann.id = some cart ∧
      cart.totalAmount = Cart.linesTotal cart.items :=
  cart_total_after_mutation (Sample.shop 4)
    ((CartMutation.addToCart (Sample.lower 1) (Quantity.number 1)).run (Sample.shop 4)
      Sample.ann).2 Sample.ann
    (CartMutation.addToCart (Sample.lower 1) (Quantity.number 1))
    ((CartMutation.addToCart (Sample.lower 1) (Quantity.number 1)).run (Sample.shop 4)
      Sample.ann).1 rfl (by decide)

/-! # Status updates -/

theorem updateOrderStatus.bulkOps_restore (items : List OrderItem) (k : ObjectId) :
    opsTotal (updateOrderStatus.bulkOps items) k = Order.quantityOf items k := by
  induction items with
  | nil => simp [opsTotal, updateOrderStatus.bulkOps, Order.quantityOf]
  | cons x xs ih =>
    simp only [opsTotal, updateOrderStatus.bulkOps, Order.quantityOf] at ih ⊢
    by_cases hk : x.book = k
    · simp [List.filter_cons, hk, ih]
    · simp [List.filter_cons, hk, ih]

theorem updateOrderStatus.assign_cancelled (order : Order) (req : StatusRequest)
    (hstatus : req.status = "cancelled") :
    (updateOrderStatus.assign order req).isDelivered = order.isDelivered ∧
    (updateOrderStatus.assign order req).items = order.items := by
  have hne : ¬ (req.status = "delivered") := by rw [hstatus]; decide
  simp [updateOrderStatus.assign, hne]

theorem updateOrderStatus_cancel_books (s : State) (req : StatusRequest) (order : Order)
    (hfind : Order.findById s.orders req.id = some order)
    (hstatus : req.status = "cancelled") :
    (updateOrderStatus s req).2.books =
      if order.isDelivered = false then
        Book.bulkWrite s.books (updateOrderStatus.bulkOps order.items)
      else s.books := by
  obtain ⟨hdel, hitems⟩ := updateOrderStatus.assign_cancelled order req hstatus
  unfold updateOrderStatus
  simp only [hfind, hdel, hitems, hstatus, true_and]
  cases hd : order.isDelivered
  · simp only [if_true]
    split <;> rfl
  · simp only [Bool.true_eq_false, if_false]
    split <;> rfl

/-- C8: `updateOrderStatus` with status 'cancelled' on a stored order with `isDelivered = false`
leaves, under every book id, the book stored before with its stock raised by the total
quantity of the order lines for that id and nothing else changed; so a book with one order
line gains exactly that line's quantity and a book without an order line is unchanged. -/
theorem updateOrderStatus_cancel_restores (s : State) (req : StatusRequest) (order : Order)
    (hfind : Order.findById s.orders req.id = some order)
    (hpending : order.isDelivered = false) (hstatus : req.status = "cancelled") :
    (∀ id, Book.findById (updateOrderStatus s req).2.books id =
      (Book.findById s.books id).map
        (fun b => { b with stock := b.stock + Order.quantityOf order.items id })) ∧
    (∀ item ∈ order.items, ∀ b, Book.findById s.books item.book = some b →
      order.items.filter (fun other => other.book == item.book) = [item] →
        Book.findById (updateOrderStatus s req).2.books item.book =
          some { b with stock := b.stock + item.quantity }) ∧
    (∀ id, (∀ item ∈ order.items, item.book ≠ id) →
      Book.findById (updateOrderStatus s req).2.books id = Book.findById s.books id) := by
  have hbooks := updateOrderStatus_cancel_books s req order hfind hstatus
  rw [if_pos hpending] at hbooks
  have hall : ∀ id, Book.findById (updateOrderStatus s req).2.books id =
      (Book.findById s.books id).map
        (fun b => { b with stock := b.stock + Order.quantityOf order.items id }) := by
    intro id
    rw [hbooks, Book.findById_bulkWrite, updateOrderStatus.bulkOps_restore]
  refine ⟨hall, ?_, ?_⟩
  · intro item _ b hb hone
    rw [hall, hb]
    simp [Order.quantityOf, hone]
  · intro id hid
    rw [hall]
    have hzero : Order.quantityOf order.items id = 0 := by
      have : order.items.filter (fun item => item.book == id) = [] := by
        simpa [List.filter_eq_nil_iff] using hid
      simp [Order.quantityOf, this]
    rw [hzero]
    cases Book.findById s.books id <;> simp

/-- C8 at `Sample.shopAfterOrder`: cancelling the pending order brings the stocks 3 and 1 back
to 5 and 4. -/
theorem updateOrderStatus_cancel_restores_witness :
    (updateOrderStatus Sample.shopAfterOrder Sample.cancelAnnOrder).2.books = Sample.books 4 ∧
    ((∀ id, Book.findById (updateOrderStatus Sample.shopAfterOrder Sample.cancelAnnOrder).2.books
        id = (Book.findById Sample.shopAfterOrder.books id).map
          (fun b => { b with stock := b.stock + Order.quantityOf Sample.annOrder.items id })) ∧
    (∀ item ∈ Sample.annOrder.items, ∀ b,
      Book.findById Sample.shopAfterOrder.books item.book = some b →
      Sample.annOrder.items.filter (fun other => other.book == item.book) = [item] →
        Book.findById (updateOrderStatus Sample.shopAfterOrder Sample.cancelAnnOrder).2.books
          item.book = some { b with stock := b.stock + item.quantity }) ∧
    (∀ id, (∀ item ∈ Sample.annOrder.items, item.book ≠ id) →
      Book.findById (updateOrderStatus Sample.shopAfterOrder Sample.cancelAnnOrder).2.books id =
        Book.findById Sample.shopAfterOrder.books id)) :=
  ⟨by decide,
    updateOrderStatus_cancel_restores Sample.shopAfterOrder Sample.cancelAnnOrder
      Sample.annOrder (by decide) (by decide) (by decide)⟩

/-- C9: `updateOrderStatus` with status 'cancelled' on a stored order with `isDelivered = true`
leaves the book collection, hence every stock, unchanged. -/
theorem updateOrderStatus_cancel_delivered (s : State) (req : StatusRequest) (order : Order)
    (hfind : Order.findById s.orders req.id = some order)
    (hdelivered : order.isDelivered = true) (hstatus : req.status = "cancelled") :
    (updateOrderStatus s req).2.books = s.books := by
  rw [updateOrderStatus_cancel_books s req order hfind hstatus]
  simp [hdelivered]

/-- C9 at `Sample.shopDelivered`: cancelling the delivered order keeps the stocks 3 and 1. -/
theorem updateOrderStatus_cancel_delivered_witness :
    (updateOrderStatus Sample.shopDelivered Sample.cancelAnnOrder).2.books =
      Sample.shopDelivered.books ∧
    Sample.shopDelivered.books = Sample.shopAfterOrder.books :=
  ⟨updateOrderStatus_cancel_delivered Sample.shopDelivered Sample.cancelAnnOrder
      Sample.annOrderDelivered (by decide) (by decide) (by decide), by decide⟩

theorem Order.findById_replace (orders : List Order) (o n : Order)
    (hfind : Order.findById orders n._id = some o) :
    Order.findById (Order.replace orders n) n._id = some n := by
  induction orders with
  | nil => simp [Order.findById] at hfind
  | cons x xs ih =>
    by_cases hx : x._id = n._id
    · simp [Order.replace, hx, Order.findById, List.find?_cons]
    · have hx2 : (x._id == n._id) = false := by simpa using hx
      simp only [Order.findById, List.find?_cons, hx2] at hfind ih ⊢
      simp only [Order.replace, hx, if_false, List.find?_cons, hx2]
      exact ih hfind

theorem Order.findById_order_id {orders : List Order} {id : ObjectId} {o : Order}
    (h : Order.findById orders id = some o) : o._id = id := by
  have := List.find?_some h
  simpa using this

/-- C10, as stated, fails: in `Sample.shopDelivered` the order has status 'delivered';
`updateOrderStatus` with 'cancelled' succeeds and stores status 'cancelled', and
`updateOrderToPaid` by the owner succeeds and stores status 'processing'; neither change is
a transition of the specified state machine. -/
theorem status_machine_not_enforced :
    (Order.findById Sample.shopDelivered.orders 20).map (fun o => o.status) =
      some "delivered" ∧
    (updateOrderStatus Sample.shopDelivered Sample.cancelAnnOrder).1 =
      Response.success 200 (Data.order { Sample.annOrderDelivered with status := "cancelled" }) ∧
    (Order.findById (updateOrderStatus Sample.shopDelivered Sample.cancelAnnOrder).2.orders
      20).map (fun o => o.status) = some "cancelled" ∧
    specTransition "delivered" "cancelled" = false ∧
    (updateOrderToPaid Sample.shopDelivered Sample.payAnnOrder).1.isSuccess = true ∧
    (Order.findById (updateOrderToPaid Sample.shopDelivered Sample.payAnnOrder).2.orders
      20).map (fun o => o.status) = some "processing" ∧
    specTransition "delivered" "processing" = false := by
  decide

/-- C10 (amended): for a stored order that passes schema validation, whatever its current
status, `updateOrderStatus` with any of the five enum values succeeds and stores exactly the
requested status, `updateOrderStatus` with any other value is rejected by validation and
changes nothing, and `updateOrderToPaid` called by the owner or an admin succeeds and stores
status 'processing'. -/
theorem status_written (s : State) (order : Order) (hvalid : Order.validate order = true) :
    (∀ req : StatusRequest, Order.findById s.orders req.id = some order →
      req.status ∈ Order.statusEnum →
      ∃ new, (updateOrderStatus s req).1 = Response.success 200 (Data.order new) ∧
        Order.findById (updateOrderStatus s req).2.orders req.id = some new ∧
        new.status = req.status) ∧
    (∀ req : StatusRequest, Order.findById s.orders req.id = some order →
      req.status ∉ Order.statusEnum →
      updateOrderStatus s req = (Response.thrown Thrown.validationError, s)) ∧
    (∀ req : PayRequest, Order.findById s.orders req.id = some order →
      (order.user = req.user.id ∨ req.user.role = "admin") →
      ∃ new, (updateOrderToPaid s req).1 = Response.success 200 (Data.order new) ∧
        Order.findById (updateOrderToPaid s req).2.orders req.id = some new ∧
        new.status = "processing") := by
  simp only [Order.validate, Bool.and_eq_true] at hvalid
  obtain ⟨⟨⟨hitems, haddr⟩, hpay⟩, -⟩ := hvalid
  refine ⟨?_, ?_, ?_⟩
  · intro req hfind hstatus
    have hid := Order.findById_order_id hfind
    have henum : Order.statusEnum.contains req.status = true := by
      simpa using hstatus
    have hnew : (updateOrderStatus.assign order req).status = req.status := by
      unfold updateOrderStatus.assign
      split <;> rfl
    have hv : Order.validate (updateOrderStatus.assign order req) = true := by
      unfold updateOrderStatus.assign
      split
      · simp only [Order.validate, Bool.and_eq_true]
        exact ⟨⟨⟨hitems, haddr⟩, hpay⟩, henum⟩
      · simp only [Order.validate, Bool.and_eq_true]
        exact ⟨⟨⟨hitems, haddr⟩, hpay⟩, henum⟩
    have hnid : (updateOrderStatus.assign order req)._id = req.id := by
      unfold updateOrderStatus.assign
      split <;> exact hid
    have hrep := Order.findById_replace s.orders order (updateOrderStatus.assign order req)
      (by rw [hnid]; exact hfind)
    rw [hnid] at hrep
    refine ⟨updateOrderStatus.assign order req, ?_, ?_, hnew⟩
    · unfold updateOrderStatus
      simp only [hfind, Order.save, hv, if_true]
    · unfold updateOrderStatus
      simp only [hfind, Order.save, hv, if_true]
      split <;> exact hrep
  · intro req hfind hstatus
    have hne : ¬ (req.status = "cancelled") := by
      intro h
      exact hstatus (by rw [h]; decide)
    have hnew : (updateOrderStatus.assign order req).status = req.status := by
      unfold updateOrderStatus.assign
      split <;> rfl
    have henum : Order.statusEnum.contains req.status = false := by
      simpa using hstatus
    have hv : Order.validate (updateOrderStatus.assign order req) = false := by
      simp only [Order.validate, hnew, henum, Bool.and_false]
    unfold updateOrderStatus
    simp only [hfind, hne, false_and, if_false, Order.save, hv, Bool.false_eq_true]
  · intro req hfind hauth
    have hid := Order.findById_order_id hfind
    have hguard : ¬ (order.user ≠ req.user.id ∧ req.user.role ≠ "admin") := by
      rintro ⟨h1, h2⟩
      rcases hauth with h | h
      · exact h1 h
      · exact h2 h
    have hv : Order.validate (updateOrderToPaid.assign order req) = true := by
      simp only [updateOrderToPaid.assign, Order.validate, Bool.and_eq_true]
      exact ⟨⟨⟨hitems, haddr⟩, hpay⟩, by decide⟩
    have hnid : (updateOrderToPaid.assign order req)._id = req.id := hid
    have hrep := Order.findById_replace s.orders order (updateOrderToPaid.assign order req)
      (by rw [hnid]; exact hfind)
    rw [hnid] at hrep
    refine ⟨updateOrderToPaid.assign order req, ?_, ?_, rfl⟩
    · unfold updateOrderToPaid
      simp only [hfind, if_neg hguard, Order.save, hv, if_true]
    · unfold updateOrderToPaid
      simp only [hfind, if_neg hguard, Order.save, hv, if_true]
      exact hrep

/-- C10 (amended) at `Sample.shopDelivered`: the delivered order becomes 'cancelled'. -/
theorem status_written_witness :
    ∃ new, (updateOrderStatus Sample.shopDelivered Sample.cancelAnnOrder).1 =
        Response.success 200 (Data.order new) ∧
      Order.findById (updateOrderStatus Sample.shopDelivered Sample.cancelAnnOrder).2.orders
        Sample.cancelAnnOrder.id = some new ∧
      new.status = Sample.cancelAnnOrder.status :=
  (status_written Sample.shopDelivered Sample.annOrderDelivered (by decide)).1
    Sample.cancelAnnOrder (by decide) (by decide)

/-! # Payment and frozen order fields -/

theorem Order.findById_replace_ne (orders : List Order) (n : Order) (id : ObjectId)
    (hne : id ≠ n._id) :
    Order.findById (Order.replace orders n) id = Order.findById orders id := by
  induction orders with
  | nil => rfl
  | cons x xs ih =>
    by_cases hx : x._id = n._id
    · have h1 : (x._id == id) = false := by
        simp only [beq_eq_false_iff_ne, ne_eq]
        exact fun e => hne (e.symm.trans hx)
      have h2 : (n._id == id) = false := by
        simp only [beq_eq_false_iff_ne, ne_eq]
        exact fun e => hne e.symm
      simp [Order.replace, hx, Order.findById, List.find?_cons, h1, h2]
    · simp only [Order.findById] at ih
      simp only [Order.replace, hx, if_false, Order.findById, List.find?_cons, ih]

theorem Order.mem_replace_order {orders : List Order} {n x : Order}
    (h : x ∈ Order.replace orders n) : x ∈ orders ∨ x = n := by
  induction orders with
  | nil => cases h
  | cons y ys ih =>
    simp only [Order.replace] at h
    split at h
    · rcases List.mem_cons.mp h with rfl | h
      · exact Or.inr rfl
      · exact Or.inl (List.mem_cons_of_mem _ h)
    · rcases List.mem_cons.mp h with rfl | h
      · exact Or.inl (List.mem_cons_self _ _)
      · rcases ih h with h | h
        · exact Or.inl (List.mem_cons_of_mem _ h)
        · exact Or.inr h

/-- The store after `updateOrderToPaid`: unchanged, or one order rewritten. -/
theorem updateOrderToPaid_state (s : State) (req : PayRequest) :
    (updateOrderToPaid s req).2 = s ∨
    ∃ order, Order.findById s.orders req.id = some order ∧
      (updateOrderToPaid s req).2 =
        { s with orders := Order.replace s.orders (updateOrderToPaid.assign order req) } := by
  unfold updateOrderToPaid
  cases hfind : Order.findById s.orders req.id with
  | none => exact Or.inl rfl
  | some order =>
    by_cases hg : order.user ≠ req.user.id ∧ req.user.role ≠ "admin"
    · left
      simp only [if_pos hg]
    · cases hv : Order.validate (updateOrderToPaid.assign order req) with
      | false =>
        left
        simp only [if_neg hg, Order.save, hv, Bool.false_eq_true, if_false]
      | true =>
        right
        refine ⟨order, rfl, ?_⟩
        simp only [if_neg hg, Order.save, hv, if_true]

/-- The store after `updateOrderStatus`: carts and reviews are kept, the books are kept or
restocked from the lines of the order, the orders are kept or one order is rewritten. -/
theorem updateOrderStatus_state (s : State) (req : StatusRequest) :
    (updateOrderStatus s req).2 = s ∨
    ∃ order, Order.findById s.orders req.id = some order ∧
      (updateOrderStatus s req).2.carts = s.carts ∧
      (updateOrderStatus s req).2.reviews = s.reviews ∧
      (updateOrderStatus s req).2.nextId = s.nextId ∧
      ((updateOrderStatus s req).2.books = s.books ∨
        (updateOrderStatus s req).2.books =
          Book.bulkWrite s.books (updateOrderStatus.bulkOps order.items)) ∧
      ((updateOrderStatus s req).2.orders = s.orders ∨
        (updateOrderStatus s req).2.orders =
          Order.replace s.orders (updateOrderStatus.assign order req)) := by
  unfold updateOrderStatus
  cases hfind : Order.findById s.orders req.id with
  | none => exact Or.inl rfl
  | some order =>
    refine Or.inr ⟨order, rfl, ?_⟩
    have hitems : (updateOrderStatus.assign order req).items = order.items := by
      unfold updateOrderStatus.assign
      split <;> rfl
    by_cases hc : req.status = "cancelled" ∧ (updateOrderStatus.assign order req).isDelivered = false
    · cases hv : Order.validate (updateOrderStatus.assign order req) with
      | false => simp [if_pos hc, Order.save, hv, hitems]
      | true => simp [if_pos hc, Order.save, hv, hitems]
    · cases hv : Order.validate (updateOrderStatus.assign order req) with
      | false => simp [if_neg hc, Order.save, hv]
      | true => simp [if_neg hc, Order.save, hv]

theorem updateOrderToPaid.assign_keeps_creation (order : Order) (req : PayRequest) :
    Order.sameCreationFields (updateOrderToPaid.assign order req) order :=
  ⟨rfl, rfl, rfl, rfl, rfl⟩

theorem updateOrderStatus.assign_same_creation (order : Order) (req : StatusRequest) :
    Order.sameCreationFields (updateOrderStatus.assign order req) order := by
  unfold updateOrderStatus.assign
  split <;> exact ⟨rfl, rfl, rfl, rfl, rfl⟩

theorem updateOrderStatus.assign_id (order : Order) (req : StatusRequest) :
    (updateOrderStatus.assign order req)._id = order._id := by
  unfold updateOrderStatus.assign
  split <;> rfl

/-- Lookup of an order after another order with the same creation fields was written back. -/
theorem Order.findById_replace_creation (orders : List Order) (old new order : Order)
    (k id : ObjectId) (hold : Order.findById orders k = some old) (hid : new._id = k)
    (hsame : Order.sameCreationFields new old)
    (hfind : Order.findById orders id = some order) :
    ∃ o, Order.findById (Order.replace orders new) id = some o ∧
      Order.sameCreationFields o order := by
  by_cases hk : id = k
  · subst hk
    rw [hold] at hfind
    cases hfind
    refine ⟨new, ?_, hsame⟩
    have := Order.findById_replace orders old new (by rw [hid]; exact hold)
    rwa [hid] at this
  · refine ⟨order, ?_, ⟨rfl, rfl, rfl, rfl, rfl⟩⟩
    rw [Order.findById_replace_ne orders new id (by rw [hid]; exact hk)]
    exact hfind

/-- C11: in a store whose orders pass schema validation, `updateOrderToPaid` answers 404 and
keeps the store when the order is absent, answers 403 and keeps the store when the caller is
neither the owner nor an admin, and otherwise answers 200 and writes the order back with
`isPaid = true`, `paidAt = now`, `status = 'processing'` and the supplied payment result; so
it succeeds exactly when the order exists and the caller is its owner or an admin. -/
theorem updateOrderToPaid_outcome (s : State) (req : PayRequest)
    (hschema : ∀ o ∈ s.orders, Order.validate o = true) :
    (Order.findById s.orders req.id = none →
      updateOrderToPaid s req = (Response.failure 404 "Order not found", s)) ∧
    (∀ order, Order.findById s.orders req.id = some order →
      order.user ≠ req.user.id → req.user.role ≠ "admin" →
      updateOrderToPaid s req =
        (Response.failure 403 "Not authorized to update this order", s)) ∧
    (∀ order, Order.findById s.orders req.id = some order →
      (order.user = req.user.id ∨ req.user.role = "admin") →
      ∃ paid, updateOrderToPaid s req =
          (Response.success 200 (Data.order paid),
            { s with orders := Order.replace s.orders paid }) ∧
        Order.findById (Order.replace s.orders paid) req.id = some paid ∧
        paid.isPaid = true ∧ paid.paidAt = some req.now ∧ paid.status = "processing" ∧
        paid.paymentResult = some req.paymentResult) ∧
    ((updateOrderToPaid s req).1.isSuccess = true ↔
      ∃ order, Order.findById s.orders req.id = some order ∧
        (order.user = req.user.id ∨ req.user.role = "admin")) := by
  have hnone : Order.findById s.orders req.id = none →
      updateOrderToPaid s req = (Response.failure 404 "Order not found", s) := by
    intro h
    simp only [updateOrderToPaid, h]
  have hforbid : ∀ order, Order.findById s.orders req.id = some order →
      order.user ≠ req.user.id → req.user.role ≠ "admin" →
      updateOrderToPaid s req =
        (Response.failure 403 "Not authorized to update this order", s) := by
    intro order h h1 h2
    simp only [updateOrderToPaid, h, if_pos (And.intro h1 h2)]
  have hok : ∀ order, Order.findById s.orders req.id = some order →
      (order.user = req.user.id ∨ req.user.role = "admin") →
      ∃ paid, updateOrderToPaid s req =
          (Response.success 200 (Data.order paid),
            { s with orders := Order.replace s.orders paid }) ∧
        Order.findById (Order.replace s.orders paid) req.id = some paid ∧
        paid.isPaid = true ∧ paid.paidAt = some req.now ∧ paid.status = "processing" ∧
        paid.paymentResult = some req.paymentResult := by
    intro order hfind hauth
    have hguard : ¬ (order.user ≠ req.user.id ∧ req.user.role ≠ "admin") := by
      rintro ⟨h1, h2⟩
      rcases hauth with h | h
      · exact h1 h
      · exact h2 h
    have hvalid := hschema order (List.mem_of_find?_eq_some hfind)
    have hv : Order.validate (updateOrderToPaid.assign order req) = true := by
      simp only [Order.validate, Bool.and_eq_true] at hvalid
      obtain ⟨⟨⟨hitems, haddr⟩, hpay⟩, -⟩ := hvalid
      simp only [updateOrderToPaid.assign, Order.validate, Bool.and_eq_true]
      exact ⟨⟨⟨hitems, haddr⟩, hpay⟩, by decide⟩
    have hid : (updateOrderToPaid.assign order req)._id = req.id :=
      (Order.findById_order_id hfind : order._id = req.id)
    have hrep := Order.findById_replace s.orders order (updateOrderToPaid.assign order req)
      (by rw [hid]; exact hfind)
    rw [hid] at hrep
    refine ⟨updateOrderToPaid.assign order req, ?_, hrep, rfl, rfl, rfl, rfl⟩
    simp only [updateOrderToPaid, hfind, if_neg hguard, Order.save, hv, if_true]
  refine ⟨hnone, hforbid, hok, ?_⟩
  constructor
  · intro hsucc
    cases hfind : Order.findById s.orders req.id with
    | none =>
      rw [hnone hfind] at hsucc
      simp [Response.isSuccess] at hsucc
    | some order =>
      refine ⟨order, rfl, ?_⟩
      by_contra hno
      have h1 : order.user ≠ req.user.id := fun e => hno (Or.inl e)
      have h2 : req.user.role ≠ "admin" := fun e => hno (Or.inr e)
      rw [hforbid order hfind h1 h2] at hsucc
      simp [Response.isSuccess] at hsucc
  · rintro ⟨order, hfind, hauth⟩
    obtain ⟨paid, hrun, -⟩ := hok order hfind hauth
    rw [hrun]
    rfl

/-- C11 at `Sample.shopAfterOrder`: the owner pays order 20; another customer is refused. -/
theorem updateOrderToPaid_outcome_witness :
    (∃ paid, updateOrderToPaid Sample.shopAfterOrder Sample.payAnnOrder =
        (Response.success 200 (Data.order paid),
          { Sample.shopAfterOrder with
            orders := Order.replace Sample.shopAfterOrder.orders paid }) ∧
      Order.findById (Order.replace Sample.shopAfterOrder.orders paid)
        Sample.payAnnOrder.id = some paid ∧
      paid.isPaid = true ∧ paid.paidAt = some Sample.payAnnOrder.now ∧
      paid.status = "processing" ∧
      paid.paymentResult = some Sample.payAnnOrder.paymentResult) ∧
    updateOrderToPaid Sample.shopAfterOrder { Sample.payAnnOrder with user := Sample.bob } =
      (Response.failure 403 "Not authorized to update this order", Sample.shopAfterOrder) :=
  ⟨(updateOrderToPaid_outcome Sample.shopAfterOrder Sample.payAnnOrder (by decide)).2.2.1
      Sample.annOrder (by decide) (Or.inl (by decide)),
    by decide⟩

/-- C12: for every stored order, after any call of `updateOrderToPaid`, `updateOrderStatus` or
`updateBook` (a later change of a catalog price included) the order stored under the same
id has the same line items, `totalAmount`, `taxAmount`, `shippingAmount` and
`shippingAddress`. -/
theorem order_creation_fields_frozen (s : State) (id : ObjectId) (order : Order)
    (hfind : Order.findById s.orders id = some order) :
    (∀ req : PayRequest, ∃ o,
      Order.findById (updateOrderToPaid s req).2.orders id = some o ∧
      Order.sameCreationFields o order) ∧
    (∀ req : StatusRequest, ∃ o,
      Order.findById (updateOrderStatus s req).2.orders id = some o ∧
      Order.sameCreationFields o order) ∧
    (∀ req : UpdateBookRequest,
      Order.findById (updateBook s req).2.orders id = some order) := by
  refine ⟨?_, ?_, ?_⟩
  · intro req
    rcases updateOrderToPaid_state s req with h | ⟨old, hold, h⟩
    · rw [h]
      exact ⟨order, hfind, ⟨rfl, rfl, rfl, rfl, rfl⟩⟩
    · rw [h]
      exact Order.findById_replace_creation s.orders old _ order req.id id hold
        (Order.findById_order_id hold : old._id = req.id)
        (updateOrderToPaid.assign_keeps_creation old req) hfind
  · intro req
    rcases updateOrderStatus_state s req with h | ⟨old, hold, -, -, -, -, h⟩
    · rw [h]
      exact ⟨order, hfind, ⟨rfl, rfl, rfl, rfl, rfl⟩⟩
    · rcases h with h | h
      · rw [h]
        exact ⟨order, hfind, ⟨rfl, rfl, rfl, rfl, rfl⟩⟩
      · rw [h]
        exact Order.findById_replace_creation s.orders old _ order req.id id hold
          ((updateOrderStatus.assign_id old req).trans (Order.findById_order_id hold))
          (updateOrderStatus.assign_same_creation old req) hfind
  · intro req
    unfold updateBook
    split
    · exact hfind
    · split
      · exact hfind
      · exact hfind

/-- C12 at `Sample.shopAfterOrder`: payment, delivery and a price rise from 12 to 15 leave the
lines of order 20 (two copies at 10, three at 7) and its amounts as created. -/
theorem order_creation_fields_frozen_witness :
    (∃ o, Order.findById (updateOrderToPaid Sample.shopAfterOrder Sample.payAnnOrder).2.orders
        20 = some o ∧ Order.sameCreationFields o Sample.annOrder) ∧
    (∃ o, Order.findById (updateOrderStatus Sample.shopAfterOrder
        { id := 20, status := "delivered", now := 7 }).2.orders 20 = some o ∧
      Order.sameCreationFields o Sample.annOrder) ∧
    Order.findById (updateBook Sample.shopAfterOrder Sample.raisePrice).2.orders 20 =
      some Sample.annOrder ∧
    (Book.findById (updateBook Sample.shopAfterOrder Sample.raisePrice).2.books 1).map
      (fun b => b.price.amount) = some 15 :=
  ⟨(order_creation_fields_frozen Sample.shopAfterOrder 20 Sample.annOrder (by decide)).1
      Sample.payAnnOrder,
    (order_creation_fields_frozen Sample.shopAfterOrder 20 Sample.annOrder (by decide)).2.1
      { id := 20, status := "delivered", now := 7 },
    (order_creation_fields_frozen Sample.shopAfterOrder 20 Sample.annOrder (by decide)).2.2
      Sample.raisePrice,
    by decide⟩

/-- C14: the order of a successful `createOrder` is appended to the order collection with
`taxAmount` and `shippingAmount` as supplied in the request (0 for an omitted one),
`status = 'pending'`, `isPaid = false` and `isDelivered = false`. -/
theorem createOrder_defaults (s s' : State) (req : CreateOrderRequest) (status : Nat)
    (order : Order)
    (h : createOrder s req = (Response.success status (Data.order order), s')) :
    s'.orders = s.orders ++ [order] ∧
    order.taxAmount = req.taxAmount.getD 0 ∧
    order.shippingAmount = req.shippingAmount.getD 0 ∧
    order.status = "pending" ∧ order.isPaid = false ∧ order.isDelivered = false := by
  obtain ⟨address, cart, orderItems, bulkOps, -, -, -, -, -, -, -, hdata, hs⟩ :=
    createOrder_success h
  simp only [Data.order.injEq] at hdata
  subst hdata hs
  exact ⟨rfl, rfl, rfl, rfl, rfl, rfl⟩

/-- C14 at `Sample.shop 4`: with tax 5 and shipping 3 supplied the order stores 5 and 3; with
both omitted it stores 0 and 0. -/
theorem createOrder_defaults_witness :
    ((createOrder (Sample.shop 4) Sample.annOrdersTaxed).2.orders =
        (Sample.shop 4).orders ++ [{ Sample.annOrder with taxAmount := 5, shippingAmount := 3 }] ∧
      (5 : Int) = Sample.annOrdersTaxed.taxAmount.getD 0 ∧
      (3 : Int) = Sample.annOrdersTaxed.shippingAmount.getD 0 ∧
      Sample.annOrder.status = "pending" ∧ Sample.annOrder.isPaid = false ∧
      Sample.annOrder.isDelivered = false) ∧
    Sample.annOrder.taxAmount = 0 ∧ Sample.annOrder.shippingAmount = 0 :=
  ⟨createOrder_defaults (Sample.shop 4) (createOrder (Sample.shop 4) Sample.annOrdersTaxed).2
      Sample.annOrdersTaxed 201 { Sample.annOrder with taxAmount := 5, shippingAmount := 3 }
      (by decide),
    by decide, by decide⟩

/-! # Cart lines -/

theorem findIdx?_first {α : Type} (p : α → Bool) (xs : List α) (i : Nat)
    (h : xs.findIdx? p = some i) :
    ∃ a, xs[i]? = some a ∧ p a = true ∧ ∀ j, j < i → ∀ b, xs[j]? = some b → p b = false := by
  obtain ⟨hlt, hp, hbefore⟩ := List.findIdx?_eq_some_iff_getElem.mp h
  refine ⟨xs[i], List.getElem?_eq_getElem hlt, hp, ?_⟩
  intro j hj b hb
  have hjl : j < xs.length := Nat.lt_trans hj hlt
  rw [List.getElem?_eq_getElem hjl] at hb
  cases hb
  simpa using hbefore j hj

theorem findIdx?_of_first {α : Type} (p : α → Bool) (xs : List α) (i : Nat) (a : α)
    (ha : xs[i]? = some a) (hp : p a = true)
    (hbefore : ∀ j, j < i → ∀ b, xs[j]? = some b → p b = false) :
    xs.findIdx? p = some i := by
  obtain ⟨hlt, hget⟩ := List.getElem?_eq_some.mp ha
  refine List.findIdx?_eq_some_iff_getElem.mpr ⟨hlt, by rw [hget]; exact hp, ?_⟩
  intro j hj
  have hjl : j < xs.length := Nat.lt_trans hj hlt
  simpa using hbefore j hj xs[j] (List.getElem?_eq_getElem hjl)

theorem findIdx?_of_mem {α : Type} (p : α → Bool) (xs : List α)
    (h : ∃ x ∈ xs, p x = true) : ∃ i, xs.findIdx? p = some i :=
  ⟨xs.findIdx p, List.findIdx?_eq_some_of_exists h⟩

theorem mem_modify {α : Type} (f : α → α) (xs : List α) (i : Nat) (x : α)
    (h : x ∈ xs.modify f i) : x ∈ xs ∨ ∃ y ∈ xs, x = f y := by
  induction xs generalizing i with
  | nil => simp at h
  | cons a as ih =>
    cases i with
    | zero =>
      simp only [List.modify_zero_cons, List.mem_cons] at h
      rcases h with h | h
      · exact Or.inr ⟨a, List.mem_cons_self _ _, h⟩
      · exact Or.inl (List.mem_cons_of_mem _ h)
    | succ n =>
      simp only [List.modify_succ_cons, List.mem_cons] at h
      rcases h with h | h
      · exact Or.inl (h ▸ List.mem_cons_self _ _)
      · rcases ih n h with h | ⟨y, hy, hxy⟩
        · exact Or.inl (List.mem_cons_of_mem _ h)
        · exact Or.inr ⟨y, List.mem_cons_of_mem _ hy, hxy⟩

theorem map_modify_same {α β : Type} (g : α → β) (f : α → α) (hf : ∀ a, g (f a) = g a)
    (xs : List α) (i : Nat) : (xs.modify f i).map g = xs.map g := by
  induction xs generalizing i with
  | nil => simp
  | cons a as ih =>
    cases i with
    | zero => simp [hf]
    | succ n => simp [ih]

/-- A successful `save` of a cart: the response, the store and the cart found afterwards. -/
theorem saveCartAndRespond_saved (s s' : State) (c c0 : Cart) (r : Response)
    (h : saveCartAndRespond s c = (r, s')) (hok : r.isSuccess = true)
    (hfind : Cart.findOne s.carts c.user = some c0) (hid : c0._id = c._id) :
    Cart.validate c = true ∧
    r = Response.success 200 (Data.cart { c with totalAmount := Cart.computeTotal c.items }) ∧
    s' = { s with carts :=
      Cart.replace s.carts { c with totalAmount := Cart.computeTotal c.items } } ∧
    Cart.findOne s'.carts c.user =
      some { c with totalAmount := Cart.computeTotal c.items } := by
  unfold saveCartAndRespond Cart.save at h
  cases hv : Cart.validate c with
  | true =>
    simp only [hv, if_true, Prod.mk.injEq] at h
    obtain ⟨hr, hs⟩ := h
    subst hr hs
    exact ⟨rfl, rfl, rfl, Cart.findOne_replace s.carts c0
      { c with totalAmount := Cart.computeTotal c.items } hfind hid⟩
  | false =>
    simp only [hv, Bool.false_eq_true, if_false, Prod.mk.injEq] at h
    obtain ⟨hr, -⟩ := h
    subst hr
    simp [Response.isSuccess] at hok

theorem saveCartAndRespond_valid (s : State) (c : Cart) (hv : Cart.validate c = true) :
    saveCartAndRespond s c =
      (Response.success 200 (Data.cart { c with totalAmount := Cart.computeTotal c.items }),
        { s with carts :=
          Cart.replace s.carts { c with totalAmount := Cart.computeTotal c.items } }) := by
  simp only [saveCartAndRespond, Cart.save, hv, if_true]

theorem RawId.cast_of_isStringOf {raw : RawId} {id : ObjectId}
    (h : raw.isStringOf id = true) : raw.cast = some id := by
  cases raw with
  | castable k canonical =>
    simp only [RawId.isStringOf, Bool.and_eq_true, beq_iff_eq] at h
    simp only [RawId.cast, h.2]
  | uncastable e => simp [RawId.isStringOf] at h

theorem Quantity.isInt_spec {q : Quantity} {min : Int} (h : q.isInt min = true) :
    ∃ n, q.toNumber = some n ∧ min ≤ n := by
  unfold Quantity.isInt at h
  split at h
  · next n hn => exact ⟨n, hn, by simpa using h⟩
  · cases h

theorem Quantity.exceeds_iff {q : Quantity} {n : Int} (stock : Int)
    (h : q.toNumber = some n) : q.exceeds stock = true ↔ stock < n := by
  simp [Quantity.exceeds, h]

theorem AddToCartRequest.valid_of_cast {req : AddToCartRequest} {id : ObjectId} {n : Int}
    (hraw : req.bookId.cast = some id) (hq : req.quantity.toNumber = some n)
    (h1 : 1 ≤ n) : req.valid = true := by
  have hne : req.bookId.notEmpty = true := by
    cases hb : req.bookId with
    | castable id c => rfl
    | uncastable e => rw [hb] at hraw; cases hraw
  simp [AddToCartRequest.valid, hne, Quantity.isInt, hq, h1]

/-- What a successful `addToCart` went through: the checks, the book, the cart it works on
and the save. -/
theorem addToCart_success (s s' : State) (req : AddToCartRequest) (r : Response)
    (h : addToCart s req = (r, s')) (hok : r.isSuccess = true) :
    req.valid = true ∧
    ∃ (bookId : ObjectId) (book : Book) (n : Int),
      req.bookId.cast = some bookId ∧ Book.findById s.books bookId = some book ∧
      req.quantity.toNumber = some n ∧ 1 ≤ n ∧ n ≤ book.stock ∧
      ((∃ (i : Nat) (item : CartItem) (q : Int),
          (addToCart.findOrCreate s req.user.id).1.items.findIdx?
            (fun item => req.bookId.isStringOf item.book) = some i ∧
          (addToCart.findOrCreate s req.user.id).1.items[i]? = some item ∧
          req.quantity.addTo item.quantity = some q ∧
          saveCartAndRespond (addToCart.findOrCreate s req.user.id).2
            { (addToCart.findOrCreate s req.user.id).1 with
              items := (addToCart.findOrCreate s req.user.id).1.items.modify
                (fun item => { item with quantity := q }) i } =
            (r, s')) ∨
        ((addToCart.findOrCreate s req.user.id).1.items.findIdx?
            (fun item => req.bookId.isStringOf item.book) = none ∧
          saveCartAndRespond
            { (addToCart.findOrCreate s req.user.id).2 with
              nextId := (addToCart.findOrCreate s req.user.id).2.nextId + 1 }
            { (addToCart.findOrCreate s req.user.id).1 with
              items := (addToCart.findOrCreate s req.user.id).1.items ++
                [{ _id := (addToCart.findOrCreate s req.user.id).2.nextId,
                   book := bookId, quantity := n, price := book.price }] } =
            (r, s'))) := by
  unfold addToCart at h
  split at h
  · simp only [Prod.mk.injEq] at h; rw [← h.1] at hok; simp [Response.isSuccess] at hok
  · next hv =>
    have hvalid : req.valid = true := by simpa using hv
    obtain ⟨n, hn, hn1⟩ : ∃ n, req.quantity.toNumber = some n ∧ 1 ≤ n := by
      simp only [AddToCartRequest.valid, Bool.and_eq_true] at hvalid
      exact Quantity.isInt_spec hvalid.2
    refine ⟨hvalid, ?_⟩
    split at h
    · simp only [Prod.mk.injEq] at h; rw [← h.1] at hok; simp [Response.isSuccess] at hok
    · next bookId hcast =>
      split at h
      · simp only [Prod.mk.injEq] at h; rw [← h.1] at hok; simp [Response.isSuccess] at hok
      · next book hbook =>
        split at h
        · simp only [Prod.mk.injEq] at h; rw [← h.1] at hok; simp [Response.isSuccess] at hok
        · next hstock =>
          have hle : n ≤ book.stock := by
            have := (Quantity.exceeds_iff book.stock hn).not.mp hstock
            exact not_lt.mp this
          refine ⟨bookId, book, n, hcast, hbook, hn, hn1, hle, ?_⟩
          simp only at h
          split at h
          · next i hi =>
            split at h
            · simp only [Prod.mk.injEq] at h; rw [← h.1] at hok
              simp [Response.isSuccess] at hok
            · next q hq =>
              rw [List.get?_eq_getElem?] at hq
              cases hitem : (addToCart.findOrCreate s req.user.id).1.items[i]? with
              | none => rw [hitem] at hq; cases hq
              | some item =>
                rw [hitem] at hq
                exact Or.inl ⟨i, item, q, hi, hitem, hq, h⟩
          · next hi =>
            rw [hn] at h
            exact Or.inr ⟨hi, h⟩

theorem addToCart.findOrCreate_found (s : State) (user : ObjectId) (cart : Cart)
    (h : Cart.findOne s.carts user = some cart) :
    addToCart.findOrCreate s user = (cart, s) := by
  simp only [addToCart.findOrCreate, h]

theorem addToCart.findOrCreate_created (s : State) (user : ObjectId)
    (h : Cart.findOne s.carts user = none) :
    addToCart.findOrCreate s user = Cart.create s user := by
  simp only [addToCart.findOrCreate, h]

/-- C15 at failing inputs. In `Sample.shop 4` the cart of the first customer holds 2 copies
of book 1 and 3 copies of book 2, and book 1 has stock 5. A request that names book 1 with
upper-case hex digits and asks for 1 copy succeeds, leaves the line at 2 copies and appends
a second line for book 1. A request that names book 1 in lower case and sends the quantity
as the string "1" succeeds and stores 21 copies on the line, not 3. -/
theorem addToCart_existing_line_missed :
    Sample.annCart.items.map (fun x => (x.book, x.quantity)) = [(1, 2), (2, 3)] ∧
    (addToCart (Sample.shop 4) Sample.annAddsUpperCase).1.isSuccess = true ∧
    (Cart.findOne (addToCart (Sample.shop 4) Sample.annAddsUpperCase).2.carts 100).map
      (fun c => c.items.map (fun x => (x.book, x.quantity))) =
      some [(1, 2), (2, 3), (1, 1)] ∧
    (addToCart (Sample.shop 4) Sample.annAddsText).1.isSuccess = true ∧
    (Cart.findOne (addToCart (Sample.shop 4) Sample.annAddsText).2.carts 100).map
      (fun c => c.items.map (fun x => (x.book, x.quantity))) = some [(1, 21), (2, 3)] := by
  decide

/-- C16: with a request that passes the route checks, `addToCart` for a book that is not
stored answers 404 "Book not found" and keeps the store; and when `addToCart` succeeds
and the user's cart (or no cart yet) has no line for the book, the cart stored afterwards
holds the lines it had before, unchanged and in order, followed by one new line with the
book id, the requested quantity and the current catalog price of the book. -/
theorem addToCart_new_line (s : State) (req : AddToCartRequest) :
    (req.valid = true → ∀ bookId, req.bookId.cast = some bookId →
      Book.findById s.books bookId = none →
      addToCart s req = (Response.failure 404 "Book not found", s)) ∧
    (∀ (r : Response) (s' : State) (bookId : ObjectId),
      addToCart s req = (r, s') → r.isSuccess = true →
      req.bookId.cast = some bookId →
      (∀ cart, Cart.findOne s.carts req.user.id = some cart →
        ∀ item ∈ cart.items, item.book ≠ bookId) →
      ∃ (book : Book) (line : CartItem) (cart' : Cart),
        Book.findById s.books bookId = some book ∧
        Cart.findOne s'.carts req.user.id = some cart' ∧
        cart'.items =
          ((Cart.findOne s.carts req.user.id).map (fun c => c.items)).getD [] ++ [line] ∧
        line.book = bookId ∧ some line.quantity = req.quantity.toNumber ∧
        line.price = book.price) := by
  constructor
  · intro hv bookId hcast hbook
    have hv2 : ¬ (req.valid = false) := by simp [hv]
    simp only [addToCart, if_neg hv2, hcast, hbook]
  · intro r s' bookId h hok hcast hnew
    obtain ⟨-, bookId', book, n, hcast', hbook, hn, -, -, hcase⟩ :=
      addToCart_success s s' req r h hok
    rw [hcast] at hcast'
    cases hcast'
    have hfind := addToCart.findOrCreate_spec s req.user.id
    have huser := addToCart.findOrCreate_user s req.user.id
    have hold : (addToCart.findOrCreate s req.user.id).1.items =
        ((Cart.findOne s.carts req.user.id).map (fun c => c.items)).getD [] := by
      cases hc : Cart.findOne s.carts req.user.id with
      | some cart => simp [addToCart.findOrCreate, hc]
      | none => simp [addToCart.findOrCreate, hc, Cart.create]
    have hnone : (addToCart.findOrCreate s req.user.id).1.items.findIdx?
        (fun item => req.bookId.isStringOf item.book) = none := by
      rw [List.findIdx?_eq_none_iff]
      intro x hx
      cases hc : Cart.findOne s.carts req.user.id with
      | some cart =>
        rw [addToCart.findOrCreate_found s req.user.id cart hc] at hx
        have hne := hnew cart hc x hx
        cases hs : req.bookId.isStringOf x.book with
        | false => rfl
        | true =>
          have := RawId.cast_of_isStringOf hs
          rw [hcast] at this
          exact absurd (Option.some.inj this).symm hne
      | none =>
        simp [addToCart.findOrCreate, hc, Cart.create] at hx
    rcases hcase with ⟨i, -, -, hi, -⟩ | ⟨-, hsave⟩
    · rw [hnone] at hi
      cases hi
    · obtain ⟨-, -, -, hfound⟩ := saveCartAndRespond_saved _ s' _
        (addToCart.findOrCreate s req.user.id).1 r hsave hok
        (by simpa [huser] using hfind) rfl
      simp only [huser] at hfound
      refine ⟨book,
        { _id := (addToCart.findOrCreate s req.user.id).2.nextId, book := bookId,
          quantity := n, price := book.price },
        _, hbook, hfound, ?_, rfl, hn.symm, rfl⟩
      simp only [hold]

/-- C16 at `Sample.shop 4`: book 9 is not stored; the second customer adds book 2, which his
cart does not hold, and gets a second line at the catalog price 7; the quantity may be sent
as the string "1". -/
theorem addToCart_new_line_witness :
    addToCart (Sample.shop 4)
        { user := Sample.bob, bookId := Sample.lower 9, quantity := Quantity.number 1 } =
      (Response.failure 404 "Book not found", Sample.shop 4) ∧
    ∃ (book : Book) (line : CartItem) (cart' : Cart),
      Book.findById (Sample.shop 4).books 2 = some book ∧
      Cart.findOne (addToCart (Sample.shop 4) Sample.bobAddsEmma).2.carts 101 = some cart' ∧
      cart'.items =
        ((Cart.findOne (Sample.shop 4).carts 101).map (fun c => c.items)).getD [] ++ [line] ∧
      line.book = 2 ∧ some line.quantity = some 1 ∧ line.price = book.price :=
  ⟨(addToCart_new_line (Sample.shop 4)
      { user := Sample.bob, bookId := Sample.lower 9, quantity := Quantity.number 1 }).1
      (by decide) 9 rfl (by decide),
    (addToCart_new_line (Sample.shop 4) Sample.bobAddsEmma).2
      (addToCart (Sample.shop 4) Sample.bobAddsEmma).1
      (addToCart (Sample.shop 4) Sample.bobAddsEmma).2 2 rfl (by decide) rfl (by decide)⟩

theorem Cart.validate_modify_quantity (cart : Cart) (i : Nat) (q : Int) (hq : 1 ≤ q)
    (hv : Cart.validate cart = true) :
    Cart.validate { cart with
      items := cart.items.modify (fun item => { item with quantity := q }) i } = true := by
  simp only [Cart.validate, List.all_eq_true] at hv ⊢
  intro x hx
  rcases mem_modify _ _ _ _ hx with hx | ⟨y, hy, hxy⟩
  · exact hv x hx
  · have := hv y hy
    subst hxy
    simp only [Bool.and_eq_true, decide_eq_true_eq] at this ⊢
    exact ⟨hq, this.2⟩

theorem Cart.validate_eraseIdx (cart : Cart) (i : Nat) (hv : Cart.validate cart = true) :
    Cart.validate { cart with items := cart.items.eraseIdx i } = true := by
  simp only [Cart.validate, List.all_eq_true] at hv ⊢
  intro x hx
  exact hv x (List.mem_of_mem_eraseIdx hx)

/-- C18, as stated, fails. In `Sample.danglingShop` the cart of the first customer holds
line 15 with 1 copy of book 9, which an admin deleted. `updateCartItem` for line 15 with
quantity 2 finds the line, and no stock is exceeded; it does not set the quantity but
answers 404 "Book not found" and leaves the cart as it was. -/
theorem updateCartItem_deleted_book :
    (Cart.findOne Sample.danglingShop.carts 100).map
      (fun c => c.items.map (fun x => (x._id, x.book, x.quantity))) =
      some [(15, 9, 1), (11, 1, 2), (12, 2, 3)] ∧
    Book.findById Sample.danglingShop.books 9 = none ∧
    updateCartItem Sample.danglingShop { user := Sample.ann, itemId := 15, quantity := 2 } =
      (Response.failure 404 "Book not found", Sample.danglingShop) := by
  decide

/-- C18 (amended): with a quantity that passes the route check, `updateCartItem` answers 404
and keeps the store when the user has no cart ("Cart not found"), the cart has no line
with the given id ("Cart item not found"), or the book of that line is no longer stored
("Book not found"); answers 400 "Book is not available in the requested quantity.
Available stock: <stock>" with the current stock of the line's book and keeps the store
when the new quantity exceeds that stock; and otherwise (enough stock, the cart passing
schema validation) answers 200 and stores the cart with the same number of lines, that
line's quantity set to the new quantity with its other fields kept, and every other line
unchanged. -/
theorem updateCartItem_outcome (s : State) (req : UpdateCartItemRequest)
    (hq : 1 ≤ req.quantity) :
    (Cart.findOne s.carts req.user.id = none →
      updateCartItem s req = (Response.failure 404 "Cart not found", s)) ∧
    (∀ cart, Cart.findOne s.carts req.user.id = some cart →
      (∀ item ∈ cart.items, item._id ≠ req.itemId) →
      updateCartItem s req = (Response.failure 404 "Cart item not found", s)) ∧
    (∀ (cart : Cart) (i : Nat) (item : CartItem),
      Cart.findOne s.carts req.user.id = some cart →
      cart.items[i]? = some item → item._id = req.itemId →
      (∀ j, j < i → ∀ x, cart.items[j]? = some x → x._id ≠ req.itemId) →
      Book.findById s.books item.book = none →
      updateCartItem s req = (Response.failure 404 "Book not found", s)) ∧
    (∀ (cart : Cart) (i : Nat) (item : CartItem) (book : Book),
      Cart.findOne s.carts req.user.id = some cart →
      cart.items[i]? = some item → item._id = req.itemId →
      (∀ j, j < i → ∀ x, cart.items[j]? = some x → x._id ≠ req.itemId) →
      Book.findById s.books item.book = some book →
      (book.stock < req.quantity →
        updateCartItem s req =
          (Response.failure 400
            ("Book is not available in the requested quantity. Available stock: " ++
              toString book.stock), s)) ∧
      (req.quantity ≤ book.stock → Cart.validate cart = true →
        ∃ cart', updateCartItem s req =
            (Response.success 200 (Data.cart cart'),
              { s with carts := Cart.replace s.carts cart' }) ∧
          Cart.findOne (Cart.replace s.carts cart') req.user.id = some cart' ∧
          cart'.items.length = cart.items.length ∧
          cart'.items[i]? = some { item with quantity := req.quantity } ∧
          ∀ j, j ≠ i → cart'.items[j]? = cart.items[j]?)) := by
  have hq2 : ¬ (req.quantity < 1) := not_lt.mpr hq
  refine ⟨?_, ?_, ?_, ?_⟩
  · intro hnone
    simp only [updateCartItem, if_neg hq2, hnone]
  · intro cart hcart habsent
    have hidx : cart.items.findIdx? (fun item => item._id == req.itemId) = none := by
      rw [List.findIdx?_eq_none_iff]
      intro x hx
      simpa using habsent x hx
    simp only [updateCartItem, if_neg hq2, hcart, hidx]
  · intro cart i item hcart hitem hid hfirst hbook
    have hidx : cart.items.findIdx? (fun item => item._id == req.itemId) = some i :=
      findIdx?_of_first _ _ i item hitem (by simpa using hid)
        (fun j hj x hx => by simpa using hfirst j hj x hx)
    have hget : (cart.items.get? i).bind (fun item => Book.findById s.books item.book) =
        none := by
      rw [List.get?_eq_getElem?, hitem]
      exact hbook
    simp only [updateCartItem, if_neg hq2, hcart, hidx, hget]
  · intro cart i item book hcart hitem hid hfirst hbook
    have hidx : cart.items.findIdx? (fun item => item._id == req.itemId) = some i :=
      findIdx?_of_first _ _ i item hitem (by simpa using hid)
        (fun j hj x hx => by simpa using hfirst j hj x hx)
    have hget : (cart.items.get? i).bind (fun item => Book.findById s.books item.book) =
        some book := by
      rw [List.get?_eq_getElem?, hitem]
      exact hbook
    constructor
    · intro hlt
      simp only [updateCartItem, if_neg hq2, hcart, hidx, hget, if_pos hlt, cartStockMessage]
    · intro hle hvalid
      have hnlt : ¬ (book.stock < req.quantity) := not_lt.mpr hle
      have huser := (Cart.findOne_mem hcart).2
      have hv := Cart.validate_modify_quantity cart i req.quantity hq hvalid
      have hrun : updateCartItem s req = saveCartAndRespond s
          { cart with
            items := cart.items.modify (fun item => { item with quantity := req.quantity }) i } := by
        simp only [updateCartItem, if_neg hq2, hcart, hidx, hget, if_neg hnlt]
      rw [hrun, saveCartAndRespond_valid s _ hv]
      refine ⟨_, rfl, ?_, by simp, ?_, ?_⟩
      · have := Cart.findOne_replace s.carts cart
          { cart with
            items := cart.items.modify (fun item => { item with quantity := req.quantity }) i,
            totalAmount := Cart.computeTotal
              (cart.items.modify (fun item => { item with quantity := req.quantity }) i) }
          (by simpa [huser] using hcart) rfl
        simpa [huser] using this
      · simp [List.getElem?_modify_eq, hitem]
      · intro j hj
        simp [List.getElem?_modify_ne _ _ (Ne.symm hj)]

/-- C18 (amended) at `Sample.shop 4`: no line 99; 5 copies of book 2 exceed its stock 4; 4
copies are accepted and only the second line changes. -/
theorem updateCartItem_outcome_witness :
    updateCartItem (Sample.shop 4) { user := Sample.ann, itemId := 99, quantity := 1 } =
      (Response.failure 404 "Cart item not found", Sample.shop 4) ∧
    updateCartItem (Sample.shop 4) { user := Sample.ann, itemId := 12, quantity := 5 } =
      (Response.failure 400
        "Book is not available in the requested quantity. Available stock: 4",
        Sample.shop 4) ∧
    ∃ cart', updateCartItem (Sample.shop 4)
          { user := Sample.ann, itemId := 12, quantity := 4 } =
        (Response.success 200 (Data.cart cart'),
          { Sample.shop 4 with carts := Cart.replace (Sample.shop 4).carts cart' }) ∧
      Cart.findOne (Cart.replace (Sample.shop 4).carts cart') 100 = some cart' ∧
      cart'.items.length = Sample.annCart.items.length ∧
      cart'.items[1]? =
        some { _id := 12, book := 2, quantity := 4, price := Sample.usd 7 } ∧
      ∀ j, j ≠ 1 → cart'.items[j]? = Sample.annCart.items[j]? :=
  ⟨(updateCartItem_outcome (Sample.shop 4)
      { user := Sample.ann, itemId := 99, quantity := 1 } (by decide)).2.1
      Sample.annCart (by decide) (by decide),
    ((updateCartItem_outcome (Sample.shop 4)
      { user := Sample.ann, itemId := 12, quantity := 5 } (by decide)).2.2.2
      Sample.annCart 1 { _id := 12, book := 2, quantity := 3, price := Sample.usd 7 }
      { _id := 2, title := "Emma", price := Sample.usd 7, stock := 4 }
      (by decide) (by decide) (by decide) (by decide) (by decide)).1 (by decide),
    ((updateCartItem_outcome (Sample.shop 4)
      { user := Sample.ann, itemId := 12, quantity := 4 } (by decide)).2.2.2
      Sample.annCart 1 { _id := 12, book := 2, quantity := 3, price := Sample.usd 7 }
      { _id := 2, title := "Emma", price := Sample.usd 7, stock := 4 }
      (by decide) (by decide) (by decide) (by decide) (by decide)).2 (by decide) (by decide)⟩

/-- C19, as stated, fails: `clearCart` for a user without a cart and `removeCartItem` with a
line id that the cart does not hold both answer 404. -/
theorem cart_removal_not_unconditional :
    clearCart { Sample.shop 4 with carts := [] } Sample.ann =
      (Response.failure 404 "Cart not found", { Sample.shop 4 with carts := [] }) ∧
    removeCartItem { Sample.shop 4 with carts := [] } { user := Sample.ann, itemId := 11 } =
      (Response.failure 404 "Cart not found", { Sample.shop 4 with carts := [] }) ∧
    removeCartItem (Sample.shop 4) { user := Sample.ann, itemId := 99 } =
      (Response.failure 404 "Cart item not found", Sample.shop 4) := by
  decide

/-- C19 (amended): `removeCartItem` answers 404 and keeps the store when the user has no cart
or the cart has no line with the given id, and otherwise (the cart passing schema
validation) answers 200 and stores the cart without that line and with the total
recomputed; `clearCart` answers 404 and keeps the store when the user has no cart, and
otherwise answers 200 and stores the cart with zero lines and total 0. -/
theorem cart_removal_outcome (s : State) :
    (∀ req : RemoveCartItemRequest, Cart.findOne s.carts req.user.id = none →
      removeCartItem s req = (Response.failure 404 "Cart not found", s)) ∧
    (∀ (req : RemoveCartItemRequest) (cart : Cart),
      Cart.findOne s.carts req.user.id = some cart →
      (∀ item ∈ cart.items, item._id ≠ req.itemId) →
      removeCartItem s req = (Response.failure 404 "Cart item not found", s)) ∧
    (∀ (req : RemoveCartItemRequest) (cart : Cart) (i : Nat) (item : CartItem),
      Cart.findOne s.carts req.user.id = some cart →
      cart.items[i]? = some item → item._id = req.itemId →
      (∀ j, j < i → ∀ x, cart.items[j]? = some x → x._id ≠ req.itemId) →
      Cart.validate cart = true →
      ∃ cart', removeCartItem s req =
          (Response.success 200 (Data.cart cart'),
            { s with carts := Cart.replace s.carts cart' }) ∧
        Cart.findOne (Cart.replace s.carts cart') req.user.id = some cart' ∧
        cart'.items = cart.items.eraseIdx i ∧
        cart'.totalAmount = Cart.linesTotal cart'.items) ∧
    (∀ user : User, Cart.findOne s.carts user.id = none →
      clearCart s user = (Response.failure 404 "Cart not found", s)) ∧
    (∀ (user : User) (cart : Cart), Cart.findOne s.carts user.id = some cart →
      ∃ cart', clearCart s user =
          (Response.success 200 (Data.cart cart'),
            { s with carts := Cart.replace s.carts cart' }) ∧
        Cart.findOne (Cart.replace s.carts cart') user.id = some cart' ∧
        cart'.items = [] ∧ cart'.totalAmount = 0) := by
  refine ⟨?_, ?_, ?_, ?_, ?_⟩
  · intro req hnone
    simp only [removeCartItem, hnone]
  · intro req cart hcart habsent
    have hidx : cart.items.findIdx? (fun item => item._id == req.itemId) = none := by
      rw [List.findIdx?_eq_none_iff]
      intro x hx
      simpa using habsent x hx
    simp only [removeCartItem, hcart, hidx]
  · intro req cart i item hcart hitem hid hfirst hvalid
    have hidx : cart.items.findIdx? (fun item => item._id == req.itemId) = some i :=
      findIdx?_of_first _ _ i item hitem (by simpa using hid)
        (fun j hj x hx => by simpa using hfirst j hj x hx)
    have huser := (Cart.findOne_mem hcart).2
    have hv := Cart.validate_eraseIdx cart i hvalid
    have hrun : removeCartItem s req =
        saveCartAndRespond s { cart with items := cart.items.eraseIdx i } := by
      simp only [removeCartItem, hcart, hidx]
    rw [hrun, saveCartAndRespond_valid s _ hv]
    refine ⟨_, rfl, ?_, rfl, ?_⟩
    · have := Cart.findOne_replace s.carts cart
        { cart with
          items := cart.items.eraseIdx i,
          totalAmount := Cart.computeTotal (cart.items.eraseIdx i) }
        (by simpa [huser] using hcart) rfl
      simpa [huser] using this
    · simp [Cart.computeTotal_eq_sum, Cart.linesTotal]
  · intro user hnone
    simp only [clearCart, hnone]
  · intro user cart hcart
    have huser := (Cart.findOne_mem hcart).2
    have hv : Cart.validate { cart with items := [] } = true := by
      simp [Cart.validate]
    have hrun : clearCart s user = saveCartAndRespond s { cart with items := [] } := by
      simp only [clearCart, hcart]
    rw [hrun, saveCartAndRespond_valid s _ hv]
    refine ⟨_, rfl, ?_, rfl, ?_⟩
    · have := Cart.findOne_replace s.carts cart
        { cart with items := [], totalAmount := Cart.computeTotal [] }
        (by simpa [huser] using hcart) rfl
      simpa [huser] using this
    · simp [Cart.computeTotal]

/-- C19 (amended) at `Sample.shop 4`: removing line 11 leaves the line of book 2 and total 21. -/
theorem cart_removal_outcome_witness :
    ∃ cart', removeCartItem (Sample.shop 4) { user := Sample.ann, itemId := 11 } =
        (Response.success 200 (Data.cart cart'),
          { Sample.shop 4 with carts := Cart.replace (Sample.shop 4).carts cart' }) ∧
      Cart.findOne (Cart.replace (Sample.shop 4).carts cart') 100 = some cart' ∧
      cart'.items = Sample.annCart.items.eraseIdx 0 ∧
      cart'.totalAmount = Cart.linesTotal cart'.items :=
  (cart_removal_outcome (Sample.shop 4)).2.2.1 { user := Sample.ann, itemId := 11 }
    Sample.annCart 0 { _id := 11, book := 1, quantity := 2, price := Sample.usd 10 }
    (by decide) (by decide) (by decide) (by decide) (by decide)

/-! # Effects of the handlers on books, carts and orders -/

theorem createOrder.bulkOps_eq (books : List Book) (items : List CartItem)
    (ops : List (ObjectId × Int))
    (h : createOrder.bulkOps (Cart.populate books items) = some ops) :
    ops = items.map (fun item => (item.book, -item.quantity)) := by
  induction items generalizing ops with
  | nil =>
    simp only [Cart.populate, List.map_nil, createOrder.bulkOps, Option.some.injEq] at h
    subst h
    rfl
  | cons x xs ih =>
    simp only [Cart.populate, List.map_cons] at h ih
    cases hb : Book.findById books x.book with
    | none => simp [hb, createOrder.bulkOps] at h
    | some b =>
      rw [hb] at h
      simp only [createOrder.bulkOps] at h
      cases ht : createOrder.bulkOps
          (List.map (fun item => (item, Book.findById books item.book)) xs) with
      | none => simp [ht] at h
      | some tail =>
        rw [ht] at h
        simp only [Option.map_some', Option.some.injEq] at h
        subst h
        simp [ih tail ht, Book.findById_book_id hb]

theorem Cart.mem_replace_cart {carts : List Cart} {n x : Cart}
    (h : x ∈ Cart.replace carts n) : x ∈ carts ∨ x = n := by
  induction carts with
  | nil => cases h
  | cons y ys ih =>
    simp only [Cart.replace] at h
    split at h
    · rcases List.mem_cons.mp h with rfl | h
      · exact Or.inr rfl
      · exact Or.inl (List.mem_cons_of_mem _ h)
    · rcases List.mem_cons.mp h with rfl | h
      · exact Or.inl (List.mem_cons_self _ _)
      · rcases ih h with h | h
        · exact Or.inl (List.mem_cons_of_mem _ h)
        · exact Or.inr h

/-- The store after the tail of a cart handler: only the cart collection can change, and a
cart found in it afterwards is an old cart or has the lines of the saved cart. -/
theorem saveCartAndRespond_frame (s : State) (c : Cart) :
    (saveCartAndRespond s c).2.books = s.books ∧
    (saveCartAndRespond s c).2.orders = s.orders ∧
    ∀ x ∈ (saveCartAndRespond s c).2.carts, x ∈ s.carts ∨ x.items = c.items := by
  cases hv : Cart.validate c with
  | false =>
    have hrun : saveCartAndRespond s c = (Response.thrown Thrown.validationError, s) := by
      simp only [saveCartAndRespond, Cart.save, hv, Bool.false_eq_true, if_false]
    rw [hrun]
    exact ⟨rfl, rfl, fun x hx => Or.inl hx⟩
  | true =>
    rw [saveCartAndRespond_valid s c hv]
    refine ⟨rfl, rfl, ?_⟩
    intro x hx
    rcases Cart.mem_replace_cart hx with h | h
    · exact Or.inl h
    · exact Or.inr (by rw [h])

theorem addToCart.findOrCreate_frame (s : State) (user : ObjectId) :
    (addToCart.findOrCreate s user).2.books = s.books ∧
    (addToCart.findOrCreate s user).2.orders = s.orders ∧
    ∀ x ∈ (addToCart.findOrCreate s user).2.carts, x ∈ s.carts ∨ x.items = [] := by
  unfold addToCart.findOrCreate
  cases hc : Cart.findOne s.carts user with
  | some cart => exact ⟨rfl, rfl, fun x hx => Or.inl hx⟩
  | none =>
    simp only [Cart.create]
    refine ⟨trivial, trivial, ?_⟩
    intro x hx
    rcases List.mem_append.mp hx with h | h
    · exact Or.inl h
    · simp only [List.mem_singleton] at h
      exact Or.inr (by rw [h])

/-- The store after `createOrder`: unchanged, or the effects of a successful placement with
an order that passed schema validation. -/
theorem createOrder_state (s s' : State) (req : CreateOrderRequest) (r : Response)
    (h : createOrder s req = (r, s')) :
    s' = s ∨
    ∃ (cart : Cart) (order : Order),
      Cart.findOne s.carts req.user.id = some cart ∧
      createOrder.checkStock (Cart.populate s.books cart.items) = none ∧
      Order.validate order = true ∧
      s' = { s with
             books := Book.bulkWrite s.books
               (cart.items.map (fun item => (item.book, -item.quantity))),
             carts := Cart.replace s.carts { cart with items := [], totalAmount := 0 },
             orders := s.orders ++ [order],
             nextId := s.nextId + 1 } := by
  unfold createOrder at h
  split at h
  · exact Or.inl (Prod.mk.inj h).2.symm
  · exact Or.inl (Prod.mk.inj h).2.symm
  · split at h
    · exact Or.inl (Prod.mk.inj h).2.symm
    · next cart hc =>
      split at h
      · exact Or.inl (Prod.mk.inj h).2.symm
      · simp only at h
        split at h
        · exact Or.inl (Prod.mk.inj h).2.symm
        · next hcheck =>
          split at h
          · next orderItems bulkOps hitems hops =>
            split at h
            · exact Or.inl (Prod.mk.inj h).2.symm
            · next order s1 hcreate =>
              obtain ⟨-, hvalid, hs1⟩ := Order.create_some hcreate
              subst hs1
              simp only [Cart.save, Cart.validate, List.all_nil, if_true,
                Cart.computeTotal, List.foldl_nil, Prod.mk.injEq] at h
              have hops2 := createOrder.bulkOps_eq _ _ _ hops
              subst hops2
              exact Or.inr ⟨cart, order, hc, hcheck, hvalid, h.2.symm⟩
          · exact Or.inl (Prod.mk.inj h).2.symm

theorem cart_distinct_of_frame (s : State) (carts : List Cart) (items : List CartItem)
    (hs : s.cartsDistinct) (hitems : (items.map (fun item => item.book)).Nodup)
    (hframe : ∀ x ∈ carts, x ∈ s.carts ∨ x.items = items) :
    ∀ c ∈ carts, (c.items.map (fun item => item.book)).Nodup := by
  intro c hc
  rcases hframe c hc with h | h
  · exact hs c h
  · rw [h]
    exact hitems

theorem clearCart_frame (s : State) (user : User) :
    (clearCart s user).2.books = s.books ∧ (clearCart s user).2.orders = s.orders ∧
    (s.cartsDistinct → (clearCart s user).2.cartsDistinct) := by
  unfold clearCart
  cases hc : Cart.findOne s.carts user.id with
  | none => exact ⟨rfl, rfl, fun h => h⟩
  | some cart =>
    obtain ⟨hb, ho, hcarts⟩ := saveCartAndRespond_frame s { cart with items := [] }
    exact ⟨hb, ho, fun hs => cart_distinct_of_frame s _ [] hs (by simp) hcarts⟩

theorem removeCartItem_frame (s : State) (req : RemoveCartItemRequest) :
    (removeCartItem s req).2.books = s.books ∧ (removeCartItem s req).2.orders = s.orders ∧
    (s.cartsDistinct → (removeCartItem s req).2.cartsDistinct) := by
  unfold removeCartItem
  split
  · exact ⟨rfl, rfl, fun h => h⟩
  · next cart hc =>
    split
    · exact ⟨rfl, rfl, fun h => h⟩
    · next i hi =>
      obtain ⟨hb, ho, hcarts⟩ :=
        saveCartAndRespond_frame s { cart with items := cart.items.eraseIdx i }
      refine ⟨hb, ho, fun hs => cart_distinct_of_frame s _ (cart.items.eraseIdx i) hs ?_ hcarts⟩
      exact List.Nodup.sublist ((List.eraseIdx_sublist cart.items i).map _)
        (hs cart (Cart.findOne_mem hc).1)

theorem updateCartItem_frame (s : State) (req : UpdateCartItemRequest) :
    (updateCartItem s req).2.books = s.books ∧ (updateCartItem s req).2.orders = s.orders ∧
    (s.cartsDistinct → (updateCartItem s req).2.cartsDistinct) := by
  unfold updateCartItem
  split
  · exact ⟨rfl, rfl, fun h => h⟩
  · split
    · exact ⟨rfl, rfl, fun h => h⟩
    · next cart hc =>
      split
      · exact ⟨rfl, rfl, fun h => h⟩
      · next i hi =>
        split
        · exact ⟨rfl, rfl, fun h => h⟩
        · split
          · exact ⟨rfl, rfl, fun h => h⟩
          · obtain ⟨hb, ho, hcarts⟩ := saveCartAndRespond_frame s
              { cart with
                items := cart.items.modify (fun item => { item with quantity := req.quantity }) i }
            refine ⟨hb, ho, fun hs => cart_distinct_of_frame s _ _ hs ?_ hcarts⟩
            have hm := map_modify_same (fun item : CartItem => item.book)
              (fun item => { item with quantity := req.quantity }) (fun _ => rfl) cart.items i
            show ((cart.items.modify (fun item => { item with quantity := req.quantity })
              i).map (fun item => item.book)).Nodup
            rw [hm]
            exact hs cart (Cart.findOne_mem hc).1

theorem addToCart_frame (s : State) (req : AddToCartRequest) :
    (addToCart s req).2.books = s.books ∧ (addToCart s req).2.orders = s.orders := by
  obtain ⟨hfb, hfo, -⟩ := addToCart.findOrCreate_frame s req.user.id
  unfold addToCart
  split
  · exact ⟨rfl, rfl⟩
  · split
    · exact ⟨rfl, rfl⟩
    · split
      · exact ⟨rfl, rfl⟩
      · split
        · exact ⟨rfl, rfl⟩
        · simp only
          split
          · split
            · exact ⟨hfb, hfo⟩
            · exact ⟨(saveCartAndRespond_frame _ _).1.trans hfb,
                (saveCartAndRespond_frame _ _).2.1.trans hfo⟩
          · split
            · exact ⟨hfb, hfo⟩
            · exact ⟨(saveCartAndRespond_frame _ _).1.trans hfb,
                (saveCartAndRespond_frame _ _).2.1.trans hfo⟩

theorem createOrder_run_state (s : State) (req : CreateOrderRequest) :
    (createOrder s req).2 = s ∨
    ∃ (cart : Cart) (order : Order),
      Cart.findOne s.carts req.user.id = some cart ∧
      createOrder.checkStock (Cart.populate s.books cart.items) = none ∧
      Order.validate order = true ∧
      (createOrder s req).2 = { s with
             books := Book.bulkWrite s.books
               (cart.items.map (fun item => (item.book, -item.quantity))),
             carts := Cart.replace s.carts { cart with items := [], totalAmount := 0 },
             orders := s.orders ++ [order],
             nextId := s.nextId + 1 } :=
  createOrder_state s (createOrder s req).2 req (createOrder s req).1 rfl

/-- C13 at a failing input. `Sample.freshShop 2` has one book with stock 2 and no cart, so
every stock is at least 0 and no cart holds two lines for a book. The first customer adds 2
copies of book 1, adds 2 copies of the same book named with upper-case hex digits, and
places an order: all three requests succeed, the cart holds two lines for book 1 before
the order, and the stock of book 1 ends at -2. -/
theorem stock_negative_after_duplicate_lines :
    ((Sample.freshShop 2).stockNonneg ∧ (Sample.freshShop 2).cartsDistinct ∧
      (Sample.freshShop 2).orderQuantitiesNonneg) ∧
    (addToCart (Sample.freshShop 2) Sample.annAddsTwo).1.isSuccess = true ∧
    (addToCart Sample.afterAnnAdds Sample.annAddsTwoUpper).1.isSuccess = true ∧
    (createOrder (addToCart Sample.afterAnnAdds Sample.annAddsTwoUpper).2
      Sample.annOrders).1.isSuccess = true ∧
    (runAll (Sample.freshShop 2) Sample.duplicateSession).books.map (fun b => b.stock) =
      [-2] ∧
    ¬ (runAll (Sample.freshShop 2) Sample.duplicateSession).stockNonneg := by
  refine ⟨⟨?_, ?_, ?_⟩, by decide, by decide, by decide, by decide, ?_⟩
  · unfold State.stockNonneg; decide
  · unfold State.cartsDistinct; decide
  · unfold State.orderQuantitiesNonneg; decide
  · unfold State.stockNonneg; decide

/-- C17 at a failing input. In `Sample.emptyCartShop` the first customer has an empty cart.
She adds 2 copies of book 1 and then 2 copies of the same book named with upper-case hex
digits: both requests succeed and her cart holds two lines for book 1. -/
theorem cart_lines_not_distinct :
    (Cart.findOne Sample.emptyCartShop.carts 100).map (fun c => c.items) = some [] ∧
    (addToCart Sample.emptyCartShop Sample.annAddsTwo).1.isSuccess = true ∧
    (addToCart (addToCart Sample.emptyCartShop Sample.annAddsTwo).2
      Sample.annAddsTwoUpper).1.isSuccess = true ∧
    (Cart.findOne (runAll Sample.emptyCartShop (Sample.duplicateSession.take 2)).carts
      100).map (fun c => c.items.map (fun x => (x.book, x.quantity))) =
      some [(1, 2), (1, 2)] ∧
    ¬ (runAll Sample.emptyCartShop (Sample.duplicateSession.take 2)).cartsDistinct := by
  refine ⟨by decide, by decide, by decide, by decide, ?_⟩
  unfold State.cartsDistinct; decide

/-! # Reviews -/

theorem Book.findById_setRating (books : List Book) (id k : ObjectId) (r : Rating) :
    Book.findById (Book.setRating books id r) k =
      (Book.findById books k).map (fun b => if k = id then { b with rating := r } else b) := by
  induction books with
  | nil => simp [Book.setRating, Book.findById]
  | cons b bs ih =>
    simp only [Book.findById] at ih
    by_cases hb : b._id = id
    · by_cases hk : b._id = k
      · have hki : k = id := hk ▸ hb
        simp [Book.setRating, Book.findById, List.find?_cons, hb, hk, hki]
      · have hne : ¬ (k = id) := fun e => hk (hb.trans e.symm)
        have hne2 : ¬ (id = k) := fun e => hne e.symm
        simp [Book.setRating, Book.findById, List.find?_cons, hb, hk, hne, hne2]
    · by_cases hk : b._id = k
      · have hne : ¬ (k = id) := fun e => hb (hk.trans e)
        subst hk
        simp [Book.setRating, Book.findById, List.find?_cons, hb, hne]
      · simp [Book.setRating, Book.findById, List.find?_cons, hb, hk, ih]

/-- What a successful `createReview` went through and the store it leaves. -/
theorem createReview_success (s s' : State) (req : CreateReviewRequest) (r : Response)
    (h : createReview s req = (r, s')) (hok : r.isSuccess = true) :
    ∃ (book : Book) (review : Review),
      Book.findById s.books req.bookId = some book ∧
      Review.findOne s.reviews req.user.id req.bookId = none ∧
      review.user = req.user.id ∧ review.book = req.bookId ∧
      r = Response.success 201 (Data.review review) ∧
      s' = { s with
             reviews := s.reviews ++ [review], nextId := s.nextId + 1,
             books := Review.calculateAverageRating (s.reviews ++ [review]) s.books
               req.bookId } := by
  unfold createReview at h
  split at h
  · simp only [Prod.mk.injEq] at h; rw [← h.1] at hok; simp [Response.isSuccess] at hok
  · split at h
    · simp only [Prod.mk.injEq] at h; rw [← h.1] at hok; simp [Response.isSuccess] at hok
    · next book hbook =>
      split at h
      · simp only [Prod.mk.injEq] at h; rw [← h.1] at hok; simp [Response.isSuccess] at hok
      · next hnone =>
        simp only at h
        split at h
        · simp only [Prod.mk.injEq] at h; rw [← h.1] at hok; simp [Response.isSuccess] at hok
        · next review s1 hcreate =>
          simp only [Prod.mk.injEq] at h
          obtain ⟨hr, hs⟩ := h
          subst hr hs
          unfold Review.create at hcreate
          simp only at hcreate
          split at hcreate
          · cases hcreate
          · split at hcreate
            · cases hcreate
            · simp only [Except.ok.injEq, Prod.mk.injEq] at hcreate
              obtain ⟨hrev, hs1⟩ := hcreate
              subst hrev hs1
              exact ⟨book, _, hbook, hnone, rfl, rfl, rfl, rfl⟩

theorem Review.replace_keys (reviews : List Review) (old new : Review)
    (hfind : Review.findById reviews new._id = some old)
    (hkey : (new.user, new.book) = (old.user, old.book)) :
    (Review.replace reviews new).map (fun r => (r.user, r.book)) =
      reviews.map (fun r => (r.user, r.book)) := by
  induction reviews with
  | nil => rfl
  | cons x xs ih =>
    by_cases hx : x._id = new._id
    · have : x = old := by
        simpa [Review.findById, List.find?_cons, hx] using hfind
      subst this
      simp [Review.replace, hx, hkey]
    · have hx2 : (x._id == new._id) = false := by simpa using hx
      simp only [Review.findById, List.find?_cons, hx2] at hfind ih
      simp [Review.replace, hx, ih hfind]

theorem Review.delete_sublist (reviews : List Review) (id : ObjectId) :
    List.Sublist (Review.delete reviews id) reviews := by
  induction reviews with
  | nil => exact List.Sublist.slnil
  | cons x xs ih =>
    simp only [Review.delete]
    split
    · exact List.sublist_cons_self x xs
    · exact ih.cons₂ x

theorem ReviewOperation.run_unique (s : State) (op : ReviewOperation)
    (hs : s.reviewsUnique) : (op.run s).2.reviewsUnique := by
  cases op with
  | create req =>
    cases hr : createReview s req with
    | mk r s' =>
      simp only [ReviewOperation.run, hr]
      cases hsucc : r.isSuccess with
      | true =>
        obtain ⟨book, review, -, hnone, hu, hb, -, hs'⟩ := createReview_success s s' req r hr hsucc
        subst hs'
        simp only [State.reviewsUnique, List.map_append, List.map_cons, List.map_nil]
        rw [List.nodup_append]
        refine ⟨hs, by simp, ?_⟩
        intro key h1 h2
        simp only [List.mem_singleton] at h2
        obtain ⟨x, hx, hkey⟩ := List.mem_map.mp h1
        have hkey2 : x.user = req.user.id ∧ x.book = req.bookId := by
          rw [h2, hu, hb] at hkey
          exact Prod.mk.inj hkey
        have := List.find?_eq_none.mp hnone x hx
        simp [hkey2.1, hkey2.2] at this
      | false =>
        have hsame : s' = s := by
          unfold createReview at hr
          split at hr
          · exact (Prod.mk.inj hr).2.symm
          · split at hr
            · exact (Prod.mk.inj hr).2.symm
            · split at hr
              · exact (Prod.mk.inj hr).2.symm
              · simp only at hr
                split at hr
                · exact (Prod.mk.inj hr).2.symm
                · simp only [Prod.mk.injEq] at hr
                  rw [← hr.1] at hsucc
                  simp [Response.isSuccess] at hsucc
        rw [hsame]
        exact hs
  | update req =>
    simp only [ReviewOperation.run]
    unfold updateReview
    split
    · exact hs
    · split
      · exact hs
      · next review hfind =>
        split
        · exact hs
        · simp only
          split
          · exact hs
          · simp only [State.reviewsUnique]
            rw [Review.replace_keys s.reviews review (updateReview.assign review req)
              (by
                have : review._id = req.id := by
                  have := List.find?_some hfind
                  simpa using this
                simpa [updateReview.assign, this] using hfind)
              rfl]
            exact hs
  | delete req =>
    simp only [ReviewOperation.run]
    unfold deleteReview
    split
    · exact hs
    · split
      · exact hs
      · exact List.Nodup.sublist ((Review.delete_sublist _ _).map _) hs

theorem runReviews_unique (ops : List ReviewOperation) (s : State) (hs : s.reviewsUnique) :
    (runReviews s ops).reviewsUnique := by
  induction ops generalizing s with
  | nil => exact hs
  | cons op ops ih =>
    have step : runReviews s (op :: ops) = runReviews (op.run s).2 ops := rfl
    rw [step]
    exact ih _ (ReviewOperation.run_unique s op hs)

/-- C20, as stated, fails: in `Sample.importedShop` book 1 carries `rating.count = 1200` and
has no stored review; the first `createReview` succeeds and leaves `rating.count = 1`, the
number of stored reviews, not 1201. -/
theorem review_count_not_incremented :
    (Book.findById Sample.importedShop.books 1).map (fun b => b.rating.count) = some 1200 ∧
    Review.ofBook Sample.importedShop.reviews 1 = [] ∧
    (createReview Sample.importedShop Sample.annReviews).1.isSuccess = true ∧
    (Book.findById (createReview Sample.importedShop Sample.annReviews).2.books 1).map
      (fun b => b.rating.count) = some 1 := by
  decide

/-- C20 (amended): when `createReview` succeeds, it appends one review of the user for the
book, and the book's `rating.count` becomes the number of reviews stored for the book, one
more than were stored before (so it rises by exactly 1 when it equalled that number
before the call); a second `createReview` of the same user for the same book answers 400
"You have already reviewed this book" and leaves the store, hence the reviews and the
rating, unchanged; and when no `(user, book)` pair had two reviews before, none has after
the call nor after any further sequence of review requests. -/
theorem createReview_twice (s s1 : State) (first second : CreateReviewRequest) (r : Response)
    (h : createReview s first = (r, s1)) (hok : r.isSuccess = true)
    (huser : second.user.id = first.user.id) (hbook : second.bookId = first.bookId)
    (hvalid : second.valid = true) :
    (∃ review, s1.reviews = s.reviews ++ [review] ∧ review.user = first.user.id ∧
      review.book = first.bookId) ∧
    (∃ before after, Book.findById s.books first.bookId = some before ∧
      Book.findById s1.books first.bookId = some after ∧
      after.rating.count = ((Review.ofBook s.reviews first.bookId).length : Int) + 1 ∧
      (before.rating.count = ((Review.ofBook s.reviews first.bookId).length : Int) →
        after.rating.count = before.rating.count + 1)) ∧
    createReview s1 second =
      (Response.failure 400 "You have already reviewed this book", s1) ∧
    (s.reviewsUnique →
      s1.reviewsUnique ∧ ∀ ops : List ReviewOperation, (runReviews s1 ops).reviewsUnique) := by
  obtain ⟨book, review, hfound, hnone, hu, hb, -, hs1⟩ := createReview_success s s1 first r h hok
  have hofBook : Review.ofBook (s.reviews ++ [review]) first.bookId =
      Review.ofBook s.reviews first.bookId ++ [review] := by
    simp [Review.ofBook, List.filter_append, List.filter_cons, hb]
  have hafter : Book.findById s1.books first.bookId =
      some { book with rating := Review.stats (Review.ofBook s.reviews first.bookId ++ [review]) } := by
    rw [hs1]
    simp only [Review.calculateAverageRating]
    rw [Book.findById_setRating, hfound, hofBook]
    simp
  have hcount : (Review.stats (Review.ofBook s.reviews first.bookId ++ [review])).count =
      ((Review.ofBook s.reviews first.bookId).length : Int) + 1 := by
    simp [Review.stats]
  have hexists : Review.findOne s1.reviews second.user.id second.bookId = some
      (((s.reviews ++ [review]).find?
        (fun x => x.user == first.user.id && x.book == first.bookId)).getD review) := by
    rw [hs1, huser, hbook]
    simp only [Review.findOne] at hnone ⊢
    rw [List.find?_append, hnone]
    simp [List.find?_cons, hu, hb]
  refine ⟨⟨review, by rw [hs1], hu, hb⟩, ⟨book, _, hfound, hafter, hcount, ?_⟩, ?_, ?_⟩
  · intro hsync
    rw [hsync]
    exact hcount
  · have hnv : ¬ (second.valid = false) := by simp [hvalid]
    unfold createReview
    rw [if_neg hnv, hbook, hafter]
    simp only
    rw [← hbook, hexists]
  · intro hunique
    have h1 : s1.reviewsUnique := by
      have := ReviewOperation.run_unique s (ReviewOperation.create first) hunique
      simpa [ReviewOperation.run, h] using this
    exact ⟨h1, fun ops => runReviews_unique ops s1 h1⟩

/-- C20 (amended) at a store with one unreviewed book whose count is 0: the count becomes 1
and the second review of the same customer is refused. -/
theorem createReview_twice_witness :
    (∃ before after,
      Book.findById (Sample.shop 4).books 1 = some before ∧
      Book.findById (createReview (Sample.shop 4) Sample.annReviews).2.books 1 = some after ∧
      after.rating.count = ((Review.ofBook (Sample.shop 4).reviews 1).length : Int) + 1 ∧
      (before.rating.count = ((Review.ofBook (Sample.shop 4).reviews 1).length : Int) →
        after.rating.count = before.rating.count + 1)) ∧
    createReview (createReview (Sample.shop 4) Sample.annReviews).2 Sample.annReviewsAgain =
      (Response.failure 400 "You have already reviewed this book",
        (createReview (Sample.shop 4) Sample.annReviews).2) ∧
    (Book.findById (createReview (Sample.shop 4) Sample.annReviews).2.books 1).map
      (fun b => b.rating.count) = some 1 :=
  ⟨(createReview_twice (Sample.shop 4) (createReview (Sample.shop 4) Sample.annReviews).2
      Sample.annReviews Sample.annReviewsAgain
      (createReview (Sample.shop 4) Sample.annReviews).1 rfl (by decide) (by decide)
      (by decide) (by decide)).2.1,
    (createReview_twice (Sample.shop 4) (createReview (Sample.shop 4) Sample.annReviews).2
      Sample.annReviews Sample.annReviewsAgain
      (createReview (Sample.shop 4) Sample.annReviews).1 rfl (by decide) (by decide)
      (by decide) (by decide)).2.2.1,
    by decide⟩

/-! # Rating recomputation -/

/-- The rating found under a book id after `calculateAverageRating` for that id. -/
theorem Review.calculateAverageRating_found (reviews : List Review) (books : List Book)
    (bookId : ObjectId) (b : Book)
    (h : Book.findById (Review.calculateAverageRating reviews books bookId) bookId = some b) :
    b.rating = Review.stats (Review.ofBook reviews bookId) := by
  rw [Review.calculateAverageRating, Book.findById_setRating] at h
  cases hb : Book.findById books bookId with
  | none => simp [hb] at h
  | some b0 =>
    simp only [hb, Option.map_some', if_true, Option.some.injEq] at h
    rw [← h]

theorem Review.stats_spec (matched : List Review) :
    (Review.stats matched).count = (matched.length : Int) ∧
    (Review.stats matched).average =
      if matched.length = 0 then 0
      else (((matched.map (fun r => r.rating)).sum : Int) : Rat) / (matched.length : Rat) := by
  unfold Review.stats
  by_cases h : matched.length > 0
  · have h0 : ¬ (matched.length = 0) := by omega
    simp only [if_pos h, if_neg h0, and_self]
  · have h0 : matched.length = 0 := by omega
    simp [h0]

/-- The store after a successful `updateReview`. -/
theorem updateReview_success (s s' : State) (req : UpdateReviewRequest) (r : Response)
    (h : updateReview s req = (r, s')) (hok : r.isSuccess = true) :
    ∃ review, Review.findById s.reviews req.id = some review ∧
      (review.user = req.user.id ∨ req.user.role = "admin") ∧
      s' = { s with
             reviews := Review.replace s.reviews (updateReview.assign review req),
             books := Review.calculateAverageRating
               (Review.replace s.reviews (updateReview.assign review req)) s.books
               review.book } := by
  unfold updateReview at h
  split at h
  · simp only [Prod.mk.injEq] at h; rw [← h.1] at hok; simp [Response.isSuccess] at hok
  · split at h
    · simp only [Prod.mk.injEq] at h; rw [← h.1] at hok; simp [Response.isSuccess] at hok
    · next review hfind =>
      split at h
      · simp only [Prod.mk.injEq] at h; rw [← h.1] at hok; simp [Response.isSuccess] at hok
      · next hguard =>
        simp only at h
        split at h
        · simp only [Prod.mk.injEq] at h; rw [← h.1] at hok; simp [Response.isSuccess] at hok
        · simp only [Prod.mk.injEq] at h
          refine ⟨review, hfind, ?_, h.2.symm⟩
          by_contra hno
          exact hguard ⟨fun e => hno (Or.inl e), fun e => hno (Or.inr e)⟩

/-- The store after a successful `deleteReview`. -/
theorem deleteReview_success (s s' : State) (req : DeleteReviewRequest) (r : Response)
    (h : deleteReview s req = (r, s')) (hok : r.isSuccess = true) :
    ∃ review, Review.findById s.reviews req.id = some review ∧
      (review.user = req.user.id ∨ req.user.role = "admin") ∧
      s' = { s with
             reviews := Review.delete s.reviews review._id,
             books := Review.calculateAverageRating
               (Review.delete s.reviews review._id) s.books review.book } := by
  unfold deleteReview at h
  split at h
  · simp only [Prod.mk.injEq] at h; rw [← h.1] at hok; simp [Response.isSuccess] at hok
  · next review hfind =>
    split at h
    · simp only [Prod.mk.injEq] at h; rw [← h.1] at hok; simp [Response.isSuccess] at hok
    · next hguard =>
      simp only [Prod.mk.injEq] at h
      refine ⟨review, hfind, ?_, h.2.symm⟩
      by_contra hno
      exact hguard ⟨fun e => hno (Or.inl e), fun e => hno (Or.inr e)⟩

/-- C21: after a successful `createReview`, `updateReview` or `deleteReview`, the book whose
rating the request recomputes (for `createReview` it is stored) has, when looked up,
`rating.count` equal to the number of reviews now stored for it and `rating.average` equal
to the sum of their ratings divided by that number, 0 when there is none. -/
theorem rating_after_review_request (s s' : State) (op : ReviewOperation) (r : Response)
    (h : op.run s = (r, s')) (hok : r.isSuccess = true) :
    ∃ bookId, op.book s = some bookId ∧
      (∀ req, op = ReviewOperation.create req → (Book.findById s'.books bookId).isSome = true) ∧
      ∀ b, Book.findById s'.books bookId = some b →
        b.rating.count = ((Review.ofBook s'.reviews bookId).length : Int) ∧
        b.rating.average =
          if (Review.ofBook s'.reviews bookId).length = 0 then 0
          else ((((Review.ofBook s'.reviews bookId).map (fun x => x.rating)).sum : Int) : Rat) /
            ((Review.ofBook s'.reviews bookId).length : Rat) := by
  cases op with
  | create req =>
    obtain ⟨book, review, hbook, -, -, -, -, hs⟩ := createReview_success s s' req r h hok
    subst hs
    refine ⟨req.bookId, rfl, ?_, ?_⟩
    · intro _ _
      simp only [Review.calculateAverageRating]
      rw [Book.findById_setRating, hbook]
      rfl
    · intro b hb
      have := Review.calculateAverageRating_found _ _ _ b hb
      rw [this]
      exact Review.stats_spec _
  | update req =>
    obtain ⟨review, hfind, -, hs⟩ := updateReview_success s s' req r h hok
    subst hs
    refine ⟨review.book, by simp [ReviewOperation.book, hfind], ?_, ?_⟩
    · intro _ hcontra
      cases hcontra
    · intro b hb
      have := Review.calculateAverageRating_found _ _ _ b hb
      rw [this]
      exact Review.stats_spec _
  | delete req =>
    obtain ⟨review, hfind, -, hs⟩ := deleteReview_success s s' req r h hok
    subst hs
    refine ⟨review.book, by simp [ReviewOperation.book, hfind], ?_, ?_⟩
    · intro _ hcontra
      cases hcontra
    · intro b hb
      have := Review.calculateAverageRating_found _ _ _ b hb
      rw [this]
      exact Review.stats_spec _

/-- C21 at `Sample.reviewedShop`: the second customer changes his 3 stars for book 1 into 2;
the book then has count 2, the number of its reviews, and their mean as average. -/
theorem rating_after_review_request_witness :
    (∃ bookId, (ReviewOperation.update Sample.bobRerates).book Sample.reviewedShop =
        some bookId ∧
      (∀ req, ReviewOperation.update Sample.bobRerates = ReviewOperation.create req →
        (Book.findById (updateReview Sample.reviewedShop Sample.bobRerates).2.books
          bookId).isSome = true) ∧
      ∀ b, Book.findById (updateReview Sample.reviewedShop Sample.bobRerates).2.books bookId =
          some b →
        b.rating.count = ((Review.ofBook
          (updateReview Sample.reviewedShop Sample.bobRerates).2.reviews bookId).length : Int) ∧
        b.rating.average =
          if (Review.ofBook (updateReview Sample.reviewedShop Sample.bobRerates).2.reviews
            bookId).length = 0 then 0
          else ((((Review.ofBook (updateReview Sample.reviewedShop Sample.bobRerates).2.reviews
              bookId).map (fun x => x.rating)).sum : Int) : Rat) /
            ((Review.ofBook (updateReview Sample.reviewedShop Sample.bobRerates).2.reviews
              bookId).length : Rat)) ∧
    (Review.ofBook (updateReview Sample.reviewedShop Sample.bobRerates).2.reviews 1).map
      (fun x => x.rating) = [5, 2] ∧
    (Book.findById (updateReview Sample.reviewedShop Sample.bobRerates).2.books 1).map
      (fun b => b.rating.count) = some 2 :=
  ⟨rating_after_review_request Sample.reviewedShop
      (updateReview Sample.reviewedShop Sample.bobRerates).2
      (ReviewOperation.update Sample.bobRerates)
      (updateReview Sample.reviewedShop Sample.bobRerates).1 rfl (by decide),
    by decide, by decide⟩

theorem Review.findById_review_id {reviews : List Review} {id : ObjectId} {r : Review}
    (h : Review.findById reviews id = some r) : r._id = id := by
  have := List.find?_some h
  simpa using this

theorem Review.ofBook_delete_only (reviews : List Review) (review : Review)
    (hfind : Review.findById reviews review._id = some review)
    (honly : Review.ofBook reviews review.book = [review]) :
    Review.ofBook (Review.delete reviews review._id) review.book = [] := by
  induction reviews with
  | nil => rfl
  | cons x xs ih =>
    by_cases hx : x._id = review._id
    · have hxr : x = review := by
        simpa [Review.findById, List.find?_cons, hx] using hfind
      subst hxr
      simp only [Review.delete, if_true]
      simpa [Review.ofBook, List.filter_cons] using honly
    · have hx2 : (x._id == review._id) = false := by simpa using hx
      have hxb : ¬ (x.book = review.book) := by
        intro hb
        have : x = review := by
          simp only [Review.ofBook, List.filter_cons, hb, beq_self_eq_true, if_true] at honly
          exact (List.cons.inj honly).1
        exact hx (by rw [this])
      have hxb2 : (x.book == review.book) = false := by simpa using hxb
      simp only [Review.findById, List.find?_cons, hx2] at hfind
      simp only [Review.ofBook, List.filter_cons, hxb2] at honly
      simp only [Review.delete, if_neg hx, Review.ofBook, List.filter_cons, hxb2]
      exact ih hfind honly

/-- C22: when the owner or an admin deletes a review that is the only stored review of its
book, `deleteReview` succeeds, no review of the book is left, and the book is stored with
`rating.average = 0` and `rating.count = 0`, its other fields unchanged. -/
theorem deleteReview_only_review (s : State) (req : DeleteReviewRequest) (review : Review)
    (hfind : Review.findById s.reviews req.id = some review)
    (hauth : review.user = req.user.id ∨ req.user.role = "admin")
    (honly : Review.ofBook s.reviews review.book = [review]) :
    (deleteReview s req).1 = Response.success 200 Data.empty ∧
    Review.ofBook (deleteReview s req).2.reviews review.book = [] ∧
    Book.findById (deleteReview s req).2.books review.book =
      (Book.findById s.books review.book).map
        (fun b => { b with rating := { average := 0, count := 0 } }) := by
  have hguard : ¬ (review.user ≠ req.user.id ∧ req.user.role ≠ "admin") := by
    rintro ⟨h1, h2⟩
    rcases hauth with h | h
    · exact h1 h
    · exact h2 h
  have hid := Review.findById_review_id hfind
  have hempty := Review.ofBook_delete_only s.reviews review (by rw [hid]; exact hfind) honly
  have hrun : deleteReview s req =
      (Response.success 200 Data.empty,
        { s with
          reviews := Review.delete s.reviews review._id,
          books := Review.calculateAverageRating (Review.delete s.reviews review._id)
            s.books review.book }) := by
    simp only [deleteReview, hfind, if_neg hguard]
  rw [hrun]
  refine ⟨rfl, hempty, ?_⟩
  simp only [Review.calculateAverageRating, hempty]
  rw [Book.findById_setRating]
  simp [Review.stats]

/-- C22 at `Sample.reviewedShop`: book 2 has the single review 33; after its deletion the
book has count 0 and average 0. -/
theorem deleteReview_only_review_witness :
    (deleteReview Sample.reviewedShop Sample.bobDeletes).1 =
      Response.success 200 Data.empty ∧
    Review.ofBook (deleteReview Sample.reviewedShop Sample.bobDeletes).2.reviews 2 = [] ∧
    Book.findById (deleteReview Sample.reviewedShop Sample.bobDeletes).2.books 2 =
      (Book.findById Sample.reviewedShop.books 2).map
        (fun b => { b with rating := { average := 0, count := 0 } }) :=
  deleteReview_only_review Sample.reviewedShop Sample.bobDeletes
    Sample.bobEmmaReview (by decide) (Or.inl (by decide)) (by decide)

/-! # Verified purchase and review ownership -/

/-- The review built by a successful `createReview`. -/
theorem createReview_review (s s' : State) (req : CreateReviewRequest) (status : Nat)
    (review : Review)
    (h : createReview s req = (Response.success status (Data.review review), s')) :
    review ∈ s'.reviews ∧ review.user = req.user.id ∧ review.book = req.bookId ∧
    review.rating = req.rating ∧
    review.isVerifiedPurchase =
      decide ((createReview.userOrders s.orders req.user.id req.bookId).length > 0) := by
  unfold createReview at h
  split at h
  · simp at h
  · split at h
    · simp at h
    · split at h
      · simp at h
      · simp only at h
        split at h
        · simp at h
        · next created s1 hcreate =>
          simp only [Prod.mk.injEq, Response.success.injEq, Data.review.injEq] at h
          obtain ⟨⟨-, hrev⟩, hs⟩ := h
          subst hrev hs
          unfold Review.create at hcreate
          simp only at hcreate
          split at hcreate
          · cases hcreate
          · split at hcreate
            · cases hcreate
            · simp only [Except.ok.injEq, Prod.mk.injEq] at hcreate
              obtain ⟨hrev, hs1⟩ := hcreate
              subst hrev hs1
              exact ⟨by simp, rfl, rfl, rfl, rfl⟩

/-- C23: the review stored by a successful `createReview` has `isVerifiedPurchase = true`
exactly when, in the store the request found, some order of the reviewing user has
`isPaid = true` and a line for the reviewed book. -/
theorem createReview_verified_purchase (s : State) (req : CreateReviewRequest)
    (status : Nat) (review : Review)
    (h : (createReview s req).1 = Response.success status (Data.review review)) :
    review ∈ (createReview s req).2.reviews ∧
    (review.isVerifiedPurchase = true ↔
      ∃ o ∈ s.orders, o.user = req.user.id ∧ o.isPaid = true ∧
        ∃ item ∈ o.items, item.book = req.bookId) := by
  obtain ⟨hmem, -, -, -, hflag⟩ := createReview_review s (createReview s req).2 req status
    review (Prod.ext h rfl)
  refine ⟨hmem, ?_⟩
  rw [hflag]
  simp only [decide_eq_true_eq, createReview.userOrders, gt_iff_lt, List.length_pos]
  constructor
  · intro hne
    obtain ⟨o, ho⟩ := List.exists_mem_of_ne_nil _ hne
    simp only [List.mem_filter, Bool.and_eq_true, beq_iff_eq, List.any_eq_true] at ho
    obtain ⟨hmemo, ⟨hu, hp⟩, item, hitem, hb⟩ := ho
    exact ⟨o, hmemo, hu, hp, item, hitem, hb⟩
  · rintro ⟨o, hmemo, hu, hp, item, hitem, hb⟩
    apply List.ne_nil_of_mem (a := o)
    simp only [List.mem_filter, Bool.and_eq_true, beq_iff_eq, List.any_eq_true]
    exact ⟨hmemo, ⟨hu, hp⟩, item, hitem, hb⟩

/-- C23 at `Sample.unreviewedShop`: the first customer has a paid order with book 2 and
gets the flag; the second customer has no order and does not. -/
theorem createReview_verified_purchase_witness :
    (Sample.annEmmaReview ∈
        (createReview Sample.unreviewedShop Sample.annReviewsEmma).2.reviews ∧
      (Sample.annEmmaReview.isVerifiedPurchase = true ↔
        ∃ o ∈ Sample.unreviewedShop.orders, o.user = Sample.annReviewsEmma.user.id ∧
          o.isPaid = true ∧ ∃ item ∈ o.items, item.book = Sample.annReviewsEmma.bookId)) ∧
    Sample.annEmmaReview.isVerifiedPurchase = true ∧
    (createReview Sample.unreviewedShop Sample.bobReviewsEmma).2.reviews.map
      (fun r => r.isVerifiedPurchase) = [false] :=
  ⟨createReview_verified_purchase Sample.unreviewedShop Sample.annReviewsEmma 201
      Sample.annEmmaReview (by decide),
    rfl, by decide⟩

/-- C24: `updateReview` (on a request that passed the route checks) and `deleteReview`
succeed only when the review exists and the caller is its owner or has role `admin`; for
any other caller of an existing review they answer 403 and leave the whole store, hence the
review and the rating of its book, unchanged; for a missing review they answer 404 and
leave the store unchanged. -/
theorem review_change_authorisation (s : State) (ureq : UpdateReviewRequest)
    (dreq : DeleteReviewRequest) (hvalid : ureq.valid = true) :
    (((updateReview s ureq).1.isSuccess = true →
        ∃ review, Review.findById s.reviews ureq.id = some review ∧
          (review.user = ureq.user.id ∨ ureq.user.role = "admin")) ∧
      (∀ review, Review.findById s.reviews ureq.id = some review →
        review.user ≠ ureq.user.id → ureq.user.role ≠ "admin" →
        updateReview s ureq =
          (Response.failure 403 "Not authorized to update this review", s)) ∧
      (Review.findById s.reviews ureq.id = none →
        updateReview s ureq = (Response.failure 404 "Review not found", s))) ∧
    (((deleteReview s dreq).1.isSuccess = true →
        ∃ review, Review.findById s.reviews dreq.id = some review ∧
          (review.user = dreq.user.id ∨ dreq.user.role = "admin")) ∧
      (∀ review, Review.findById s.reviews dreq.id = some review →
        review.user ≠ dreq.user.id → dreq.user.role ≠ "admin" →
        deleteReview s dreq =
          (Response.failure 403 "Not authorized to delete this review", s)) ∧
      (Review.findById s.reviews dreq.id = none →
        deleteReview s dreq = (Response.failure 404 "Review not found", s))) := by
  have hv : ¬ (ureq.valid = false) := by simp [hvalid]
  refine ⟨⟨?_, ?_, ?_⟩, ?_, ?_, ?_⟩
  · intro hok
    obtain ⟨review, hfind, hauth, -⟩ :=
      updateReview_success s (updateReview s ureq).2 ureq (updateReview s ureq).1 rfl hok
    exact ⟨review, hfind, hauth⟩
  · intro review hfind h1 h2
    simp only [updateReview, if_neg hv, hfind, if_pos (And.intro h1 h2)]
  · intro hfind
    simp only [updateReview, if_neg hv, hfind]
  · intro hok
    obtain ⟨review, hfind, hauth, -⟩ :=
      deleteReview_success s (deleteReview s dreq).2 dreq (deleteReview s dreq).1 rfl hok
    exact ⟨review, hfind, hauth⟩
  · intro review hfind h1 h2
    simp only [deleteReview, hfind, if_pos (And.intro h1 h2)]
  · intro hfind
    simp only [deleteReview, hfind]

/-- C24 at `Sample.reviewedShop`: the first customer, no admin, is refused on the reviews 32
and 33 of the second customer, and the store stays as it was. -/
theorem review_change_authorisation_witness :
    Sample.annEditsBob.valid = true ∧
    updateReview Sample.reviewedShop Sample.annEditsBob =
      (Response.failure 403 "Not authorized to update this review", Sample.reviewedShop) ∧
    deleteReview Sample.reviewedShop Sample.annDeletesBob =
      (Response.failure 403 "Not authorized to delete this review", Sample.reviewedShop) :=
  ⟨by decide,
    (review_change_authorisation Sample.reviewedShop Sample.annEditsBob Sample.annDeletesBob
      (by decide)).1.2.1 Sample.bobDuneReview (by decide) (by decide) (by decide),
    (review_change_authorisation Sample.reviewedShop Sample.annEditsBob Sample.annDeletesBob
      (by decide)).2.2.1 Sample.bobEmmaReview (by decide) (by decide) (by decide)⟩

/-! # Writers of `rating` and `stock` -/

theorem Book.findById_append {books : List Book} {id : ObjectId} {b : Book} (n : Book)
    (h : Book.findById books id = some b) : Book.findById (books ++ [n]) id = some b := by
  unfold Book.findById at *
  rw [List.find?_append, h]
  rfl

theorem Book.findById_none_of_not_mem (books : List Book) (k : ObjectId)
    (h : k ∉ books.map (fun x => x._id)) : Book.findById books k = none := by
  unfold Book.findById
  rw [List.find?_eq_none]
  intro x hx hk
  exact h (List.mem_map.mpr ⟨x, hx, by simpa using hk⟩)

theorem Book.findById_delete (books : List Book) (k id : ObjectId)
    (hids : (books.map (fun x => x._id)).Nodup) :
    Book.findById (Book.delete books k) id =
      if id = k then none else Book.findById books id := by
  induction books with
  | nil => simp [Book.delete, Book.findById]
  | cons b bs ih =>
    rw [List.map_cons, List.nodup_cons] at hids
    by_cases hb : b._id = k
    · simp only [Book.delete, if_pos hb]
      by_cases hid : id = k
      · rw [if_pos hid, hid, ← hb]
        exact Book.findById_none_of_not_mem bs b._id hids.1
      · rw [if_neg hid]
        have : (b._id == id) = false := by
          simp only [beq_eq_false_iff_ne, ne_eq]
          intro h
          exact hid (h.symm.trans hb)
        simp only [Book.findById, List.find?_cons, this]
    · simp only [Book.delete, if_neg hb]
      have ih' := ih hids.2
      by_cases hbi : b._id = id
      · have hne : ¬ (id = k) := fun h => hb (hbi.trans h)
        rw [if_neg hne]
        simp [Book.findById, List.find?_cons, hbi]
      · have : (b._id == id) = false := by simpa using hbi
        have e1 : Book.findById (b :: Book.delete bs k) id =
            Book.findById (Book.delete bs k) id := by
          simp only [Book.findById, List.find?_cons, this]
        have e2 : Book.findById (b :: bs) id = Book.findById bs id := by
          simp only [Book.findById, List.find?_cons, this]
        rw [e1, e2]
        exact ih'

theorem Book.findById_replaced (books : List Book) (n : Book) (id : ObjectId) :
    Book.findById (Book.replace books n) id =
      if id = n._id then (Book.findById books id).map (fun _ => n)
      else Book.findById books id := by
  induction books with
  | nil => simp [Book.replace, Book.findById]
  | cons b bs ih =>
    by_cases hb : b._id = n._id
    · simp only [Book.replace, if_pos hb]
      by_cases hid : id = n._id
      · rw [if_pos hid]
        simp [Book.findById, List.find?_cons, hb, hid]
      · rw [if_neg hid]
        have h1 : (n._id == id) = false := by
          simp only [beq_eq_false_iff_ne, ne_eq]
          exact fun h => hid h.symm
        have h2 : (b._id == id) = false := by rw [hb]; exact h1
        simp only [Book.findById, List.find?_cons, h1, h2]
    · simp only [Book.replace, if_neg hb]
      by_cases hbi : b._id = id
      · have hne : ¬ (id = n._id) := fun h => hb (hbi.trans h)
        rw [if_neg hne]
        simp [Book.findById, List.find?_cons, hbi]
      · have : (b._id == id) = false := by simpa using hbi
        have e1 : Book.findById (b :: Book.replace bs n) id =
            Book.findById (Book.replace bs n) id := by
          simp only [Book.findById, List.find?_cons, this]
        have e2 : Book.findById (b :: bs) id = Book.findById bs id := by
          simp only [Book.findById, List.find?_cons, this]
        rw [e1, e2]
        exact ih

/-- What `Book.create` stores. -/
theorem Book.create_ok (s s1 : State) (f : BookFields) (book : Book)
    (h : Book.create s f = Except.ok (book, s1)) :
    s1.books = s.books ++ [book] ∧
    book.rating = { average := f.ratingAverage.getD 0, count := f.ratingCount.getD 0 } ∧
    book.stock = f.stock.getD 0 := by
  unfold Book.create at h
  split at h
  · simp only at h
    split at h
    · cases h
    · split at h
      · cases h
      · simp only [Except.ok.injEq, Prod.mk.injEq] at h
        obtain ⟨hb, hs⟩ := h
        subst hb hs
        exact ⟨rfl, rfl, rfl⟩
  · cases h

theorem Review.create_books (s s1 : State) (f : ReviewFields) (review : Review)
    (h : Review.create s f = Except.ok (review, s1)) :
    s1.books = Review.calculateAverageRating (s.reviews ++ [review]) s.books f.book := by
  unfold Review.create at h
  simp only at h
  split at h
  · cases h
  · split at h
    · cases h
    · simp only [Except.ok.injEq, Prod.mk.injEq] at h
      obtain ⟨hb, hs⟩ := h
      subst hb hs
      rfl

/-- The books after a review request: untouched, or one rating recomputed. -/
theorem review_run_books (s : State) (op : ReviewOperation) :
    (op.run s).2.books = s.books ∨
    ∃ reviews bookId,
      (op.run s).2.books = Review.calculateAverageRating reviews s.books bookId := by
  cases op with
  | create req =>
    simp only [ReviewOperation.run]
    unfold createReview
    split
    · left; rfl
    · split
      · left; rfl
      · split
        · left; rfl
        · simp only
          split
          · left; rfl
          · next created s1 hcreate =>
            right
            exact ⟨_, _, Review.create_books s s1 _ created hcreate⟩
  | update req =>
    simp only [ReviewOperation.run]
    unfold updateReview
    split
    · left; rfl
    · split
      · left; rfl
      · split
        · left; rfl
        · simp only
          split
          · left; rfl
          · right; exact ⟨_, _, rfl⟩
  | delete req =>
    simp only [ReviewOperation.run]
    unfold deleteReview
    split
    · left; rfl
    · split
      · left; rfl
      · right; exact ⟨_, _, rfl⟩

theorem updateOrderStatus_books_of_not_cancelled (s : State) (req : StatusRequest)
    (h : req.status ≠ "cancelled") : (updateOrderStatus s req).2.books = s.books := by
  have hc : ¬ (req.status = "cancelled" ∧
      ∀ order, (updateOrderStatus.assign order req).isDelivered = false) := fun hx => h hx.1
  unfold updateOrderStatus
  split
  · rfl
  · next order hfind =>
    have hg : ¬ (req.status = "cancelled" ∧
        (updateOrderStatus.assign order req).isDelivered = false) := fun hx => h hx.1
    simp only [if_neg hg]
    split <;> rfl

/-- The books after `createBook` or `importGoogleBook`: untouched, or one book appended. -/
theorem createBook_books (s : State) (req : CreateBookRequest) :
    (createBook s req).2.books = s.books ∨
    ∃ book, (createBook s req).2.books = s.books ++ [book] := by
  unfold createBook
  split
  · left; rfl
  · split
    · left; rfl
    · next book s1 hcreate =>
      right
      exact ⟨book, (Book.create_ok s s1 _ book hcreate).1⟩

theorem importGoogleBook_books (s : State) (req : ImportGoogleBookRequest) :
    (importGoogleBook s req).2.books = s.books ∨
    ∃ book, (importGoogleBook s req).2.books = s.books ++ [book] := by
  unfold importGoogleBook
  split
  · left; rfl
  · split
    · left; rfl
    · split
      · left; rfl
      · next book s1 hcreate =>
        right
        exact ⟨book, (Book.create_ok s s1 _ book hcreate).1⟩

theorem deleteBook_books (s : State) (req : DeleteBookRequest) :
    (deleteBook s req).2.books = s.books ∨
    (deleteBook s req).2.books = Book.delete s.books req.id := by
  unfold deleteBook
  split
  · left; rfl
  · next book hfind =>
    right
    rw [Book.findById_book_id hfind]

/-- The books after a cart, order or payment request leave every rating as it was, and every
stock too unless the request is `createOrder` or a cancellation. -/
theorem Operation.run_book (s : State) (op : Operation) (id : ObjectId) (b b' : Book)
    (hb : Book.findById s.books id = some b)
    (hb' : Book.findById (op.run s).2.books id = some b') :
    b'.rating = b.rating ∧
    (b'.stock ≠ b.stock →
      (∃ user a p t sh, op = Operation.cart user (CartMutation.createOrder a p t sh)) ∨
      ∃ req, req.status = "cancelled" ∧ op = Operation.status req) := by
  have same : ∀ s' : State, s'.books = s.books → Book.findById s'.books id = some b' →
      b' = b := by
    intro s' hs h
    rw [hs, hb] at h
    exact (Option.some.inj h).symm
  have bulk : ∀ ops, Book.findById (Book.bulkWrite s.books ops) id = some b' →
      b'.rating = b.rating := by
    intro ops h
    rw [Book.findById_bulkWrite, hb] at h
    simp only [Option.map_some', Option.some.injEq] at h
    rw [← h]
  cases op with
  | cart user m =>
    cases m with
    | addToCart bookId quantity =>
      have e := same _ (addToCart_frame s _).1 hb'
      subst e
      exact ⟨rfl, fun h => absurd rfl h⟩
    | updateCartItem itemId quantity =>
      have e := same _ (updateCartItem_frame s _).1 hb'
      subst e
      exact ⟨rfl, fun h => absurd rfl h⟩
    | removeCartItem itemId =>
      have e := same _ (removeCartItem_frame s _).1 hb'
      subst e
      exact ⟨rfl, fun h => absurd rfl h⟩
    | clearCart =>
      have e := same _ (clearCart_frame s _).1 hb'
      subst e
      exact ⟨rfl, fun h => absurd rfl h⟩
    | createOrder a p t sh =>
      refine ⟨?_, fun _ => Or.inl ⟨user, a, p, t, sh, rfl⟩⟩
      rcases createOrder_run_state s
        { user := user, shippingAddress := a, paymentMethod := p, taxAmount := t,
          shippingAmount := sh } with h | ⟨cart, order, -, -, -, h⟩
      · have e := same _ (congrArg State.books h) hb'
        rw [e]
      · have hbooks := congrArg State.books h
        simp only at hbooks
        apply bulk
        rw [← hbooks]
        exact hb'
  | pay req =>
    have hbooks : (updateOrderToPaid s req).2.books = s.books := by
      rcases updateOrderToPaid_state s req with h | ⟨order, -, h⟩
      · rw [h]
      · rw [h]
    have e := same _ hbooks hb'
    subst e
    exact ⟨rfl, fun h => absurd rfl h⟩
  | status req =>
    constructor
    · rcases updateOrderStatus_state s req with h | ⟨order, -, -, -, -, h | h, -⟩
      · rw [same _ (congrArg State.books h) hb']
      · rw [same _ h hb']
      · apply bulk
        rw [← h]
        exact hb'
    · intro hne
      by_cases hc : req.status = "cancelled"
      · exact Or.inr ⟨req, hc, rfl⟩
      · have e := same _ (updateOrderStatus_books_of_not_cancelled s req hc) hb'
        exact absurd (by rw [e]) hne

/-- C25 (amended): among all handlers that write to the store, the rating of an existing
book is changed only by a review request (the recomputation) or by `updateBook`, and its
stock only by `createOrder`, by `updateOrderStatus` with status `cancelled`, or by
`updateBook`; `updateBook` with a valid body replaces the book by the body applied to it, so
`rating` and `stock` in the body are stored as sent; and a book that `createBook` or
`importGoogleBook` answers with is stored with the rating of the request body (0 and 0 when
absent) or of the fetched Google volume, and, for an import, with stock 10. -/
theorem book_rating_stock_writers (s : State) :
    (∀ (q : Request) (id : ObjectId) (b b' : Book),
      (s.books.map (fun x => x._id)).Nodup →
      Book.findById s.books id = some b →
      Book.findById (q.run s).2.books id = some b' →
      (b'.rating ≠ b.rating →
        (∃ op, q = Request.review op) ∨
        ∃ req, q = Request.book (BookOperation.update req)) ∧
      (b'.stock ≠ b.stock →
        (∃ user a p t sh,
          q = Request.shop (Operation.cart user (CartMutation.createOrder a p t sh))) ∨
        (∃ req, req.status = "cancelled" ∧ q = Request.shop (Operation.status req)) ∨
        ∃ req, q = Request.book (BookOperation.update req))) ∧
    (∀ (req : UpdateBookRequest) (b : Book),
      Book.findById s.books req.id = some b → req.body.validate = true →
      Book.findById (updateBook s req).2.books req.id = some (req.body.apply b)) ∧
    (∀ (req : CreateBookRequest) (book : Book),
      (createBook s req).1 = Response.success 201 (Data.book book) →
      book ∈ (createBook s req).2.books ∧
      book.rating = { average := req.body.ratingAverage.getD 0,
                      count := req.body.ratingCount.getD 0 }) ∧
    (∀ (req : ImportGoogleBookRequest) (book : Book),
      (importGoogleBook s req).1 = Response.success 201 (Data.book book) →
      ∃ volume, req.fetched = some volume ∧
        book ∈ (importGoogleBook s req).2.books ∧
        book.rating = { average := volume.averageRating, count := volume.ratingsCount } ∧
        book.stock = 10) := by
  refine ⟨?_, ?_, ?_, ?_⟩
  · intro q id b b' hids hb hb'
    have same : ∀ books : List Book, books = s.books → Book.findById books id = some b' →
        b' = b := by
      intro books hs h
      rw [hs, hb] at h
      exact (Option.some.inj h).symm
    have appended : ∀ (books : List Book) (n : Book), books = s.books ++ [n] →
        Book.findById books id = some b' → b' = b := by
      intro books n hs h
      rw [hs, Book.findById_append n hb] at h
      exact (Option.some.inj h).symm
    cases q with
    | shop op =>
      obtain ⟨hr, hst⟩ := Operation.run_book s op id b b' hb hb'
      refine ⟨fun h => absurd hr h, fun h => ?_⟩
      rcases hst h with ⟨user, a, p, t, sh, e⟩ | ⟨req, hc, e⟩
      · exact Or.inl ⟨user, a, p, t, sh, by rw [e]⟩
      · exact Or.inr (Or.inl ⟨req, hc, by rw [e]⟩)
    | review op =>
      refine ⟨fun _ => Or.inl ⟨op, rfl⟩, fun h => ?_⟩
      exfalso
      apply h
      rcases review_run_books s op with e | ⟨reviews, bookId, e⟩
      · rw [same _ e hb']
      · have hb2 : Book.findById (op.run s).2.books id = some b' := hb'
        rw [e, Review.calculateAverageRating, Book.findById_setRating, hb] at hb2
        simp only [Option.map_some', Option.some.injEq] at hb2
        rw [← hb2]
        split <;> rfl
    | book op =>
      cases op with
      | create req =>
        have e : b' = b := by
          rcases createBook_books s req with e | ⟨n, e⟩
          · exact same _ e hb'
          · exact appended _ n e hb'
        subst e
        exact ⟨fun h => absurd rfl h, fun h => absurd rfl h⟩
      | update req =>
        exact ⟨fun _ => Or.inr ⟨req, rfl⟩, fun _ => Or.inr (Or.inr ⟨req, rfl⟩)⟩
      | delete req =>
        have e : b' = b := by
          rcases deleteBook_books s req with e | e
          · exact same _ e hb'
          · have hb2 : Book.findById (deleteBook s req).2.books id = some b' := hb'
            rw [e, Book.findById_delete s.books req.id id hids] at hb2
            split at hb2
            · cases hb2
            · rw [hb] at hb2
              exact (Option.some.inj hb2).symm
        subst e
        exact ⟨fun h => absurd rfl h, fun h => absurd rfl h⟩
      | importGoogle req =>
        have e : b' = b := by
          rcases importGoogleBook_books s req with e | ⟨n, e⟩
          · exact same _ e hb'
          · exact appended _ n e hb'
        subst e
        exact ⟨fun h => absurd rfl h, fun h => absurd rfl h⟩
  · intro req b hb hv
    have hid : (req.body.apply b)._id = req.id := by
      have := Book.findById_book_id hb
      exact this
    simp only [updateBook, hb, hv, if_true]
    rw [Book.findById_replaced, if_pos hid.symm, hb]
    rfl
  · intro req book h
    unfold createBook at h ⊢
    split at h
    · cases h
    · next hv =>
      simp only [if_neg hv]
      split at h
      · cases h
      · next created s1 hcreate =>
        simp only [hcreate]
        simp only [Response.success.injEq, Data.book.injEq, true_and] at h
        subst h
        obtain ⟨hbooks, hrating, -⟩ := Book.create_ok s s1 _ created hcreate
        exact ⟨by rw [hbooks]; simp, hrating⟩
  · intro req book h
    unfold importGoogleBook at h ⊢
    split at h
    · cases h
    · next hnone =>
      split at h
      · cases h
      · next volume hf =>
        simp only [hf]
        split at h
        · cases h
        · next created s1 hcreate =>
          simp only [hcreate]
          simp only [Response.success.injEq, Data.book.injEq, true_and] at h
          subst h
          obtain ⟨hbooks, hrating, hstock⟩ := Book.create_ok s s1 _ created hcreate
          exact ⟨volume, rfl, by rw [hbooks]; simp, hrating, hstock⟩

/-- C25, as stated, fails: in `Sample.reviewedShop` book 1 has two reviews, `rating.count = 2`
and stock 5; the body of one `updateBook` request sets its rating to 5 from 1000 ratings and
its stock to 99, with no review and no order written; and `importGoogleBook` stores a book
with `rating.count = 1200` that no review mentions. -/
theorem rating_and_stock_set_by_request_body :
    (Book.findById Sample.reviewedShop.books 1).map (fun b => (b.rating.count, b.stock)) =
      some (2, 5) ∧
    (updateBook Sample.reviewedShop Sample.setRatingAndStock).1.isSuccess = true ∧
    (updateBook Sample.reviewedShop Sample.setRatingAndStock).2.reviews =
      Sample.reviewedShop.reviews ∧
    (updateBook Sample.reviewedShop Sample.setRatingAndStock).2.orders =
      Sample.reviewedShop.orders ∧
    (Book.findById (updateBook Sample.reviewedShop Sample.setRatingAndStock).2.books 1).map
      (fun b => (b.rating.average, b.rating.count, b.stock)) = some (5, 1000, 99) ∧
    (importGoogleBook Sample.reviewedShop Sample.importDune).1.isSuccess = true ∧
    (Book.findById (importGoogleBook Sample.reviewedShop Sample.importDune).2.books 40).map
      (fun b => (b.rating.average, b.rating.count, b.stock)) = some (4, 1200, 10) ∧
    Review.ofBook (importGoogleBook Sample.reviewedShop Sample.importDune).2.reviews 40 = [] := by
  decide

/-- C25 (amended) at `Sample.reviewedShop`: a cancellation of order 20 changes the stock of
book 1 and is one of the three admitted writers of stock; the body of
`Sample.setRatingAndStock` is stored as sent. -/
theorem book_rating_stock_writers_witness :
    ((Sample.reviewedShop.books.map (fun x => x._id)).Nodup ∧
      Book.findById Sample.reviewedShop.books 1 = some Sample.duneReviewed ∧
      Book.findById
        ((Request.shop (Operation.status Sample.cancelAnnOrder)).run Sample.reviewedShop).2.books
        1 = some { Sample.duneReviewed with stock := 7 }) ∧
    (({ Sample.duneReviewed with stock := 7 } : Book).stock ≠ Sample.duneReviewed.stock →
      (∃ user a p t sh, Request.shop (Operation.status Sample.cancelAnnOrder) =
        Request.shop (Operation.cart user (CartMutation.createOrder a p t sh))) ∨
      (∃ req, req.status = "cancelled" ∧
        Request.shop (Operation.status Sample.cancelAnnOrder) =
          Request.shop (Operation.status req)) ∨
      ∃ req, Request.shop (Operation.status Sample.cancelAnnOrder) =
        Request.book (BookOperation.update req)) ∧
    Book.findById (updateBook Sample.reviewedShop Sample.setRatingAndStock).2.books 1 =
      some (Sample.setRatingAndStock.body.apply Sample.duneReviewed) :=
  ⟨⟨by decide, by decide, by decide⟩,
    ((book_rating_stock_writers Sample.reviewedShop).1
      (Request.shop (Operation.status Sample.cancelAnnOrder)) 1 Sample.duneReviewed
      { Sample.duneReviewed with stock := 7 } (by decide) (by decide) (by decide)).2,
    (book_rating_stock_writers Sample.reviewedShop).2.1 Sample.setRatingAndStock
      Sample.duneReviewed (by decide) (by decide)⟩

/-! # Scenarios -/

theorem Cart.replace_append_fresh (carts : List Cart) (c n : Cart) (hid : c._id = n._id)
    (hfresh : ∀ x ∈ carts, x._id ≠ n._id) : Cart.replace (carts ++ [c]) n = carts ++ [n] := by
  induction carts with
  | nil => simp [Cart.replace, hid]
  | cons x xs ih =>
    have hx : x._id ≠ n._id := hfresh x (List.mem_cons_self _ _)
    show Cart.replace (x :: (xs ++ [c])) n = x :: (xs ++ [n])
    simp only [Cart.replace, if_neg hx]
    rw [ih (fun y hy => hfresh y (List.mem_cons_of_mem _ hy))]

theorem Cart.findOne_append_other (carts : List Cart) (c : Cart) (u : ObjectId)
    (h : Cart.findOne carts u = none) (hu : c.user ≠ u) :
    Cart.findOne (carts ++ [c]) u = none := by
  simp only [Cart.findOne] at h ⊢
  rw [List.find?_append, h]
  simp [List.find?_cons, hu]

/-- The first `addToCart` of a user without a cart: the cart is created with one line. -/
theorem addToCart_first_line (s : State) (user : User) (book : Book) (raw : RawId)
    (quantity : Quantity) (q : Int)
    (hraw : raw.cast = some book._id) (hquantity : quantity.toNumber = some q)
    (hbook : Book.findById s.books book._id = some book)
    (hq1 : 1 ≤ q) (hq : q ≤ book.stock) (hcode : book.price.currencyCode ≠ "")
    (hnone : Cart.findOne s.carts user.id = none)
    (hfresh : ∀ c ∈ s.carts, c._id ≠ s.nextId) :
    addToCart s { user := user, bookId := raw, quantity := quantity } =
      (Response.success 200 (Data.cart
        { _id := s.nextId, user := user.id,
          items := [{ _id := s.nextId + 1, book := book._id, quantity := q,
                      price := book.price }],
          totalAmount := book.price.amount * q, currencyCode := "USD" }),
        { s with
          carts := s.carts ++
            [{ _id := s.nextId, user := user.id,
               items := [{ _id := s.nextId + 1, book := book._id, quantity := q,
                           price := book.price }],
               totalAmount := book.price.amount * q, currencyCode := "USD" }],
          nextId := s.nextId + 2 }) := by
  have h1 : ¬ (({ user := user, bookId := raw, quantity := quantity } :
      AddToCartRequest).valid = false) := by
    rw [AddToCartRequest.valid_of_cast hraw hquantity hq1]
    decide
  have h2 : ¬ (quantity.exceeds book.stock = true) := by
    rw [Quantity.exceeds_iff book.stock hquantity]
    exact not_lt.mpr hq
  have hv : Cart.validate
      { _id := s.nextId, user := user.id,
        items := [{ _id := s.nextId + 1, book := book._id, quantity := q,
                    price := book.price }],
        totalAmount := 0, currencyCode := "USD" } = true := by
    simp [Cart.validate, hq1, hcode]
  simp only [addToCart, if_neg h1, hraw, hbook, if_neg h2, addToCart.findOrCreate, hnone,
    Cart.create, List.findIdx?_nil, List.nil_append, hquantity]
  rw [saveCartAndRespond_valid _ _ hv]
  simp only [Cart.computeTotal, List.foldl_cons, List.foldl_nil, zero_add]
  rw [Cart.replace_append_fresh]
  · rfl
  · exact hfresh

/-- C26: the stock-exhaustion scenario. A book has stock `s >= 1` and price `p`; users A and
B have no cart. A adds quantity `s` of the book and places a valid order: both requests
succeed, the order has `totalAmount = s * p` and is the one order appended, and the stock of
the book becomes 0. When B then adds quantity 1 of the book, the answer is 400 with the
message "Book is not available in the requested quantity. Available stock: 0" and the
store is unchanged; an order request of B after that does not succeed and leaves the
store, hence the orders, unchanged. The book may be named in any spelling of its id and
the quantities sent as numbers or as strings. -/
theorem stock_exhaustion_scenario (s s1 s2 : State) (userA userB : User) (book : Book)
    (order : CreateOrderRequest) (address : ShippingAddress)
    (rawA rawB : RawId) (quantityA quantityB : Quantity)
    (hrawA : rawA.cast = some book._id) (hrawB : rawB.cast = some book._id)
    (hquantityA : quantityA.toNumber = some book.stock)
    (hquantityB : quantityB.toNumber = some 1)
    (hbook : Book.findById s.books book._id = some book)
    (hstock : 1 ≤ book.stock)
    (htitle : book.title ≠ "") (hcode : book.price.currencyCode ≠ "")
    (hA : Cart.findOne s.carts userA.id = none) (hB : Cart.findOne s.carts userB.id = none)
    (hAB : userA.id ≠ userB.id)
    (hfresh : ∀ c ∈ s.carts, c._id ≠ s.nextId)
    (huser : order.user = userA) (haddress : order.shippingAddress = some address)
    (hvalid : address.validate = true)
    (hpay : order.paymentMethod ∈ Order.paymentMethodEnum)
    (h1 : s1 = (addToCart s { user := userA, bookId := rawA, quantity := quantityA }).2)
    (h2 : s2 = (createOrder s1 order).2) :
    (addToCart s { user := userA, bookId := rawA, quantity := quantityA }).1.isSuccess =
      true ∧
    (∃ o, (createOrder s1 order).1 = Response.success 201 (Data.order o) ∧
      o.user = userA.id ∧ o.totalAmount = book.stock * book.price.amount ∧
      s2.orders = s.orders ++ [o]) ∧
    (Book.findById s2.books book._id).map (fun b => b.stock) = some 0 ∧
    addToCart s2 { user := userB, bookId := rawB, quantity := quantityB } =
      (Response.failure 400
        "Book is not available in the requested quantity. Available stock: 0", s2) ∧
    ∀ orderB : CreateOrderRequest, orderB.user = userB →
      (createOrder s2 orderB).1.isSuccess = false ∧ (createOrder s2 orderB).2 = s2 := by
  have hadd := addToCart_first_line s userA book rawA quantityA book.stock hrawA hquantityA
    hbook hstock (le_refl _) hcode hA hfresh
  rw [hadd] at h1
  simp only at h1
  have hpay2 : order.paymentMethod ≠ "" := by
    intro h
    rw [h] at hpay
    revert hpay
    decide
  have hreq : order.valid = true := by
    simp [CreateOrderRequest.valid, haddress, hpay2]
  have hpay3 : Order.paymentMethodEnum.contains order.paymentMethod = true := by
    simpa using hpay
  have hfindA : Cart.findOne s1.carts order.user.id =
      some { _id := s.nextId, user := userA.id,
             items := [{ _id := s.nextId + 1, book := book._id, quantity := book.stock,
                         price := book.price }],
             totalAmount := book.price.amount * book.stock, currencyCode := "USD" } := by
    rw [h1, huser]
    exact Cart.findOne_append_new s.carts
      { _id := s.nextId, user := userA.id,
        items := [{ _id := s.nextId + 1, book := book._id, quantity := book.stock,
                    price := book.price }],
        totalAmount := book.price.amount * book.stock, currencyCode := "USD" } hA
  have hbook1 : Book.findById s1.books book._id = some book := by rw [h1]; exact hbook
  have hnot : ¬ (book.stock < book.stock) := lt_irrefl _
  have hrun : createOrder s1 order =
      (Response.success 201 (Data.order (Order.build (s.nextId + 2)
        { user := userA.id,
          items := [{ book := book._id, title := book.title, quantity := book.stock,
                      price := book.price }],
          shippingAddress := address, paymentMethod := order.paymentMethod,
          totalAmount := book.price.amount * book.stock, currencyCode := "USD",
          taxAmount := order.taxAmount.getD 0,
          shippingAmount := order.shippingAmount.getD 0 })),
        { s with
          books := Book.bulkWrite s.books [(book._id, -book.stock)],
          carts := s.carts ++
            [{ _id := s.nextId, user := userA.id, items := [], totalAmount := 0,
               currencyCode := "USD" }],
          orders := s.orders ++ [Order.build (s.nextId + 2)
            { user := userA.id,
              items := [{ book := book._id, title := book.title, quantity := book.stock,
                          price := book.price }],
              shippingAddress := address, paymentMethod := order.paymentMethod,
              totalAmount := book.price.amount * book.stock, currencyCode := "USD",
              taxAmount := order.taxAmount.getD 0,
              shippingAmount := order.shippingAmount.getD 0 }],
          nextId := s.nextId + 3 }) := by
    have hvo : Order.validate (Order.build (s.nextId + 2)
        { user := userA.id,
          items := [{ book := book._id, title := book.title, quantity := book.stock,
                      price := book.price }],
          shippingAddress := address, paymentMethod := order.paymentMethod,
          totalAmount := book.price.amount * book.stock, currencyCode := "USD",
          taxAmount := order.taxAmount.getD 0,
          shippingAmount := order.shippingAmount.getD 0 }) = true := by
      simp [Order.validate, Order.build, OrderItem.validate, htitle, hstock, hcode, hvalid,
        hpay3, hpay, Order.statusEnum]
    unfold createOrder
    simp only [hreq, haddress, hfindA]
    simp only [List.length_singleton, one_ne_zero, if_false, Cart.populate, List.map_cons,
      List.map_nil, hbook1, createOrder.checkStock, if_neg hnot, createOrder.orderItems,
      createOrder.bulkOps, Option.map_some']
    rw [h1]
    simp only [Order.create, ite_self, hvo, if_true, Cart.save, Cart.validate, List.all_nil,
      Cart.computeTotal, List.foldl_nil, huser]
    rw [Cart.replace_append_fresh]
    · rfl
    · exact hfresh
  rw [hrun] at h2
  simp only at h2
  have hstock0 : Book.findById s2.books book._id = some { book with stock := 0 } := by
    rw [h2]
    simp only [Book.bulkWrite, List.foldl_cons, List.foldl_nil]
    rw [Book.findById_incStock, hbook]
    simp
  have hfindB : Cart.findOne s2.carts userB.id = none := by
    rw [h2]
    exact Cart.findOne_append_other s.carts _ userB.id hB hAB
  refine ⟨by rw [hadd]; rfl, ⟨_, by rw [hrun], rfl, ?_, by rw [h2]⟩, ?_, ?_, ?_⟩
  · simp only [Order.build]
    exact mul_comm _ _
  · rw [hstock0]; rfl
  · have hvB : ¬ (({ user := userB, bookId := rawB, quantity := quantityB } :
        AddToCartRequest).valid = false) := by
      rw [AddToCartRequest.valid_of_cast hrawB hquantityB (le_refl 1)]
      decide
    have hex : quantityB.exceeds 0 = true := by
      rw [Quantity.exceeds_iff 0 hquantityB]
      decide
    simp only [addToCart, if_neg hvB, hrawB, hstock0, hex, if_true, cartStockMessage]
    rfl
  · intro orderB hBuser
    unfold createOrder
    split
    · exact ⟨rfl, rfl⟩
    · exact ⟨rfl, rfl⟩
    · rw [hBuser, hfindB]
      exact ⟨rfl, rfl⟩

/-- C26 with stock 2 and price 1000: the first customer adds 2 copies and orders for a total
of 2000, the stock is 0, and the second customer is refused one copy with available stock 0
and gets no order. -/
theorem stock_exhaustion_scenario_witness :
    (addToCart (Sample.freshShop 2) Sample.annAddsTwo).1.isSuccess = true ∧
    (∃ o, (createOrder Sample.afterAnnAdds Sample.annOrders).1 =
        Response.success 201 (Data.order o) ∧
      o.user = 100 ∧ o.totalAmount = 2 * 1000 ∧ Sample.soldOut.orders = [] ++ [o]) ∧
    (Book.findById Sample.soldOut.books 1).map (fun b => b.stock) = some 0 ∧
    addToCart Sample.soldOut Sample.bobAddsOne =
      (Response.failure 400
        "Book is not available in the requested quantity. Available stock: 0",
        Sample.soldOut) ∧
    ∀ orderB : CreateOrderRequest, orderB.user = Sample.bob →
      (createOrder Sample.soldOut orderB).1.isSuccess = false ∧
      (createOrder Sample.soldOut orderB).2 = Sample.soldOut :=
  stock_exhaustion_scenario (Sample.freshShop 2) Sample.afterAnnAdds Sample.soldOut Sample.ann
    Sample.bob (Sample.freshDune 2) Sample.annOrders Sample.address (Sample.lower 1)
    (Sample.lower 1) (Quantity.number 2) (Quantity.number 1) rfl rfl rfl rfl
    (by decide) (by decide)
    (by decide) (by decide) (by decide) (by decide) (by decide) (by decide) rfl rfl (by decide)
    (by decide) rfl rfl

/-- C27: the virtual `grandTotal` of every order is `totalAmount + taxAmount +
shippingAmount`; and the order of a successful `createOrder` is stored with the
`totalAmount` of the cart, whatever tax and shipping the request carries, with `taxAmount`
and `shippingAmount` as sent (0 when omitted), so its grand total is the cart total plus
the tax plus the shipping of the request. -/
theorem order_grand_total (s : State) (req : CreateOrderRequest) (status : Nat)
    (order : Order)
    (h : (createOrder s req).1 = Response.success status (Data.order order)) :
    (∀ o : Order, o.grandTotal = o.totalAmount + o.taxAmount + o.shippingAmount) ∧
    order ∈ (createOrder s req).2.orders ∧
    (∃ cart, Cart.findOne s.carts req.user.id = some cart ∧
      order.totalAmount = cart.totalAmount ∧
      order.grandTotal =
        cart.totalAmount + req.taxAmount.getD 0 + req.shippingAmount.getD 0) ∧
    order.taxAmount = req.taxAmount.getD 0 ∧
    order.shippingAmount = req.shippingAmount.getD 0 := by
  have hrun : createOrder s req =
      (Response.success status (Data.order order), (createOrder s req).2) := Prod.ext h rfl
  obtain ⟨address, cart, orderItems, bulkOps, -, hcart, -, -, -, -, -, hdata, hs⟩ :=
    createOrder_success hrun
  simp only [Data.order.injEq] at hdata
  refine ⟨fun _ => rfl, ?_, ⟨cart, hcart, ?_, ?_⟩, ?_, ?_⟩
  · rw [hs, hdata]
    simp
  · rw [hdata]; rfl
  · rw [hdata]; rfl
  · rw [hdata]; rfl
  · rw [hdata]; rfl

/-- C27, the scenario: a cart of 3 copies at 10.00 ordered with tax 3.90 and shipping 0 is
stored with `totalAmount` 30.00, `taxAmount` 3.90, `shippingAmount` 0 and has grand total
33.90 (amounts in cents). -/
theorem order_grand_total_witness :
    (createOrder Sample.cartOfThree Sample.annOrdersWithTax).1 =
      Response.success 201 (Data.order Sample.taxedOrder) ∧
    ((∀ o : Order, o.grandTotal = o.totalAmount + o.taxAmount + o.shippingAmount) ∧
      Sample.taxedOrder ∈ (createOrder Sample.cartOfThree Sample.annOrdersWithTax).2.orders ∧
      (∃ cart, Cart.findOne Sample.cartOfThree.carts Sample.annOrdersWithTax.user.id =
          some cart ∧
        Sample.taxedOrder.totalAmount = cart.totalAmount ∧
        Sample.taxedOrder.grandTotal = cart.totalAmount +
          Sample.annOrdersWithTax.taxAmount.getD 0 +
          Sample.annOrdersWithTax.shippingAmount.getD 0) ∧
      Sample.taxedOrder.taxAmount = Sample.annOrdersWithTax.taxAmount.getD 0 ∧
      Sample.taxedOrder.shippingAmount = Sample.annOrdersWithTax.shippingAmount.getD 0) ∧
    Sample.taxedOrder.totalAmount = 3000 ∧ Sample.taxedOrder.taxAmount = 390 ∧
    Sample.taxedOrder.shippingAmount = 0 ∧ Sample.taxedOrder.grandTotal = 3390 :=
  ⟨by decide,
    order_grand_total Sample.cartOfThree Sample.annOrdersWithTax 201 Sample.taxedOrder
      (by decide),
    by decide, by decide, by decide, by decide⟩

/-! # Placing and cancelling -/

theorem Book.incStock_comm (books : List Book) (a b : ObjectId) (d e : Int) :
    Book.incStock (Book.incStock books a d) b e =
      Book.incStock (Book.incStock books b e) a d := by
  induction books with
  | nil => rfl
  | cons x xs ih =>
    by_cases ha : x._id = a <;> by_cases hb : x._id = b
    · simp only [Book.incStock, if_pos ha, if_pos hb, add_right_comm]
    · simp only [Book.incStock, if_pos ha, if_neg hb]
    · simp only [Book.incStock, if_neg ha, if_pos hb]
    · simp only [Book.incStock, if_neg ha, if_neg hb, ih]

theorem Book.incStock_cancel (books : List Book) (a : ObjectId) (d : Int) :
    Book.incStock (Book.incStock books a d) a (-d) = books := by
  induction books with
  | nil => rfl
  | cons x xs ih =>
    by_cases ha : x._id = a
    · simp only [Book.incStock, if_pos ha, add_neg_cancel_right]
    · simp only [Book.incStock, if_neg ha, ih]

theorem Book.bulkWrite_incStock (ops : List (ObjectId × Int)) (books : List Book)
    (a : ObjectId) (d : Int) :
    Book.bulkWrite (Book.incStock books a d) ops =
      Book.incStock (Book.bulkWrite books ops) a d := by
  induction ops generalizing books with
  | nil => rfl
  | cons op ops ih =>
    simp only [Book.bulkWrite, List.foldl_cons] at ih ⊢
    rw [Book.incStock_comm books a op.1 d op.2]
    exact ih (Book.incStock books op.1 op.2)

/-- A bulk write followed by the bulk write of the opposite increments restores the books. -/
theorem Book.bulkWrite_undo (ops : List (ObjectId × Int)) (books : List Book) :
    Book.bulkWrite (Book.bulkWrite books ops) (ops.map (fun op => (op.1, -op.2))) = books := by
  induction ops generalizing books with
  | nil => rfl
  | cons op ops ih =>
    have h1 : Book.bulkWrite books (op :: ops) =
        Book.incStock (Book.bulkWrite books ops) op.1 op.2 := by
      have := Book.bulkWrite_incStock ops books op.1 op.2
      simpa only [Book.bulkWrite, List.foldl_cons] using this
    rw [h1]
    have h2 : Book.bulkWrite (Book.incStock (Book.bulkWrite books ops) op.1 op.2)
        ((op :: ops).map (fun op => (op.1, -op.2))) =
        Book.bulkWrite (Book.incStock (Book.incStock (Book.bulkWrite books ops) op.1 op.2)
          op.1 (-op.2)) (ops.map (fun op => (op.1, -op.2))) := by
      simp only [Book.bulkWrite, List.map_cons, List.foldl_cons]
    rw [h2, Book.incStock_cancel]
    exact ih books

/-- The restoring increments of the order lines are the opposite of the decrements that
`createOrder` computed from the same populated cart. -/
theorem createOrder.bulkOps_opposite (populated : List (CartItem × Option Book))
    (orderItems : List OrderItem) (bulkOps : List (ObjectId × Int))
    (hitems : createOrder.orderItems populated = some orderItems)
    (hops : createOrder.bulkOps populated = some bulkOps) :
    updateOrderStatus.bulkOps orderItems = bulkOps.map (fun op => (op.1, -op.2)) := by
  induction populated generalizing orderItems bulkOps with
  | nil =>
    simp only [createOrder.orderItems, createOrder.bulkOps, Option.some.injEq] at hitems hops
    subst hitems hops
    rfl
  | cons x xs ih =>
    obtain ⟨item, ob⟩ := x
    cases ob with
    | none => simp [createOrder.orderItems] at hitems
    | some b =>
      simp only [createOrder.orderItems, createOrder.bulkOps, Option.map_eq_some'] at hitems hops
      obtain ⟨tail, ht, hitems⟩ := hitems
      obtain ⟨otail, hot, hops⟩ := hops
      subst hitems hops
      have := ih tail otail ht hot
      simp only [updateOrderStatus.bulkOps] at this ⊢
      simp [this]

theorem createOrder_order_valid {s s' : State} {req : CreateOrderRequest} {status : Nat}
    {order : Order} (h : createOrder s req = (Response.success status (Data.order order), s')) :
    Order.validate order = true := by
  unfold createOrder at h
  split at h
  · simp at h
  · simp at h
  · split at h
    · simp [emptyCartResponse] at h
    · split at h
      · simp [emptyCartResponse] at h
      · simp only at h
        split at h
        · next r hr =>
          simp only [Prod.mk.injEq] at h
          exact absurd (h.1 ▸ hr) (createOrder.checkStock_ne_success _ _ _)
        · split at h
          · split at h
            · simp at h
            · next created s1 hcreate =>
              obtain ⟨-, hv, -⟩ := Order.create_some hcreate
              simp only [Cart.save, Cart.validate, List.all_nil, if_true,
                Cart.computeTotal, List.foldl_nil, Prod.mk.injEq, Response.success.injEq,
                Data.order.injEq] at h
              rw [← h.1.2]
              exact hv
          · simp at h

theorem Order.findById_append_fresh (orders : List Order) (o : Order)
    (hfresh : ∀ x ∈ orders, x._id ≠ o._id) :
    Order.findById (orders ++ [o]) o._id = some o := by
  have hnone : orders.find? (fun x => x._id == o._id) = none := by
    rw [List.find?_eq_none]
    intro x hx
    simpa using hfresh x hx
  simp only [Order.findById, List.find?_append, hnone]
  simp [List.find?_cons]

/-- A cancellation of a stored, valid, not delivered order succeeds. -/
theorem updateOrderStatus_cancel_success (s : State) (req : StatusRequest) (order : Order)
    (hfind : Order.findById s.orders req.id = some order)
    (hvalid : Order.validate order = true) (hstatus : req.status = "cancelled") :
    (updateOrderStatus s req).1.isSuccess = true := by
  have hne : ¬ (req.status = "delivered") := by rw [hstatus]; decide
  have hassign : updateOrderStatus.assign order req = { order with status := "cancelled" } := by
    simp only [updateOrderStatus.assign, if_neg hne]
    rw [hstatus]
  have hv2 : Order.validate (updateOrderStatus.assign order req) = true := by
    simp only [Order.validate, Bool.and_eq_true] at hvalid
    rw [hassign]
    simp only [Order.validate, hvalid.1.1.1, hvalid.1.1.2, hvalid.1.2, Bool.true_and]
    decide
  unfold updateOrderStatus
  simp only [hfind, Order.save, hv2, if_true]
  rfl

/-- C28: when `createOrder` succeeds in a store whose orders do not yet use the next fresh
id, the created order is not delivered, the `updateOrderStatus` request with status
`cancelled` for it, issued right after, succeeds, and the books stored afterwards are
exactly the books stored before `createOrder`: every stock is back at its old value. -/
theorem place_then_cancel_round_trip (s : State) (req : CreateOrderRequest) (status : Nat)
    (order : Order) (now : Nat)
    (h : (createOrder s req).1 = Response.success status (Data.order order))
    (hfresh : ∀ o ∈ s.orders, o._id ≠ s.nextId) :
    order.isDelivered = false ∧
    (updateOrderStatus (createOrder s req).2
      { id := order._id, status := "cancelled", now := now }).1.isSuccess = true ∧
    (updateOrderStatus (createOrder s req).2
      { id := order._id, status := "cancelled", now := now }).2.books = s.books := by
  have hrun : createOrder s req =
      (Response.success status (Data.order order), (createOrder s req).2) := Prod.ext h rfl
  have hvalid := createOrder_order_valid hrun
  obtain ⟨address, cart, orderItems, bulkOps, -, -, -, -, hitems, hops, -, hdata, hs⟩ :=
    createOrder_success hrun
  simp only [Data.order.injEq] at hdata
  have hid : order._id = s.nextId := by rw [hdata]; rfl
  have hnd : order.isDelivered = false := by rw [hdata]; rfl
  have hoi : order.items = orderItems := by rw [hdata]; rfl
  have hfind : Order.findById (createOrder s req).2.orders order._id = some order := by
    rw [hs, ← hdata]
    exact Order.findById_append_fresh s.orders order (by rw [hid]; exact hfresh)
  refine ⟨hnd, ?_, ?_⟩
  · exact updateOrderStatus_cancel_success _ _ order hfind hvalid rfl
  · rw [updateOrderStatus_cancel_books _ { id := order._id, status := "cancelled", now := now }
      order hfind rfl, if_pos hnd, hoi,
      createOrder.bulkOps_opposite _ orderItems bulkOps hitems hops]
    have hb : (createOrder s req).2.books = Book.bulkWrite s.books bulkOps := by rw [hs]
    rw [hb]
    exact Book.bulkWrite_undo bulkOps s.books

/-- C28 at `Sample.shop 4`: the order of the first customer changes the stocks, and its
cancellation brings back the books as they were. -/
theorem place_then_cancel_round_trip_witness :
    (createOrder (Sample.shop 4) Sample.annOrders).1 =
      Response.success 201 (Data.order Sample.annOrder) ∧
    (createOrder (Sample.shop 4) Sample.annOrders).2.books ≠ (Sample.shop 4).books ∧
    Sample.annOrder.isDelivered = false ∧
    (updateOrderStatus (createOrder (Sample.shop 4) Sample.annOrders).2
      { id := Sample.annOrder._id, status := "cancelled", now := 9 }).1.isSuccess = true ∧
    (updateOrderStatus (createOrder (Sample.shop 4) Sample.annOrders).2
      { id := Sample.annOrder._id, status := "cancelled", now := 9 }).2.books =
      (Sample.shop 4).books :=
  ⟨by decide, by decide,
    place_then_cancel_round_trip (Sample.shop 4) Sample.annOrders 201 Sample.annOrder 9
      (by decide) (by decide)⟩

/-- After a cancellation request the order is still stored under its id, with the same lines
and the same `isDelivered`. -/
theorem updateOrderStatus_cancel_keeps_order (s : State) (req : StatusRequest) (order : Order)
    (hfind : Order.findById s.orders req.id = some order)
    (hstatus : req.status = "cancelled") :
    ∃ order', Order.findById (updateOrderStatus s req).2.orders req.id = some order' ∧
      order'.items = order.items ∧ order'.isDelivered = order.isDelivered := by
  obtain ⟨hdel, hitems⟩ := updateOrderStatus.assign_cancelled order req hstatus
  have hne : ¬ (req.status = "delivered") := by rw [hstatus]; decide
  have hid : (updateOrderStatus.assign order req)._id = req.id := by
    have := Order.findById_order_id hfind
    simp only [updateOrderStatus.assign, if_neg hne]
    exact this
  rcases updateOrderStatus_state s req with h | ⟨o, ho, -, -, -, -, h | h⟩
  · rw [h]
    exact ⟨order, hfind, rfl, rfl⟩
  · rw [h]
    exact ⟨order, hfind, rfl, rfl⟩
  · rw [hfind] at ho
    cases ho
    rw [h]
    refine ⟨updateOrderStatus.assign order req, ?_, hitems, hdel⟩
    rw [← hid]
    exact Order.findById_replace s.orders order _ (by rw [hid]; exact hfind)

/-- C29: for a stored order with `isDelivered = false`, whatever its status, `n` consecutive
`updateOrderStatus` requests with status `cancelled` leave, under every book id, the book
stored before with its stock raised by `n` times the total quantity of the order lines for
that id; so the book of a line that is the only line for its book gains `n` times the
quantity of the line. -/
theorem repeated_cancel_adds_stock (s : State) (req : StatusRequest) (order : Order) (n : Nat)
    (hfind : Order.findById s.orders req.id = some order)
    (hpending : order.isDelivered = false) (hstatus : req.status = "cancelled") :
    (∀ id, Book.findById (updateOrderStatus.repeated req n s).books id =
      (Book.findById s.books id).map
        (fun b => { b with stock := b.stock + n * Order.quantityOf order.items id })) ∧
    (∀ item ∈ order.items, ∀ b, Book.findById s.books item.book = some b →
      order.items.filter (fun other => other.book == item.book) = [item] →
        Book.findById (updateOrderStatus.repeated req n s).books item.book =
          some { b with stock := b.stock + n * item.quantity }) := by
  have key : ∀ (n : Nat) (s : State) (order : Order),
      Order.findById s.orders req.id = some order → order.isDelivered = false →
      ∀ id, Book.findById (updateOrderStatus.repeated req n s).books id =
        (Book.findById s.books id).map
          (fun b => { b with stock := b.stock + n * Order.quantityOf order.items id }) := by
    intro n
    induction n with
    | zero =>
      intro s order _ _ id
      simp only [updateOrderStatus.repeated, Nat.cast_zero, zero_mul, add_zero]
      cases Book.findById s.books id <;> rfl
    | succ n ih =>
      intro s order hfind hpending id
      obtain ⟨order', hfind', hitems', hdel'⟩ :=
        updateOrderStatus_cancel_keeps_order s req order hfind hstatus
      have hstep : Book.findById (updateOrderStatus s req).2.books id =
          (Book.findById s.books id).map
            (fun b => { b with stock := b.stock + Order.quantityOf order.items id }) := by
        rw [updateOrderStatus_cancel_books s req order hfind hstatus, if_pos hpending,
          Book.findById_bulkWrite, updateOrderStatus.bulkOps_restore]
      show Book.findById (updateOrderStatus.repeated req n (updateOrderStatus s req).2).books id
        = _
      rw [ih (updateOrderStatus s req).2 order' hfind' (by rw [hdel']; exact hpending) id,
        hstep, hitems']
      cases Book.findById s.books id with
      | none => rfl
      | some b =>
        simp only [Option.map_some', Option.some.injEq, Nat.cast_succ]
        congr 1
        ring
  refine ⟨key n s order hfind hpending, ?_⟩
  intro item _ b hb hone
  rw [key n s order hfind hpending item.book, hb]
  simp [Order.quantityOf, hone]

/-- C29 at `Sample.shopAfterOrder`: three cancellations of the order of 2 copies of book 1
and 3 copies of book 2 raise the stocks 3 and 1 to 9 and 10. -/
theorem repeated_cancel_adds_stock_witness :
    (Sample.shopAfterOrder.books.map (fun b => b.stock) = [3, 1] ∧
      (updateOrderStatus.repeated Sample.cancelAnnOrder 3 Sample.shopAfterOrder).books.map
        (fun b => b.stock) = [9, 10]) ∧
    ((∀ id, Book.findById
        (updateOrderStatus.repeated Sample.cancelAnnOrder 3 Sample.shopAfterOrder).books id =
      (Book.findById Sample.shopAfterOrder.books id).map
        (fun b => { b with
          stock := b.stock + (3 : Nat) * Order.quantityOf Sample.annOrder.items id })) ∧
    (∀ item ∈ Sample.annOrder.items, ∀ b,
      Book.findById Sample.shopAfterOrder.books item.book = some b →
      Sample.annOrder.items.filter (fun other => other.book == item.book) = [item] →
        Book.findById
          (updateOrderStatus.repeated Sample.cancelAnnOrder 3 Sample.shopAfterOrder).books
          item.book = some { b with stock := b.stock + (3 : Nat) * item.quantity })) :=
  ⟨by decide,
    repeated_cancel_adds_stock Sample.shopAfterOrder Sample.cancelAnnOrder Sample.annOrder 3
      (by decide) (by decide) (by decide)⟩

/-! # The stock check of `addToCart` -/

theorem Cart.validate_modify_add (cart : Cart) (i : Nat) (d : Int) (hd : 0 ≤ d)
    (hv : Cart.validate cart = true) :
    Cart.validate { cart with
      items := cart.items.modify
        (fun item => { item with quantity := item.quantity + d }) i } = true := by
  simp only [Cart.validate, List.all_eq_true] at hv ⊢
  intro x hx
  rcases mem_modify _ _ _ _ hx with hx | ⟨y, hy, hxy⟩
  · exact hv x hx
  · have := hv y hy
    subst hxy
    simp only [Bool.and_eq_true, decide_eq_true_eq] at this ⊢
    exact ⟨by omega, this.2⟩

/-- With the quantity sent as a JSON number that passes the route check, a stored book with
a currency code and a schema-valid stored cart of the user (or none), `addToCart` succeeds
exactly when the requested quantity is at most the stock of the book, whatever the cart
already holds. -/
theorem addToCart_number_succeeds_iff (s : State) (req : AddToCartRequest) (bookId : ObjectId)
    (book : Book) (n : Int)
    (hraw : req.bookId.cast = some bookId) (hn : req.quantity = Quantity.number n)
    (hq : 1 ≤ n)
    (hbook : Book.findById s.books bookId = some book)
    (hcode : book.price.currencyCode ≠ "")
    (hcart : ∀ cart, Cart.findOne s.carts req.user.id = some cart →
      Cart.validate cart = true) :
    (addToCart s req).1.isSuccess = true ↔ n ≤ book.stock := by
  have hnum : req.quantity.toNumber = some n := by rw [hn]; rfl
  have h1 : ¬ (req.valid = false) := by
    rw [AddToCartRequest.valid_of_cast hraw hnum hq]
    decide
  constructor
  · intro hok
    obtain ⟨-, bookId', book', n', hraw', hb', hn', -, hle, -⟩ :=
      addToCart_success s (addToCart s req).2 req (addToCart s req).1 rfl hok
    rw [hraw] at hraw'
    cases hraw'
    rw [hbook] at hb'
    cases hb'
    rw [hnum] at hn'
    cases hn'
    exact hle
  · intro hle
    have h2 : ¬ (req.quantity.exceeds book.stock = true) := by
      rw [Quantity.exceeds_iff book.stock hnum]
      exact not_lt.mpr hle
    have hfound : Cart.validate (addToCart.findOrCreate s req.user.id).1 = true := by
      cases hc : Cart.findOne s.carts req.user.id with
      | none =>
        rw [addToCart.findOrCreate_created s req.user.id hc]
        rfl
      | some cart =>
        rw [addToCart.findOrCreate_found s req.user.id cart hc]
        exact hcart cart hc
    have hall := hfound
    simp only [Cart.validate, List.all_eq_true, Bool.and_eq_true, decide_eq_true_eq] at hall
    simp only [addToCart, if_neg h1, hraw, hbook, if_neg h2]
    split
    · next i hi =>
      obtain ⟨item, hitem, -, -⟩ := findIdx?_first _ _ _ hi
      have hmem : item ∈ (addToCart.findOrCreate s req.user.id).1.items := by
        obtain ⟨hlt, hget⟩ := List.getElem?_eq_some.mp hitem
        rw [← hget]
        exact List.getElem_mem hlt
      have hget : ((addToCart.findOrCreate s req.user.id).1.items.get? i).bind
          (fun item => req.quantity.addTo item.quantity) = some (item.quantity + n) := by
        rw [List.get?_eq_getElem?, hitem, hn]
        rfl
      rw [hget]
      simp only
      rw [saveCartAndRespond_valid _ _
        (Cart.validate_modify_quantity _ i (item.quantity + n)
          (by have := (hall item hmem).1; omega) hfound)]
      rfl
    · next hi =>
      rw [hnum]
      simp only
      have hv : Cart.validate
          { (addToCart.findOrCreate s req.user.id).1 with
            items := (addToCart.findOrCreate s req.user.id).1.items ++
              [{ _id := (addToCart.findOrCreate s req.user.id).2.nextId,
                 book := bookId, quantity := n, price := book.price }] } =
          true := by
        simp only [Cart.validate, List.all_append, List.all_cons, List.all_nil,
          Bool.and_true, Bool.and_eq_true, decide_eq_true_eq] at hfound ⊢
        exact ⟨hfound, hq, by simpa using hcode⟩
      rw [saveCartAndRespond_valid _ _ hv]
      rfl

/-- C30 at failing inputs. In `Sample.afterAnnAdds` book 1 has stock 2 and the cart of the
first customer holds one line of 2 copies of it. A second add of 2 copies sent as the number
2 succeeds and leaves a line of 4 copies. The same add with the quantity sent as the string
"2" passes the route check and succeeds, and leaves the line at 22 copies. With the book
named with upper-case hex digits it succeeds and leaves two lines of 2 copies. With the
quantity sent as the string "+1" it passes the route check, 1 is at most the stock 2, and
the request ends in a validation error with the cart unchanged. -/
theorem addToCart_increment_as_sent :
    ((Book.findById Sample.afterAnnAdds.books 1).map (fun b => b.stock) = some 2 ∧
      (Cart.findOne Sample.afterAnnAdds.carts 100).map
        (fun c => c.items.map (fun x => (x.book, x.quantity))) = some [(1, 2)]) ∧
    ((addToCart Sample.afterAnnAdds Sample.annAddsTwo).1.isSuccess = true ∧
      (Cart.findOne (addToCart Sample.afterAnnAdds Sample.annAddsTwo).2.carts 100).map
        (fun c => c.items.map (fun x => (x.book, x.quantity))) = some [(1, 4)]) ∧
    (Sample.annAddsTwoText.valid = true ∧
      (addToCart Sample.afterAnnAdds Sample.annAddsTwoText).1.isSuccess = true ∧
      (Cart.findOne (addToCart Sample.afterAnnAdds Sample.annAddsTwoText).2.carts 100).map
        (fun c => c.items.map (fun x => (x.book, x.quantity))) = some [(1, 22)]) ∧
    (Sample.annAddsTwoUpper.valid = true ∧
      (addToCart Sample.afterAnnAdds Sample.annAddsTwoUpper).1.isSuccess = true ∧
      (Cart.findOne (addToCart Sample.afterAnnAdds Sample.annAddsTwoUpper).2.carts 100).map
        (fun c => c.items.map (fun x => (x.book, x.quantity))) = some [(1, 2), (1, 2)]) ∧
    (Sample.annAddsSigned.valid = true ∧
      Sample.annAddsSigned.quantity.toNumber = some 1 ∧
      addToCart Sample.afterAnnAdds Sample.annAddsSigned =
        (Response.thrown Thrown.validationError, Sample.afterAnnAdds)) := by
  decide

end BookStore
